import Mathlib

/-!
# QLowEnergyController, Windows backend (`src/bluetooth/qlowenergycontroller_win.cpp`)

A shallow embedding of the GATT query primitives and of the controller's
connection life cycle, followed by the properties proved about them.

Conventions of the embedding:

* a `forever` loop is a function with a fuel argument; `none` means the fuel ran out;
* the native layer is a stream of replies, the reply to the `i`-th call of one query;
* signals emitted by the controller are appended to a log kept in the controller;
* bytes, handles and error codes are natural numbers.
-/

namespace QLowEnergyWin

/-! ## Win32 constants -/

/-- Win32 `NO_ERROR`. -/
def NO_ERROR : Nat := 0

/-- Win32 `ERROR_PATH_NOT_FOUND`. -/
def ERROR_PATH_NOT_FOUND : Nat := 3

/-- Win32 `ERROR_NOT_SUPPORTED`. -/
def ERROR_NOT_SUPPORTED : Nat := 50

/-- Win32 `ERROR_NOT_FOUND`. -/
def ERROR_NOT_FOUND : Nat := 1168

/-- Win32 `INVALID_HANDLE_VALUE`, the all-ones pointer. -/
def INVALID_HANDLE_VALUE : Nat := 2 ^ 64 - 1

/-- Win32 `GENERIC_READ`. -/
def GENERIC_READ : Nat := 0x80000000

/-- Win32 `GENERIC_WRITE`. -/
def GENERIC_WRITE : Nat := 0x40000000

/-- Win32 `FILE_SHARE_READ`. -/
def FILE_SHARE_READ : Nat := 1

/-- Win32 `FILE_SHARE_WRITE`. -/
def FILE_SHARE_WRITE : Nat := 2

/-! ## Native GATT records (`windows/qwinlowenergybluetooth_p.h`) -/

/-- The 128-bit value of a `QBluetoothUuid`. -/
abbrev QBluetoothUuid := Nat

/-- Attribute handle, `QLowEnergyHandle` (a `quint16`). -/
abbrev QLowEnergyHandle := Nat

/-- Native `BTH_LE_UUID`: the flag `IsShortUuid` selects the member of the union. -/
inductive BTH_LE_UUID where
  | ShortUuid (value : Nat)
  | LongUuid (value : Nat)
  deriving DecidableEq, Repr

/-- Native `BTH_LE_GATT_SERVICE`. -/
structure BTH_LE_GATT_SERVICE where
  ServiceUuid : BTH_LE_UUID
  AttributeHandle : Nat
  deriving DecidableEq, Repr

/-- Native `BTH_LE_GATT_CHARACTERISTIC`. -/
structure BTH_LE_GATT_CHARACTERISTIC where
  ServiceHandle : Nat
  CharacteristicUuid : BTH_LE_UUID
  AttributeHandle : Nat
  CharacteristicValueHandle : Nat
  IsBroadcastable : Bool
  IsReadable : Bool
  IsWritable : Bool
  IsWritableWithoutResponse : Bool
  IsSignedWritable : Bool
  IsNotifiable : Bool
  IsIndicatable : Bool
  HasExtendedProperties : Bool
  deriving DecidableEq, Repr

/-- Native `BTH_LE_GATT_DESCRIPTOR` (the descriptor type tag is not read by the controller). -/
structure BTH_LE_GATT_DESCRIPTOR where
  ServiceHandle : Nat
  CharacteristicHandle : Nat
  DescriptorUuid : BTH_LE_UUID
  AttributeHandle : Nat
  deriving DecidableEq, Repr

/-- A zero-filled `BTH_LE_UUID`, as `QVector::resize` leaves a fresh element. -/
instance : Inhabited BTH_LE_UUID := ⟨BTH_LE_UUID.LongUuid 0⟩

/-- A zero-filled service record. -/
instance : Inhabited BTH_LE_GATT_SERVICE := ⟨⟨default, 0⟩⟩

/-- A zero-filled characteristic record. -/
instance : Inhabited BTH_LE_GATT_CHARACTERISTIC :=
  ⟨⟨0, default, 0, 0, false, false, false, false, false, false, false, false⟩⟩

/-- A zero-filled descriptor record. -/
instance : Inhabited BTH_LE_GATT_DESCRIPTOR := ⟨⟨0, 0, default, 0⟩⟩

/-! ## The native query interface -/

/-- What one native `BluetoothGATTGet...` call answers.

* `moreData n`: the result is `HRESULT_FROM_WIN32(ERROR_MORE_DATA)` and the
  count written back through the `USHORT` out-parameter is `n`; the loops
  store and pass it on unchanged, they do no arithmetic on it;
* `ok written`: the result is `S_OK` and the call stored `written` at the start
  of the caller's buffer;
* `failed lastError`: any other result; `lastError` is what `::GetLastError()`
  returns right after the call. -/
inductive NativeReply (α : Type) where
  | moreData (required : Nat)
  | ok (written : List α)
  | failed (lastError : Nat)
  deriving Repr

/-- The native layer during one query: the reply to call number `i`. -/
abbrev NativeLayer (α : Type) := Nat → NativeReply α

/-- The effect of `QVector::resize` on the vectors of the enumerations: keep
the first `n` elements, pad with default-constructed (zero-filled) elements
up to `n`. -/
def resize {α : Type} [Inhabited α] (buf : List α) (n : Nat) : List α :=
  buf.take n ++ List.replicate (n - buf.length) default

/-- The buffer after a successful native call: the call overwrites the
leading slots, never more than the buffer has, and leaves the others alone. -/
def fill {α : Type} (buf written : List α) : List α :=
  written.take buf.length ++ buf.drop written.length

/-- What an enumeration hands back: the error code stored through
`systemErrorCode`, the returned vector, and the capacities of the native
calls it issued, in order. -/
structure QueryRun (α : Type) where
  systemErrorCode : Nat
  result : List α
  capacities : List Nat
  deriving Repr

/-- The `forever` loop shared, word for word, by `enumeratePrimaryGattServices`,
`enumerateGattCharacteristics` and `enumerateGattDescriptors`.
`i` numbers the native call, `found` is the vector, `count` the `USHORT`
passed as capacity, `issued` the capacities used so far. -/
def enumerateLoop {α : Type} [Inhabited α] (native : NativeLayer α) :
    Nat → Nat → List α → Nat → List Nat → Option (QueryRun α)
  | 0, _, _, _, _ => none
  | fuel + 1, i, found, count, issued =>
    match native i with
    | NativeReply.moreData n =>
      enumerateLoop native fuel (i + 1) (resize found n) n (issued ++ [count])
    | NativeReply.ok written =>
      some ⟨NO_ERROR, fill found written, issued ++ [count]⟩
    | NativeReply.failed lastError =>
      some ⟨lastError, [], issued ++ [count]⟩

/-- Source `enumeratePrimaryGattServices`. -/
def enumeratePrimaryGattServices (gattFunctionsResolved : Bool)
    (native : NativeLayer BTH_LE_GATT_SERVICE) (fuel : Nat) :
    Option (QueryRun BTH_LE_GATT_SERVICE) :=
  if !gattFunctionsResolved then some ⟨ERROR_NOT_SUPPORTED, [], []⟩
  else enumerateLoop native fuel 0 [] 0 []

/-- Source `enumerateGattCharacteristics`. -/
def enumerateGattCharacteristics (gattFunctionsResolved : Bool)
    (native : NativeLayer BTH_LE_GATT_CHARACTERISTIC) (fuel : Nat) :
    Option (QueryRun BTH_LE_GATT_CHARACTERISTIC) :=
  if !gattFunctionsResolved then some ⟨ERROR_NOT_SUPPORTED, [], []⟩
  else enumerateLoop native fuel 0 [] 0 []

/-- Source `enumerateGattDescriptors`. -/
def enumerateGattDescriptors (gattFunctionsResolved : Bool)
    (native : NativeLayer BTH_LE_GATT_DESCRIPTOR) (fuel : Nat) :
    Option (QueryRun BTH_LE_GATT_DESCRIPTOR) :=
  if !gattFunctionsResolved then some ⟨ERROR_NOT_SUPPORTED, [], []⟩
  else enumerateLoop native fuel 0 [] 0 []

/-- The native layer during one value retrieval: the reply to call number `i`,
and the bytes found in the memory that `QByteArray::resize` adds to the value
buffer without initialising it: `uninitialised i j` is the byte at position
`j` of the buffer right after the resize that answers reply number `i`. -/
structure ValueLayer where
  reply : NativeLayer Nat
  uninitialised : Nat → Nat → Nat

/-- The effect of `QByteArray::resize` on a value buffer: keep the first `n`
bytes; the bytes added up to `n` are not initialised, they hold whatever the
memory held. -/
def resizeBytes (uninitialised : Nat → Nat) (buf : List Nat) (n : Nat) : List Nat :=
  buf.take n ++ (List.range (n - buf.length)).map (fun j => uninitialised (buf.length + j))

/-- A `ULONG` read from the first four bytes of `buf`, in the byte order of the
Windows targets (little endian). -/
def readDataSize (buf : List Nat) : Nat :=
  buf.getD 0 0 + 256 * buf.getD 1 0 + 65536 * buf.getD 2 0 + 16777216 * buf.getD 3 0

/-- Modelled from the spec: `BTH_LE_GATT_CHARACTERISTIC_VALUE` is declared in
`windows/qwinlowenergybluetooth_p.h`, outside this file, as `ULONG DataSize`
followed by `UCHAR Data[1]`: a 4-byte length header at byte offset 0 and the
data behind it, at offset 4. -/
def characteristicValueDataSizeOffset : Nat := 0

/-- Modelled from the spec: `BTH_LE_GATT_DESCRIPTOR_VALUE` is declared in
`windows/qwinlowenergybluetooth_p.h`, outside this file: `DescriptorType`
(4 bytes), `DescriptorUuid` (a `BTH_LE_UUID`, 20 bytes) and a union of the
typed descriptor contents (48 bytes) come first, so `ULONG DataSize` is at
byte offset 72 and `UCHAR Data[1]` at offset 76. -/
def descriptorValueDataSizeOffset : Nat := 72

/-- The memory `valueBuffer.data()` points to: the bytes of the buffer and the
terminating zero byte that `QByteArray` keeps behind them (for the empty
buffer, that zero byte alone). -/
def bufferMemory (valueBuffer : List Nat) : List Nat :=
  valueBuffer ++ [0]

/-- The success branch of the value retrievals:
`QByteArray(&value->Data[0], value->DataSize)` read from the memory of
`valueBuffer`, in which the `DataSize` field is at byte offset
`dataSizeOffset` and the data follow it. The `ULONG DataSize` is handed to
the `int size` of the `QByteArray` constructor: below 2^31 it is the number
of bytes copied; from 2^31 on the `int` is negative and the constructor
copies the bytes in front of the first zero byte. `none` when the `DataSize`
field or the bytes read behind it do not lie inside the memory of the
buffer. -/
def readValue (dataSizeOffset : Nat) (valueBuffer : List Nat) : Option (List Nat) :=
  if dataSizeOffset + 4 ≤ (bufferMemory valueBuffer).length then
    let dataSize := readDataSize ((bufferMemory valueBuffer).drop dataSizeOffset) % 2 ^ 32
    if dataSize < 2 ^ 31 then
      if dataSizeOffset + 4 + dataSize ≤ (bufferMemory valueBuffer).length then
        some (((bufferMemory valueBuffer).drop (dataSizeOffset + 4)).take dataSize)
      else none
    else if dataSizeOffset + 4 < (bufferMemory valueBuffer).length then
      some (((bufferMemory valueBuffer).drop (dataSizeOffset + 4)).takeWhile (fun b => b != 0))
    else none
  else none

/-- What a value retrieval hands back; `result = none` marks a read outside
the memory of the buffer in the success branch. -/
structure ValueRun where
  systemErrorCode : Nat
  result : Option (List Nat)
  capacities : List Nat
  deriving Repr

/-- The `forever` loop shared by `getGattCharacteristicValue` and
`getGattDescriptorValue`; they differ in the structure the buffer is cast
to, that is in the offset of its `DataSize` field. -/
def valueLoop (native : ValueLayer) (dataSizeOffset : Nat) :
    Nat → Nat → List Nat → Nat → List Nat → Option ValueRun
  | 0, _, _, _, _ => none
  | fuel + 1, i, valueBuffer, valueBufferSize, issued =>
    match native.reply i with
    | NativeReply.moreData n =>
      valueLoop native dataSizeOffset fuel (i + 1)
        (resizeBytes (native.uninitialised i) valueBuffer n) n (issued ++ [valueBufferSize])
    | NativeReply.ok written =>
      some ⟨NO_ERROR, readValue dataSizeOffset (fill valueBuffer written),
        issued ++ [valueBufferSize]⟩
    | NativeReply.failed lastError =>
      some ⟨lastError, some [], issued ++ [valueBufferSize]⟩

/-- Source `getGattCharacteristicValue`: the buffer is cast to
`PBTH_LE_GATT_CHARACTERISTIC_VALUE`. -/
def getGattCharacteristicValue (gattFunctionsResolved : Bool)
    (native : ValueLayer) (fuel : Nat) : Option ValueRun :=
  if !gattFunctionsResolved then some ⟨ERROR_NOT_SUPPORTED, some [], []⟩
  else valueLoop native characteristicValueDataSizeOffset fuel 0 [] 0 []

/-- Source `getGattDescriptorValue`: the buffer is cast to
`PBTH_LE_GATT_DESCRIPTOR_VALUE`. -/
def getGattDescriptorValue (gattFunctionsResolved : Bool)
    (native : ValueLayer) (fuel : Nat) : Option ValueRun :=
  if !gattFunctionsResolved then some ⟨ERROR_NOT_SUPPORTED, some [], []⟩
  else valueLoop native descriptorValueDataSizeOffset fuel 0 [] 0 []

/-- The capacities announced by a run of insufficient-space replies followed
by a reply that ends the query: `native` answers `moreData sizes[j]` to call
`j` for every `j < sizes.length`. -/
def AnswersMoreData {α : Type} (native : NativeLayer α) (sizes : List Nat) : Prop :=
  ∀ j, (h : j < sizes.length) → native j = NativeReply.moreData (sizes.get ⟨j, h⟩)

/-- The vector after resizing it to each announced size in turn. -/
def resizeAll {α : Type} [Inhabited α] (buf : List α) (sizes : List Nat) : List α :=
  sizes.foldl resize buf

/-- The value buffer after resizing it to each announced size in turn, the
first resize answering reply number `i`. -/
def resizeAllBytes (uninitialised : Nat → Nat → Nat) : Nat → List Nat → List Nat → List Nat
  | _, buf, [] => buf
  | i, buf, n :: rest =>
    resizeAllBytes uninitialised (i + 1) (resizeBytes (uninitialised i) buf n) rest

/-- The value buffer in the success branch of a value retrieval that was
answered insufficient-space with the sizes `sizes` and then `S_OK` with the
bytes `written` stored: the buffer resized to each size in turn, its leading
bytes overwritten by the native call. -/
def successBuffer (native : ValueLayer) (sizes : List Nat) (written : List Nat) : List Nat :=
  fill (resizeAllBytes native.uninitialised 0 [] sizes) written

/-- The capacity in force after the announced sizes: the last of them, or
`count` when there is none. -/
def lastAnnounced (count : Nat) : List Nat → Nat
  | [] => count
  | n :: rest => lastAnnounced n rest

/-! ## UUID conversion -/

/-- Modelled from the spec: the constructor `QBluetoothUuid(quint16)` is defined
outside this file. A 16-bit short form is stored in its 128-bit form, the
Bluetooth base UUID `0000xxxx-0000-1000-8000-00805F9B34FB` with the short
value in the first field. -/
def QBluetoothUuid.fromShort (uuid16 : Nat) : QBluetoothUuid :=
  uuid16 * 2 ^ 96 + 0x00001000800000805F9B34FB

/-- Source `qtBluetoothUuidFromNativeLeUuid`. -/
def qtBluetoothUuidFromNativeLeUuid (uuid : BTH_LE_UUID) : QBluetoothUuid :=
  match uuid with
  | BTH_LE_UUID.ShortUuid value => QBluetoothUuid.fromShort value
  | BTH_LE_UUID.LongUuid value => value

/-! ## Controller and service records (`qlowenergycontroller_p.h`, `qlowenergyserviceprivate_p.h`) -/

/-- The states of `QLowEnergyController::ControllerState`. -/
inductive ControllerState where
  | UnconnectedState
  | ConnectingState
  | ConnectedState
  | DiscoveringState
  | DiscoveredState
  | ClosingState
  deriving DecidableEq, Repr

/-- The errors of `QLowEnergyController::Error`. -/
inductive ControllerError where
  | NoError
  | UnknownError
  | UnknownRemoteDeviceError
  | NetworkError
  | InvalidBluetoothAdapterError
  | ConnectionError
  deriving DecidableEq, Repr

/-- The types of `QLowEnergyService::ServiceType`. -/
inductive ServiceType where
  | PrimaryService
  | IncludedService
  deriving DecidableEq, Repr

/-- The states of `QLowEnergyService::ServiceState`. -/
inductive ServiceState where
  | InvalidService
  | DiscoveryRequired
  | DiscoveringServices
  | ServiceDiscovered
  deriving DecidableEq, Repr

/-- The errors of `QLowEnergyService::ServiceError`. -/
inductive ServiceError where
  | NoError
  | OperationError
  | CharacteristicWriteError
  | DescriptorWriteError
  | CharacteristicReadError
  | DescriptorReadError
  | UnknownError
  deriving DecidableEq, Repr

/-- A map keyed by numbers (`QMap`, `QHash`), kept as a list sorted by key
with one entry per key. -/
abbrev NatMap (β : Type) := List (Nat × β)

/-- The effect of `insert` on a map: the value of an existing key is replaced. -/
def NatMap.insert {β : Type} (k : Nat) (v : β) : NatMap β → NatMap β
  | [] => [(k, v)]
  | (k0, v0) :: rest =>
    if k < k0 then (k, v) :: (k0, v0) :: rest
    else if k = k0 then (k, v) :: rest
    else (k0, v0) :: NatMap.insert k v rest

/-- The effect of `contains` on a map. -/
def NatMap.contains {β : Type} (m : NatMap β) (k : Nat) : Bool :=
  m.any (fun p => p.1 == k)

/-- The effect of `value` on a map. -/
def NatMap.value {β : Type} (m : NatMap β) (k : Nat) : Option β :=
  (m.find? (fun p => p.1 == k)).map Prod.snd

/-- Cached descriptor, `QLowEnergyServicePrivate::DescData`. -/
structure DescData where
  uuid : QBluetoothUuid
  value : List Nat
  deriving DecidableEq, Repr

/-- Cached characteristic, `QLowEnergyServicePrivate::CharData`. -/
structure CharData where
  valueHandle : QLowEnergyHandle
  uuid : QBluetoothUuid
  properties : Nat
  value : List Nat
  descriptorList : NatMap DescData
  deriving DecidableEq, Repr

/-- The fields of `QLowEnergyServicePrivate` the controller works on. -/
structure QLowEnergyServicePrivate where
  uuid : QBluetoothUuid
  type : ServiceType
  state : ServiceState
  error : ServiceError
  startHandle : QLowEnergyHandle
  endHandle : QLowEnergyHandle
  characteristicList : NatMap CharData
  deriving DecidableEq, Repr

/-- The signals of `QLowEnergyController` and of its `QLowEnergyService`s
(a service is named by its UUID). -/
inductive Signal where
  | error (newError : ControllerError)
  | stateChanged (state : ControllerState)
  | connected
  | disconnected
  | serviceDiscovered (newService : QBluetoothUuid)
  | discoveryFinished
  | serviceError (service : QBluetoothUuid) (newError : ServiceError)
  | serviceStateChanged (service : QBluetoothUuid) (newState : ServiceState)
  | characteristicRead (service : QBluetoothUuid) (handle : QLowEnergyHandle) (value : List Nat)
  | characteristicWritten (service : QBluetoothUuid) (handle : QLowEnergyHandle) (value : List Nat)
  deriving DecidableEq, Repr

/-- The fields of `QLowEnergyControllerPrivate`, with four logs of what has
happened so far: the signals emitted in order, the number of calls of the
identity resolver, and the numbers of native handles opened and closed.

`remoteDevice` is the 48-bit device address; `deviceSystemPath` is the
resolved system identity as a sequence of UTF-16 code units; `serviceList`
is keyed by service UUID. -/
structure QLowEnergyControllerPrivate where
  remoteDevice : Nat
  deviceSystemPath : List Nat
  state : ControllerState
  error : ControllerError
  serviceList : NatMap QLowEnergyServicePrivate
  signals : List Signal
  resolverCalls : Nat
  handlesOpened : Nat
  handlesClosed : Nat
  deriving DecidableEq, Repr

namespace QLowEnergyControllerPrivate

/-- Append a signal to the log: `emit q->...`. -/
def emit (s : Signal) (d : QLowEnergyControllerPrivate) : QLowEnergyControllerPrivate :=
  { d with signals := d.signals ++ [s] }

/-- Modelled from the spec: `QLowEnergyControllerPrivate::setError` is defined in
`qlowenergycontroller.cpp`, outside this file. It surfaces a typed error:
the error is stored and the `error` signal is emitted. -/
def setError (newError : ControllerError) (d : QLowEnergyControllerPrivate) :
    QLowEnergyControllerPrivate :=
  emit (Signal.error newError) { d with error := newError }

/-- Modelled from the spec: `QLowEnergyControllerPrivate::setState` is defined in
`qlowenergycontroller.cpp`, outside this file. A transition is observed when
the state changes: setting the state the controller is already in does
nothing, otherwise the state is stored and `stateChanged` is emitted. -/
def setState (newState : ControllerState) (d : QLowEnergyControllerPrivate) :
    QLowEnergyControllerPrivate :=
  if d.state = newState then d
  else emit (Signal.stateChanged newState) { d with state := newState }

/-- The controller as the constructor leaves it. -/
def initial (remoteDevice : Nat) : QLowEnergyControllerPrivate :=
  { remoteDevice := remoteDevice, deviceSystemPath := [],
    state := ControllerState.UnconnectedState, error := ControllerError.NoError,
    serviceList := [], signals := [], resolverCalls := 0,
    handlesOpened := 0, handlesClosed := 0 }

/-- The state transitions observed since the log `before`: the states carried
by the `stateChanged` signals emitted after it. -/
def transitionsSince (before : List Signal) (d : QLowEnergyControllerPrivate) :
    List ControllerState :=
  (d.signals.drop before.length).filterMap
    (fun s => match s with
      | Signal.stateChanged st => some st
      | _ => none)

/-- Source `QLowEnergyControllerPrivate::connectToDevice`.
`discoveredLeDeviceSystemPath` is the identity resolver
`QBluetoothDeviceDiscoveryAgentPrivate::discoveredLeDeviceSystemPath`; a null
address is the address 0. -/
def connectToDevice (discoveredLeDeviceSystemPath : Nat → List Nat)
    (d : QLowEnergyControllerPrivate) : QLowEnergyControllerPrivate :=
  if d.remoteDevice = 0 then
    setError ControllerError.UnknownRemoteDeviceError d
  else if d.deviceSystemPath ≠ [] then
    d
  else
    let d1 := setState ControllerState.ConnectingState d
    let d2 := { d1 with
      deviceSystemPath := discoveredLeDeviceSystemPath d1.remoteDevice,
      resolverCalls := d1.resolverCalls + 1 }
    if d2.deviceSystemPath = [] then
      setState ControllerState.UnconnectedState
        (setError ControllerError.UnknownRemoteDeviceError d2)
    else
      emit Signal.connected (setState ControllerState.ConnectedState d2)

/-- Source `QLowEnergyControllerPrivate::disconnectFromDevice`. -/
def disconnectFromDevice (d : QLowEnergyControllerPrivate) : QLowEnergyControllerPrivate :=
  if d.deviceSystemPath = [] then
    d
  else
    let d1 := setState ControllerState.ClosingState d
    let d2 := { d1 with deviceSystemPath := [] }
    emit Signal.disconnected (setState ControllerState.UnconnectedState d2)

end QLowEnergyControllerPrivate

/-! ## Native handles -/

/-- `QIODevice::ReadOnly`. -/
def QIODevice.ReadOnly : Nat := 1

/-- `QIODevice::WriteOnly`. -/
def QIODevice.WriteOnly : Nat := 2

/-- `QIODevice::ReadWrite`. -/
def QIODevice.ReadWrite : Nat := 3

/-- What `::CreateFile` answers: the handle, and what `::GetLastError()` returns
right after the call. -/
structure CreateFileResult where
  hDevice : Nat
  lastError : Nat
  deriving DecidableEq, Repr

/-- The native `::CreateFile`, as a function of the path, the desired access
and the share mode. -/
abbrev CreateFileFn := List Nat → Nat → Nat → CreateFileResult

/-- Source `openSystemDevice`: the handle and the value stored through
`systemErrorCode`. -/
def openSystemDevice (CreateFile : CreateFileFn) (systemPath : List Nat) (openMode : Nat) :
    Nat × Nat :=
  let desiredAccess0 := 0
  let shareMode0 := 0
  let desiredAccess1 :=
    if openMode &&& QIODevice.ReadOnly ≠ 0 then desiredAccess0 ||| GENERIC_READ
    else desiredAccess0
  let shareMode1 :=
    if openMode &&& QIODevice.ReadOnly ≠ 0 then shareMode0 ||| FILE_SHARE_READ
    else shareMode0
  let desiredAccess2 :=
    if openMode &&& QIODevice.WriteOnly ≠ 0 then desiredAccess1 ||| GENERIC_WRITE
    else desiredAccess1
  let shareMode2 :=
    if openMode &&& QIODevice.WriteOnly ≠ 0 then shareMode1 ||| FILE_SHARE_WRITE
    else shareMode1
  let r := CreateFile systemPath desiredAccess2 shareMode2
  (r.hDevice, if r.hDevice = INVALID_HANDLE_VALUE then r.lastError else NO_ERROR)

/-- Source `closeSystemDevice`: whether `::CloseHandle` is called. -/
def closeSystemDevice (hDevice : Nat) : Bool :=
  hDevice ≠ 0 && hDevice ≠ INVALID_HANDLE_VALUE

namespace QLowEnergyControllerPrivate

/-- Log the outcome of an open: a handle other than `INVALID_HANDLE_VALUE` is
an open handle. -/
def noteOpen (hDevice : Nat) (d : QLowEnergyControllerPrivate) : QLowEnergyControllerPrivate :=
  if hDevice = INVALID_HANDLE_VALUE then d
  else { d with handlesOpened := d.handlesOpened + 1 }

/-- Log a call of `closeSystemDevice`. -/
def noteClose (hDevice : Nat) (d : QLowEnergyControllerPrivate) : QLowEnergyControllerPrivate :=
  if closeSystemDevice hDevice then { d with handlesClosed := d.handlesClosed + 1 }
  else d

/-- Modelled from the spec: the constructor of `QLowEnergyServicePrivate` and its
`setController` are defined outside this file. A service created on a
discovery response is primary, has no error, no handles yet and no details,
and, once attached to a controller, waits for its detail discovery. -/
def newService : QLowEnergyServicePrivate :=
  { uuid := 0, type := ServiceType.PrimaryService, state := ServiceState.DiscoveryRequired,
    error := ServiceError.NoError, startHandle := 0, endHandle := 0,
    characteristicList := [] }

/-- The body of the `foreach` over the found services in `discoverServices`. -/
def addFoundService (d : QLowEnergyControllerPrivate) (service : BTH_LE_GATT_SERVICE) :
    QLowEnergyControllerPrivate :=
  let uuid := qtBluetoothUuidFromNativeLeUuid service.ServiceUuid
  let priv := { newService with
    uuid := uuid, type := ServiceType.PrimaryService,
    startHandle := service.AttributeHandle }
  emit (Signal.serviceDiscovered uuid)
    { d with serviceList := NatMap.insert uuid priv d.serviceList }

/-- Source `QLowEnergyControllerPrivate::discoverServices`. `none` when the
enumeration never returns within `fuel` native calls. -/
def discoverServices (CreateFile : CreateFileFn) (gattFunctionsResolved : Bool)
    (native : NativeLayer BTH_LE_GATT_SERVICE) (fuel : Nat)
    (d : QLowEnergyControllerPrivate) : Option QLowEnergyControllerPrivate :=
  let opened := openSystemDevice CreateFile d.deviceSystemPath QIODevice.ReadOnly
  let hDevice := opened.1
  let d0 := noteOpen hDevice d
  if opened.2 ≠ NO_ERROR then
    some (setState ControllerState.ConnectedState (setError ControllerError.NetworkError d0))
  else
    match enumeratePrimaryGattServices gattFunctionsResolved native fuel with
    | none => none
    | some run =>
      let d1 := noteClose hDevice d0
      if run.systemErrorCode ≠ NO_ERROR then
        some (setState ControllerState.ConnectedState
          (setError ControllerError.NetworkError d1))
      else
        let d2 := setState ControllerState.DiscoveringState d1
        let d3 := run.result.foldl addFoundService d2
        some (emit Signal.discoveryFinished (setState ControllerState.DiscoveredState d3))

end QLowEnergyControllerPrivate

/-! ## Concrete inputs used in the examples -/

/-- A battery service at handle 16. -/
def exampleServiceA : BTH_LE_GATT_SERVICE := ⟨BTH_LE_UUID.ShortUuid 0x180F, 16⟩

/-- A device-information service at handle 32. -/
def exampleServiceB : BTH_LE_GATT_SERVICE := ⟨BTH_LE_UUID.ShortUuid 0x180A, 32⟩

/-- A native layer that asks for two entries, then fills them. -/
def retryOnceLayer : NativeLayer BTH_LE_GATT_SERVICE := fun i =>
  match i with
  | 0 => NativeReply.moreData 2
  | _ => NativeReply.ok [exampleServiceA, exampleServiceB]

/-- A native layer that asks for two entries, then fills only the first. -/
def shortFillLayer : NativeLayer BTH_LE_GATT_SERVICE := fun i =>
  match i with
  | 0 => NativeReply.moreData 2
  | _ => NativeReply.ok [exampleServiceA]

/-- A native layer that asks for one entry, then for two, then fills them. -/
def retryTwiceLayer : NativeLayer BTH_LE_GATT_SERVICE := fun i =>
  match i with
  | 0 => NativeReply.moreData 1
  | 1 => NativeReply.moreData 2
  | _ => NativeReply.ok [exampleServiceA, exampleServiceB]

/-- A native layer for the retrieval of a characteristic value: six bytes are
needed, then a value of two bytes, 7 and 9, is stored behind its length
header; memory that is not initialised holds the byte 0xAA. -/
def valueOnceLayer : ValueLayer where
  reply := fun i =>
    match i with
    | 0 => NativeReply.moreData 6
    | _ => NativeReply.ok [2, 0, 0, 0, 7, 9]
  uninitialised := fun _ _ => 0xAA

/-- A native layer for the retrieval of a descriptor value: 78 bytes are
needed, then the native call stores the 72 bytes in front of `DataSize`
(zero here, the controller does not read them), the length 2 and the value
7, 9; memory that is not initialised holds the byte 0xAA. -/
def descriptorValueOnceLayer : ValueLayer where
  reply := fun i =>
    match i with
    | 0 => NativeReply.moreData 78
    | _ => NativeReply.ok (List.replicate 72 0 ++ [2, 0, 0, 0, 7, 9])
  uninitialised := fun _ _ => 0xAA

/-- A native layer for a value retrieval whose every call fails hard with the
last-error value `lastError`. -/
def failingValueLayer (lastError : Nat) : ValueLayer where
  reply := fun _ => NativeReply.failed lastError
  uninitialised := fun _ _ => 0xAA

/-- The signals emitted since the log `before`. -/
def QLowEnergyControllerPrivate.signalsSince (before : List Signal)
    (d : QLowEnergyControllerPrivate) : List Signal :=
  d.signals.drop before.length

/-- An identity resolver that knows every device under the path "A". -/
def exampleResolver : Nat → List Nat := fun _ => [65]

/-- An identity resolver that knows no device. -/
def emptyResolver : Nat → List Nat := fun _ => []

/-- A native `::CreateFile` that opens every path as handle 7. -/
def exampleCreateFile : CreateFileFn := fun _ _ _ => ⟨7, 0⟩

/-- A controller for the device address 5, connected. -/
def exampleConnected : QLowEnergyControllerPrivate :=
  QLowEnergyControllerPrivate.connectToDevice exampleResolver
    (QLowEnergyControllerPrivate.initial 5)

/-- The connected controller after a service discovery that found two services. -/
def exampleDiscovered : QLowEnergyControllerPrivate :=
  (QLowEnergyControllerPrivate.discoverServices exampleCreateFile true retryOnceLayer 2
    exampleConnected).getD exampleConnected

/-- The low 96 bits of the Bluetooth base UUID `00000000-0000-1000-8000-00805F9B34FB`. -/
def baseUuidTail : Nat := 0x00001000800000805F9B34FB

/-- Modelled from the spec: the member `data1` of a `QBluetoothUuid` (a `QUuid`) is
declared outside this file. It is the first, 32-bit field of the 128-bit
value. -/
def QBluetoothUuid.data1 (uuid : QBluetoothUuid) : Nat :=
  (uuid / 2 ^ 96) % 2 ^ 32

/-- Modelled from the spec: `QBluetoothUuid::minimumSize` is defined outside this
file. A UUID derived from a 16-bit short form (the base UUID with a first
field below 65536) has minimum size 2, one derived from a 32-bit form has
minimum size 4, every other UUID has minimum size 16. -/
def QBluetoothUuid.minimumSize (uuid : QBluetoothUuid) : Nat :=
  if uuid % 2 ^ 96 = baseUuidTail then
    if QBluetoothUuid.data1 uuid &&& 0xFFFF0000 ≠ 0 then 4 else 2
  else 16

/-- Source `nativeLeUuidFromQtBluetoothUuid`; the assignment to the `USHORT`
member keeps the low 16 bits of `data1`. -/
def nativeLeUuidFromQtBluetoothUuid (uuid : QBluetoothUuid) : BTH_LE_UUID :=
  if QBluetoothUuid.minimumSize uuid = 2 then
    BTH_LE_UUID.ShortUuid (QBluetoothUuid.data1 uuid % 65536)
  else
    BTH_LE_UUID.LongUuid uuid

/-! ## Characteristic properties (`qlowenergycharacteristic.h`) -/

/-- `QLowEnergyCharacteristic::Unknown`. -/
def QLowEnergyCharacteristic.Unknown : Nat := 0x00

/-- `QLowEnergyCharacteristic::Broadcasting`. -/
def QLowEnergyCharacteristic.Broadcasting : Nat := 0x01

/-- `QLowEnergyCharacteristic::Read`. -/
def QLowEnergyCharacteristic.Read : Nat := 0x02

/-- `QLowEnergyCharacteristic::WriteNoResponse`. -/
def QLowEnergyCharacteristic.WriteNoResponse : Nat := 0x04

/-- `QLowEnergyCharacteristic::Write`. -/
def QLowEnergyCharacteristic.Write : Nat := 0x08

/-- `QLowEnergyCharacteristic::Notify`. -/
def QLowEnergyCharacteristic.Notify : Nat := 0x10

/-- `QLowEnergyCharacteristic::Indicate`. -/
def QLowEnergyCharacteristic.Indicate : Nat := 0x20

/-- `QLowEnergyCharacteristic::WriteSigned`. -/
def QLowEnergyCharacteristic.WriteSigned : Nat := 0x40

/-- `QLowEnergyCharacteristic::ExtendedProperty`. -/
def QLowEnergyCharacteristic.ExtendedProperty : Nat := 0x80

/-- The property set built in `discoverServiceDetails` from the eight native
booleans of a characteristic. -/
def decodeProperties (gattCharacteristic : BTH_LE_GATT_CHARACTERISTIC) : Nat :=
  let p0 := QLowEnergyCharacteristic.Unknown
  let p1 := if gattCharacteristic.HasExtendedProperties then
    p0 ||| QLowEnergyCharacteristic.ExtendedProperty else p0
  let p2 := if gattCharacteristic.IsBroadcastable then
    p1 ||| QLowEnergyCharacteristic.Broadcasting else p1
  let p3 := if gattCharacteristic.IsIndicatable then
    p2 ||| QLowEnergyCharacteristic.Indicate else p2
  let p4 := if gattCharacteristic.IsNotifiable then
    p3 ||| QLowEnergyCharacteristic.Notify else p3
  let p5 := if gattCharacteristic.IsReadable then
    p4 ||| QLowEnergyCharacteristic.Read else p4
  let p6 := if gattCharacteristic.IsSignedWritable then
    p5 ||| QLowEnergyCharacteristic.WriteSigned else p5
  let p7 := if gattCharacteristic.IsWritable then
    p6 ||| QLowEnergyCharacteristic.Write else p6
  if gattCharacteristic.IsWritableWithoutResponse then
    p7 ||| QLowEnergyCharacteristic.WriteNoResponse else p7

/-- Source `recoverNativeLeGattCharacteristic`. -/
def recoverNativeLeGattCharacteristic (serviceHandle characteristicHandle : QLowEnergyHandle)
    (characteristicData : CharData) : BTH_LE_GATT_CHARACTERISTIC :=
  { ServiceHandle := serviceHandle
    AttributeHandle := characteristicHandle
    CharacteristicValueHandle := characteristicData.valueHandle
    CharacteristicUuid := nativeLeUuidFromQtBluetoothUuid characteristicData.uuid
    HasExtendedProperties :=
      decide (characteristicData.properties &&& QLowEnergyCharacteristic.ExtendedProperty ≠ 0)
    IsBroadcastable :=
      decide (characteristicData.properties &&& QLowEnergyCharacteristic.Broadcasting ≠ 0)
    IsIndicatable :=
      decide (characteristicData.properties &&& QLowEnergyCharacteristic.Indicate ≠ 0)
    IsNotifiable :=
      decide (characteristicData.properties &&& QLowEnergyCharacteristic.Notify ≠ 0)
    IsReadable :=
      decide (characteristicData.properties &&& QLowEnergyCharacteristic.Read ≠ 0)
    IsSignedWritable :=
      decide (characteristicData.properties &&& QLowEnergyCharacteristic.WriteSigned ≠ 0)
    IsWritable :=
      decide (characteristicData.properties &&& QLowEnergyCharacteristic.Write ≠ 0)
    IsWritableWithoutResponse :=
      decide (characteristicData.properties &&& QLowEnergyCharacteristic.WriteNoResponse ≠ 0) }

/-! ## Writing a characteristic value -/

/-- `BLUETOOTH_GATT_FLAG_NONE`. -/
def BLUETOOTH_GATT_FLAG_NONE : Nat := 0x00000000

/-- `BLUETOOTH_GATT_FLAG_WRITE_WITHOUT_RESPONSE`. -/
def BLUETOOTH_GATT_FLAG_WRITE_WITHOUT_RESPONSE : Nat := 0x00000020

/-- The four bytes of a `ULONG` as `writeRawData` copies them from memory, in
the byte order of the Windows targets (little endian). -/
def ulongBytes (dataSize : Nat) : List Nat :=
  [dataSize % 256, dataSize / 256 % 256, dataSize / 65536 % 256, dataSize / 16777216 % 256]

/-- The `valueBuffer` built in `setGattCharacteristicValue`: the raw bytes of
`ULONG dataSize = value.size()` followed by the raw bytes of `value`. -/
def writeValueBuffer (value : List Nat) : List Nat :=
  let dataSize := value.length % 2 ^ 32
  ulongBytes dataSize ++ value

/-- What the native `BluetoothGATTSetCharacteristicValue` answers: whether the
result is `S_OK`, and what `::GetLastError()` returns right after the call. -/
structure SetReply where
  isOk : Bool
  lastError : Nat
  deriving DecidableEq, Repr

/-- The native `BluetoothGATTSetCharacteristicValue`, as a function of the
characteristic, the value buffer and the flags. -/
abbrev SetValueFn := BTH_LE_GATT_CHARACTERISTIC → List Nat → Nat → SetReply

/-- What `setGattCharacteristicValue` hands back: the value stored through
`systemErrorCode` and the buffers handed to the native call, in order. -/
structure SetRun where
  systemErrorCode : Nat
  payloads : List (List Nat)
  deriving DecidableEq, Repr

/-- Source `setGattCharacteristicValue`. -/
def setGattCharacteristicValue (gattFunctionsResolved : Bool) (nativeSet : SetValueFn)
    (gattCharacteristic : BTH_LE_GATT_CHARACTERISTIC) (value : List Nat) (flags : Nat) :
    SetRun :=
  if !gattFunctionsResolved then ⟨ERROR_NOT_SUPPORTED, []⟩
  else
    let valueBuffer := writeValueBuffer value
    let reply := nativeSet gattCharacteristic valueBuffer flags
    if !reply.isOk then ⟨reply.lastError, [valueBuffer]⟩
    else ⟨NO_ERROR, [valueBuffer]⟩

/-! ## Opening a service -/

/-- Win32 `ERROR_INSUFFICIENT_BUFFER`. -/
def ERROR_INSUFFICIENT_BUFFER : Nat := 122

/-- What the SetupAPI calls of `getServiceSystemPath` answer for one service:
the device information set of `SetupDiGetClassDevs`, the results of
`SetupDiEnumDeviceInterfaces` and of the two calls of
`SetupDiGetDeviceInterfaceDetail`, each with the value of `::GetLastError()`
right after it, and the device path of the detail data. -/
structure SetupDiReplies where
  deviceInfoSet : Nat
  classDevsLastError : Nat
  enumDeviceInterfaces : Bool
  enumLastError : Nat
  detailSizeCall : Bool
  detailSizeLastError : Nat
  detailCall : Bool
  detailLastError : Nat
  devicePath : List Nat
  deriving DecidableEq, Repr

/-- Source `getServiceSystemPath`: the path found and the value stored through
`systemErrorCode`. Every branch of the `forever` block ends in `break`. -/
def getServiceSystemPath (r : SetupDiReplies) : List Nat × Nat :=
  if r.deviceInfoSet = INVALID_HANDLE_VALUE then ([], r.classDevsLastError)
  else if !r.enumDeviceInterfaces then ([], r.enumLastError)
  else if !r.detailSizeCall ∧ r.detailSizeLastError ≠ ERROR_INSUFFICIENT_BUFFER then
    ([], r.detailSizeLastError)
  else if !r.detailCall then ([], r.detailLastError)
  else (r.devicePath, NO_ERROR)

/-- Source `openSystemService`: the handle and the value stored through
`systemErrorCode`. -/
def openSystemService (setupDi : QBluetoothUuid → SetupDiReplies) (CreateFile : CreateFileFn)
    (service : QBluetoothUuid) (openMode : Nat) : Nat × Nat :=
  let found := getServiceSystemPath (setupDi service)
  if found.2 ≠ NO_ERROR then (INVALID_HANDLE_VALUE, found.2)
  else
    let opened := openSystemDevice CreateFile found.1 openMode
    if opened.2 ≠ NO_ERROR then (INVALID_HANDLE_VALUE, opened.2)
    else (opened.1, opened.2)

/-! ## Detail discovery, reading and writing -/

/-- The native layer as the controller's operations see it: whether the GATT
functions were resolved, the SetupAPI and `::CreateFile` answers, the replies
to each kind of query (those about a characteristic or a descriptor depend on
the record handed to the call), the native write, and the fuel given to each
query loop. -/
structure GattEnv where
  gattFunctionsResolved : Bool
  setupDi : QBluetoothUuid → SetupDiReplies
  CreateFile : CreateFileFn
  characteristics : NativeLayer BTH_LE_GATT_CHARACTERISTIC
  characteristicValue : BTH_LE_GATT_CHARACTERISTIC → ValueLayer
  descriptors : BTH_LE_GATT_CHARACTERISTIC → NativeLayer BTH_LE_GATT_DESCRIPTOR
  descriptorValue : BTH_LE_GATT_DESCRIPTOR → ValueLayer
  setCharacteristicValue : SetValueFn
  fuel : Nat

/-- A service under work together with the controller that logs its signals
and handles. -/
abbrev ServicePass := QLowEnergyServicePrivate × QLowEnergyControllerPrivate

namespace QLowEnergyServicePrivate

/-- Modelled from the spec: `QLowEnergyServicePrivate::setError` is defined outside
this file. It sets a typed error on the service: the error is stored and
the service's `error` signal is emitted. -/
def setError (newError : ServiceError) (p : ServicePass) : ServicePass :=
  ({ p.1 with error := newError },
   QLowEnergyControllerPrivate.emit (Signal.serviceError p.1.uuid newError) p.2)

/-- Modelled from the spec: `QLowEnergyServicePrivate::setState` is defined outside
this file. It sets the discovery status of the service: setting the status
the service already has does nothing, otherwise the status is stored and
the service's `stateChanged` signal is emitted. -/
def setState (newState : ServiceState) (p : ServicePass) : ServicePass :=
  if p.1.state = newState then p
  else ({ p.1 with state := newState },
    QLowEnergyControllerPrivate.emit (Signal.serviceStateChanged p.1.uuid newState) p.2)

end QLowEnergyServicePrivate

namespace QLowEnergyControllerPrivate

/-- Write the service under work back into the service map: the map holds a
pointer to it, so every change made through the pointer is a change of the
map's entry. -/
def storeService (service : QBluetoothUuid) (p : ServicePass) : QLowEnergyControllerPrivate :=
  { p.2 with serviceList := NatMap.insert service p.1 p.2.serviceList }

/-- The `foreach` over the found descriptors of one characteristic in
`discoverServiceDetails`. The result is `none` when a value retrieval gives
no defined result (it never returns within the fuel, or it reads outside its
buffer); otherwise it tells whether the pass was aborted (`true`), the
characteristic data and the service pass. -/
def descriptorLoop (env : GattEnv) (hService : Nat) :
    List BTH_LE_GATT_DESCRIPTOR → CharData → ServicePass → Option (Bool × CharData × ServicePass)
  | [], detailsData, p => some (false, detailsData, p)
  | gattDescriptor :: rest, detailsData, p =>
    let descriptorHandle := gattDescriptor.AttributeHandle
    match getGattDescriptorValue env.gattFunctionsResolved
        (env.descriptorValue gattDescriptor) env.fuel with
    | none => none
    | some run =>
      if run.systemErrorCode ≠ NO_ERROR then
        some (true, detailsData,
          QLowEnergyServicePrivate.setState ServiceState.DiscoveryRequired
            (QLowEnergyServicePrivate.setError ServiceError.DescriptorReadError
              (p.1, noteClose hService p.2)))
      else
        match run.result with
        | none => none
        | some value =>
          let data : DescData :=
            { uuid := qtBluetoothUuidFromNativeLeUuid gattDescriptor.DescriptorUuid,
              value := value }
          let servicePrivate := { p.1 with
            endHandle := max p.1.endHandle gattDescriptor.AttributeHandle }
          let detailsData1 := { detailsData with
            descriptorList := NatMap.insert descriptorHandle data detailsData.descriptorList }
          descriptorLoop env hService rest detailsData1 (servicePrivate, p.2)

/-- The `foreach` over the found characteristics in `discoverServiceDetails`.
The result is `none` when a query gives no defined result; otherwise it tells
whether the pass was aborted (`true`) and the service pass. The handle
`AttributeHandle + 1` is cut to 16 bits by the conversion to
`QLowEnergyHandle`. -/
def characteristicLoop (env : GattEnv) (hService : Nat) :
    List BTH_LE_GATT_CHARACTERISTIC → ServicePass → Option (Bool × ServicePass)
  | [], p => some (false, p)
  | gattCharacteristic :: rest, p =>
    let characteristicHandle := gattCharacteristic.AttributeHandle
    match getGattCharacteristicValue env.gattFunctionsResolved
        (env.characteristicValue gattCharacteristic) env.fuel with
    | none => none
    | some valueRun =>
      match valueRun.result with
      | none => none
      | some value =>
        let detailsData : CharData :=
          { uuid := qtBluetoothUuidFromNativeLeUuid gattCharacteristic.CharacteristicUuid,
            valueHandle := gattCharacteristic.CharacteristicValueHandle,
            properties := decodeProperties gattCharacteristic,
            value := value,
            descriptorList := [] }
        let servicePrivate := { p.1 with
          endHandle := max p.1.endHandle ((gattCharacteristic.AttributeHandle + 1) % 65536) }
        match enumerateGattDescriptors env.gattFunctionsResolved
            (env.descriptors gattCharacteristic) env.fuel with
        | none => none
        | some found =>
          if found.systemErrorCode ≠ NO_ERROR ∧ found.systemErrorCode ≠ ERROR_NOT_FOUND then
            some (true,
              QLowEnergyServicePrivate.setState ServiceState.DiscoveryRequired
                (QLowEnergyServicePrivate.setError ServiceError.DescriptorReadError
                  (servicePrivate, noteClose hService p.2)))
          else
            match descriptorLoop env hService found.result detailsData (servicePrivate, p.2) with
            | none => none
            | some (true, _, p1) => some (true, p1)
            | some (false, detailsData1, p1) =>
              characteristicLoop env hService rest
                ({ p1.1 with characteristicList :=
                    NatMap.insert characteristicHandle detailsData1 p1.1.characteristicList },
                 p1.2)

/-- Source `QLowEnergyControllerPrivate::discoverServiceDetails`. `none` when a
query gives no defined result. -/
def discoverServiceDetails (env : GattEnv) (service : QBluetoothUuid)
    (d : QLowEnergyControllerPrivate) : Option QLowEnergyControllerPrivate :=
  match NatMap.value d.serviceList service with
  | none => some d
  | some servicePrivate =>
    let opened := openSystemService env.setupDi env.CreateFile service QIODevice.ReadOnly
    let hService := opened.1
    let d0 := noteOpen hService d
    if opened.2 ≠ NO_ERROR then
      some (storeService service
        (QLowEnergyServicePrivate.setState ServiceState.DiscoveryRequired
          (QLowEnergyServicePrivate.setError ServiceError.UnknownError (servicePrivate, d0))))
    else
      let servicePrivate1 := { servicePrivate with endHandle := servicePrivate.startHandle }
      match enumerateGattCharacteristics env.gattFunctionsResolved env.characteristics
          env.fuel with
      | none => none
      | some found =>
        if found.systemErrorCode ≠ NO_ERROR then
          some (storeService service
            (QLowEnergyServicePrivate.setState ServiceState.DiscoveryRequired
              (QLowEnergyServicePrivate.setError ServiceError.CharacteristicReadError
                (servicePrivate1, noteClose hService d0))))
        else
          match characteristicLoop env hService found.result (servicePrivate1, d0) with
          | none => none
          | some (true, p) => some (storeService service p)
          | some (false, p) =>
            some (storeService service
              (QLowEnergyServicePrivate.setState ServiceState.ServiceDiscovered
                (p.1, noteClose hService p.2)))

/-- Modelled from the spec: `QLowEnergyControllerPrivate::updateValueOfCharacteristic`
is defined outside this file. It updates the cached value of the
characteristic `charHandle`: the value is replaced by `value`. -/
def updateValueOfCharacteristic (charHandle : QLowEnergyHandle) (value : List Nat)
    (p : ServicePass) : ServicePass :=
  match NatMap.value p.1.characteristicList charHandle with
  | none => p
  | some charData =>
    ({ p.1 with characteristicList :=
        NatMap.insert charHandle { charData with value := value } p.1.characteristicList },
     p.2)

/-- Source `QLowEnergyControllerPrivate::readCharacteristic`. The service
pointer is the key of the service in the service map. `none` when the pointer
is null (the case `Q_ASSERT` excludes) or when the value retrieval gives no
defined result. -/
def readCharacteristic (env : GattEnv) (service : QBluetoothUuid)
    (charHandle : QLowEnergyHandle) (d : QLowEnergyControllerPrivate) :
    Option QLowEnergyControllerPrivate :=
  match NatMap.value d.serviceList service with
  | none => none
  | some servicePrivate =>
    match NatMap.value servicePrivate.characteristicList charHandle with
    | none => some d
    | some charDetails =>
      let opened := openSystemService env.setupDi env.CreateFile servicePrivate.uuid
        QIODevice.ReadOnly
      let hService := opened.1
      let d0 := noteOpen hService d
      if opened.2 ≠ NO_ERROR then
        some (storeService service
          (QLowEnergyServicePrivate.setError ServiceError.CharacteristicReadError
            (servicePrivate, d0)))
      else
        let gattCharacteristic := recoverNativeLeGattCharacteristic
          servicePrivate.startHandle charHandle charDetails
        match getGattCharacteristicValue env.gattFunctionsResolved
            (env.characteristicValue gattCharacteristic) env.fuel with
        | none => none
        | some run =>
          if run.systemErrorCode ≠ NO_ERROR then
            some (storeService service
              (QLowEnergyServicePrivate.setError ServiceError.CharacteristicReadError
                (servicePrivate, d0)))
          else
            match run.result with
            | none => none
            | some characteristicValue =>
              let p := updateValueOfCharacteristic charHandle characteristicValue
                (servicePrivate, d0)
              some (storeService service
                (p.1, emit (Signal.characteristicRead servicePrivate.uuid charHandle
                  characteristicValue) p.2))

/-- Source `QLowEnergyControllerPrivate::writeCharacteristic`. The service
pointer is the key of the service in the service map. `none` when the pointer
is null (the case `Q_ASSERT` excludes). -/
def writeCharacteristic (env : GattEnv) (service : QBluetoothUuid)
    (charHandle : QLowEnergyHandle) (newValue : List Nat) (writeWithResponse : Bool)
    (d : QLowEnergyControllerPrivate) : Option QLowEnergyControllerPrivate :=
  match NatMap.value d.serviceList service with
  | none => none
  | some servicePrivate =>
    match NatMap.value servicePrivate.characteristicList charHandle with
    | none => some d
    | some charDetails =>
      let opened := openSystemService env.setupDi env.CreateFile servicePrivate.uuid
        QIODevice.ReadWrite
      let hService := opened.1
      let d0 := noteOpen hService d
      if opened.2 ≠ NO_ERROR then
        some (storeService service
          (QLowEnergyServicePrivate.setError ServiceError.CharacteristicWriteError
            (servicePrivate, d0)))
      else
        let gattCharacteristic := recoverNativeLeGattCharacteristic
          servicePrivate.startHandle charHandle charDetails
        let flags := if writeWithResponse then BLUETOOTH_GATT_FLAG_NONE
          else BLUETOOTH_GATT_FLAG_WRITE_WITHOUT_RESPONSE
        let run := setGattCharacteristicValue env.gattFunctionsResolved
          env.setCharacteristicValue gattCharacteristic newValue flags
        if run.systemErrorCode ≠ NO_ERROR then
          some (storeService service
            (QLowEnergyServicePrivate.setError ServiceError.CharacteristicWriteError
              (servicePrivate, d0)))
        else
          let p := updateValueOfCharacteristic charHandle newValue (servicePrivate, d0)
          if writeWithResponse then
            some (storeService service
              (p.1, emit (Signal.characteristicWritten servicePrivate.uuid charHandle newValue)
                p.2))
          else
            some (storeService service p)

end QLowEnergyControllerPrivate

/-! ## Concrete inputs for detail discovery, reading and writing -/

/-- The UUID of the battery service. -/
def exampleUuidA : QBluetoothUuid := QBluetoothUuid.fromShort 0x180F

/-- A readable, notifiable battery-level characteristic at handle 17. -/
def exampleCharacteristic : BTH_LE_GATT_CHARACTERISTIC :=
  { ServiceHandle := 16, CharacteristicUuid := BTH_LE_UUID.ShortUuid 0x2A19,
    AttributeHandle := 17, CharacteristicValueHandle := 18,
    IsBroadcastable := false, IsReadable := true, IsWritable := false,
    IsWritableWithoutResponse := false, IsSignedWritable := false, IsNotifiable := true,
    IsIndicatable := false, HasExtendedProperties := false }

/-- A client-configuration descriptor at handle 19. -/
def exampleDescriptor : BTH_LE_GATT_DESCRIPTOR :=
  { ServiceHandle := 16, CharacteristicHandle := 17,
    DescriptorUuid := BTH_LE_UUID.ShortUuid 0x2902, AttributeHandle := 19 }

/-- SetupAPI answers that find every service under the path "B". -/
def exampleSetupDi : QBluetoothUuid → SetupDiReplies := fun _ =>
  { deviceInfoSet := 9, classDevsLastError := 0, enumDeviceInterfaces := true,
    enumLastError := 0, detailSizeCall := false,
    detailSizeLastError := ERROR_INSUFFICIENT_BUFFER, detailCall := true,
    detailLastError := 0, devicePath := [66] }

/-- A native layer in which everything works: one characteristic with one
descriptor, every value is the two bytes 7 and 9, every write succeeds. -/
def exampleEnv : GattEnv where
  gattFunctionsResolved := true
  setupDi := exampleSetupDi
  CreateFile := exampleCreateFile
  characteristics := fun i =>
    match i with
    | 0 => NativeReply.moreData 1
    | _ => NativeReply.ok [exampleCharacteristic]
  characteristicValue := fun _ => valueOnceLayer
  descriptors := fun _ i =>
    match i with
    | 0 => NativeReply.moreData 1
    | _ => NativeReply.ok [exampleDescriptor]
  descriptorValue := fun _ => descriptorValueOnceLayer
  setCharacteristicValue := fun _ _ _ => ⟨true, 0⟩
  fuel := 2

/-- The example controller after the detail discovery of the battery service. -/
def exampleDetailed : QLowEnergyControllerPrivate :=
  (QLowEnergyControllerPrivate.discoverServiceDetails exampleEnv exampleUuidA
    exampleDiscovered).getD exampleDiscovered

/-- The battery service as the detail discovery of the example leaves it. -/
def exampleDetailedService : QLowEnergyServicePrivate :=
  (NatMap.value exampleDetailed.serviceList exampleUuidA).getD
    QLowEnergyControllerPrivate.newService

/-- The battery-level characteristic as the detail discovery of the example
caches it. -/
def exampleDetailedChar : CharData :=
  (NatMap.value exampleDetailedService.characteristicList 17).getD ⟨0, 0, 0, [], []⟩

/-- The native layer of `exampleEnv`, except that every value retrieval and
every write fails hard while `::GetLastError()` yields 0. -/
def silentFailureEnv : GattEnv :=
  { exampleEnv with
    characteristicValue := fun _ => failingValueLayer 0
    setCharacteristicValue := fun _ _ _ => ⟨false, 0⟩ }

/-- The keys of a map. -/
def NatMap.keys {β : Type} (m : NatMap β) : List Nat :=
  m.map Prod.fst

/-! ## What a detail pass is expected to compute -/

/-- The descriptors the native layer reports for a characteristic: the vector
`enumerateGattDescriptors` hands back (empty when it reports a failure). -/
def foundDescriptorsOf (env : GattEnv) (gattCharacteristic : BTH_LE_GATT_CHARACTERISTIC) :
    List BTH_LE_GATT_DESCRIPTOR :=
  match enumerateGattDescriptors env.gattFunctionsResolved
      (env.descriptors gattCharacteristic) env.fuel with
  | some found => found.result
  | none => []

/-- The largest of `endHandle` and the raw handles of the descriptors. -/
def maxDescriptorHandle (endHandle : Nat) (descriptors : List BTH_LE_GATT_DESCRIPTOR) : Nat :=
  descriptors.foldl (fun e gattDescriptor => max e gattDescriptor.AttributeHandle) endHandle

/-- The end handle a pass over the characteristics `found` builds from
`endHandle`: for each characteristic the maximum with its handle plus one,
cut to 16 bits, then with the raw handles of its descriptors. -/
def endHandleAfter (env : GattEnv) (found : List BTH_LE_GATT_CHARACTERISTIC)
    (endHandle : Nat) : Nat :=
  found.foldl
    (fun e gattCharacteristic =>
      maxDescriptorHandle (max e ((gattCharacteristic.AttributeHandle + 1) % 65536))
        (foundDescriptorsOf env gattCharacteristic))
    endHandle

/-- The native layer lets a detail pass over the characteristics `found` run
to its end: for each of them the value retrieval gives a defined result
(it may report a failure), the descriptor enumeration reports `NO_ERROR` or
`ERROR_NOT_FOUND`, and for each descriptor found the value retrieval reports
`NO_ERROR` with a defined result. -/
def NoFatalFailure (env : GattEnv) (found : List BTH_LE_GATT_CHARACTERISTIC) : Prop :=
  ∀ c, c ∈ found →
    (∃ run value, getGattCharacteristicValue env.gattFunctionsResolved
        (env.characteristicValue c) env.fuel = some run ∧ run.result = some value) ∧
    (∃ run, enumerateGattDescriptors env.gattFunctionsResolved (env.descriptors c) env.fuel
        = some run ∧
      (run.systemErrorCode = NO_ERROR ∨ run.systemErrorCode = ERROR_NOT_FOUND)) ∧
    (∀ g, g ∈ foundDescriptorsOf env c →
      ∃ run value, getGattDescriptorValue env.gattFunctionsResolved
        (env.descriptorValue g) env.fuel = some run ∧
        run.systemErrorCode = NO_ERROR ∧ run.result = some value)

/-- The example characteristic moved to the attribute handle `handle`. -/
def exampleCharacteristicAt (handle : Nat) : BTH_LE_GATT_CHARACTERISTIC :=
  { exampleCharacteristic with
    AttributeHandle := handle, CharacteristicValueHandle := (handle + 1) % 65536 }

/-- A native layer that reports the characteristics `found` and no descriptor
for any of them (the descriptor enumeration answers `ERROR_NOT_FOUND`). -/
def noDescriptorEnv (found : List BTH_LE_GATT_CHARACTERISTIC) : GattEnv :=
  { exampleEnv with
    characteristics := fun i =>
      match i with
      | 0 => NativeReply.moreData found.length
      | _ => NativeReply.ok found
    descriptors := fun _ _ => NativeReply.failed ERROR_NOT_FOUND }

/-- A native layer that reports one characteristic at handle 10 with one
descriptor at handle 12. -/
def lowHandleEnv : GattEnv :=
  { exampleEnv with
    characteristics := fun i =>
      match i with
      | 0 => NativeReply.moreData 1
      | _ => NativeReply.ok [exampleCharacteristicAt 10]
    descriptors := fun _ i =>
      match i with
      | 0 => NativeReply.moreData 1
      | _ => NativeReply.ok [{ exampleDescriptor with AttributeHandle := 12 }] }

/-- The end handle of the battery service after a detail discovery of the
example controller against the native layer `env`, when the discovery ends
with the status `ServiceDiscovered`. -/
def exampleEndHandle (env : GattEnv) (d : QLowEnergyControllerPrivate) : Option Nat :=
  match QLowEnergyControllerPrivate.discoverServiceDetails env exampleUuidA d with
  | none => none
  | some r =>
    match NatMap.value r.serviceList exampleUuidA with
    | none => none
    | some updated =>
      if updated.state = ServiceState.ServiceDiscovered then some updated.endHandle else none

/-- Every characteristic handle stored in the service's characteristic map
and every descriptor handle stored in a characteristic's descriptor map
lies within the closed range from `lo` to the service's end handle. -/
def HandlesWithinFrom (lo : Nat) (servicePrivate : QLowEnergyServicePrivate) : Prop :=
  ∀ h cd, (h, cd) ∈ servicePrivate.characteristicList →
    lo ≤ h ∧ h ≤ servicePrivate.endHandle ∧
    ∀ g, g ∈ NatMap.keys cd.descriptorList → lo ≤ g ∧ g ≤ servicePrivate.endHandle

/-- Every stored characteristic and descriptor handle of the service lies
within its closed range `[startHandle, endHandle]`. -/
def HandlesWithin (servicePrivate : QLowEnergyServicePrivate) : Prop :=
  HandlesWithinFrom servicePrivate.startHandle servicePrivate

/-- The start handle, the end handle and the stored characteristic handles of
the battery service after a detail discovery of the controller `d` against
the native layer `env`, when the discovery ends with the status
`ServiceDiscovered`. -/
def exampleHandles (env : GattEnv) (d : QLowEnergyControllerPrivate) :
    Option (Nat × Nat × List Nat) :=
  match QLowEnergyControllerPrivate.discoverServiceDetails env exampleUuidA d with
  | none => none
  | some r =>
    match NatMap.value r.serviceList exampleUuidA with
    | none => none
    | some updated =>
      if updated.state = ServiceState.ServiceDiscovered then
        some (updated.startHandle, updated.endHandle, NatMap.keys updated.characteristicList)
      else none

/-! ## What a detail pass is expected to cache -/

/-- The bytes a value retrieval hands back; empty when the retrieval gives
no defined result. -/
def fetchedValue (run : Option ValueRun) : List Nat :=
  match run with
  | some r => r.result.getD []
  | none => []

/-- The descriptor map a pass over the descriptors `ds` builds from the map
`m`: each descriptor is inserted under its attribute handle, in order, with
its UUID and the value fetched for it. -/
def cachedDescriptors (env : GattEnv) (ds : List BTH_LE_GATT_DESCRIPTOR)
    (m : NatMap DescData) : NatMap DescData :=
  ds.foldl
    (fun acc gattDescriptor =>
      NatMap.insert gattDescriptor.AttributeHandle
        { uuid := qtBluetoothUuidFromNativeLeUuid gattDescriptor.DescriptorUuid,
          value := fetchedValue (getGattDescriptorValue env.gattFunctionsResolved
            (env.descriptorValue gattDescriptor) env.fuel) }
        acc)
    m

/-- The data a pass caches for the characteristic `gattCharacteristic`: its
UUID, value handle and decoded properties, the value fetched for it, and the
descriptors found for it. -/
def cachedCharacteristic (env : GattEnv) (gattCharacteristic : BTH_LE_GATT_CHARACTERISTIC) :
    CharData :=
  { uuid := qtBluetoothUuidFromNativeLeUuid gattCharacteristic.CharacteristicUuid,
    valueHandle := gattCharacteristic.CharacteristicValueHandle,
    properties := decodeProperties gattCharacteristic,
    value := fetchedValue (getGattCharacteristicValue env.gattFunctionsResolved
      (env.characteristicValue gattCharacteristic) env.fuel),
    descriptorList := cachedDescriptors env (foundDescriptorsOf env gattCharacteristic) [] }

/-- The characteristic map a pass over the characteristics `found` builds from
the map `m`: each characteristic is inserted under its attribute handle, in
order. -/
def cachedCharacteristics (env : GattEnv) (found : List BTH_LE_GATT_CHARACTERISTIC)
    (m : NatMap CharData) : NatMap CharData :=
  found.foldl
    (fun acc gattCharacteristic =>
      NatMap.insert gattCharacteristic.AttributeHandle
        (cachedCharacteristic env gattCharacteristic) acc)
    m

/-- Win32 `ERROR_GEN_FAILURE`. -/
def ERROR_GEN_FAILURE : Nat := 31

/-- A native layer that reports the characteristics at the handles 17 and 20
and no descriptor; the value retrieval for the characteristic at handle 17
fails hard with last-error `ERROR_GEN_FAILURE`, the one for the
characteristic at handle 20 gives the two bytes 7 and 9. -/
def valueFailureEnv : GattEnv :=
  { noDescriptorEnv [exampleCharacteristicAt 17, exampleCharacteristicAt 20] with
    characteristicValue := fun gattCharacteristic =>
      if gattCharacteristic.AttributeHandle = 17 then failingValueLayer ERROR_GEN_FAILURE
      else valueOnceLayer }

/-- The native layer of `exampleEnv`, except that every descriptor value
retrieval fails hard while `::GetLastError()` yields 0. -/
def silentDescriptorFailureEnv : GattEnv :=
  { exampleEnv with descriptorValue := fun _ => failingValueLayer 0 }

/-- The signals a detail discovery of the battery service emits. -/
def exampleSignals (env : GattEnv) (d : QLowEnergyControllerPrivate) : Option (List Signal) :=
  (QLowEnergyControllerPrivate.discoverServiceDetails env exampleUuidA d).map
    (QLowEnergyControllerPrivate.signalsSince d.signals)

/-- The status, the error and the characteristic map of the battery service
after a detail discovery. -/
def exampleOutcome (env : GattEnv) (d : QLowEnergyControllerPrivate) :
    Option (ServiceState × ServiceError × NatMap CharData) :=
  match QLowEnergyControllerPrivate.discoverServiceDetails env exampleUuidA d with
  | none => none
  | some r =>
    (NatMap.value r.serviceList exampleUuidA).map
      (fun updated => (updated.state, updated.error, updated.characteristicList))

/-- The native layer of `exampleEnv`, except that the characteristic
enumeration fails hard while `::GetLastError()` yields 0. -/
def silentEnumerationFailureEnv : GattEnv :=
  { exampleEnv with characteristics := fun _ => NativeReply.failed 0 }

/-- The native layer of `exampleEnv`, except that every descriptor enumeration
fails hard while `::GetLastError()` yields 0. -/
def silentDescriptorEnumerationFailureEnv : GattEnv :=
  { exampleEnv with descriptors := fun _ _ => NativeReply.failed 0 }

/-- A failure is reported to `discoverServiceDetails` through a
`systemErrorCode` other than `NO_ERROR`: by `openSystemService`, by the
characteristic enumeration, or, during the pass over the characteristics
found, by a descriptor enumeration (a code other than `ERROR_NOT_FOUND`) or by
a descriptor value retrieval. -/
def ReportsFailure (env : GattEnv) (service : QBluetoothUuid) : Prop :=
  (openSystemService env.setupDi env.CreateFile service QIODevice.ReadOnly).2 ≠ NO_ERROR ∨
  ∃ found, enumerateGattCharacteristics env.gattFunctionsResolved env.characteristics env.fuel
      = some found ∧
    (found.systemErrorCode ≠ NO_ERROR ∨ ¬NoFatalFailure env found.result)

/-- The controller is in none of the in-progress states Connecting,
Discovering and Closing: its state is Unconnected, Connected or Discovered. -/
def Settled (state : ControllerState) : Prop :=
  state = ControllerState.UnconnectedState ∨ state = ControllerState.ConnectedState ∨
    state = ControllerState.DiscoveredState

/-- A native layer for the service enumeration that fails hard with last-error
`ERROR_GEN_FAILURE`. -/
def failingServiceLayer : NativeLayer BTH_LE_GATT_SERVICE := fun _ =>
  NativeReply.failed ERROR_GEN_FAILURE

/-- The battery service of the example at the start of the characteristic
loop of its first detail discovery, with the controller that logs the pass. -/
def exampleLoopStart : ServicePass :=
  ({ QLowEnergyControllerPrivate.newService with
      uuid := exampleUuidA, startHandle := 16, endHandle := 16 },
   QLowEnergyControllerPrivate.noteOpen 7 exampleDiscovered)

/-- The service pass the characteristic loop of the example hands back. -/
def exampleLoopEnd : ServicePass :=
  ((QLowEnergyControllerPrivate.characteristicLoop exampleEnv 7 [exampleCharacteristic]
    exampleLoopStart).getD (true, exampleLoopStart)).2

/-- A native layer for a value retrieval that answers the first call, the one
with capacity 0 and no buffer, with `S_OK`. -/
def immediateValueLayer : ValueLayer where
  reply := fun _ => NativeReply.ok [2, 0, 0, 0, 7, 9]
  uninitialised := fun _ _ => 0xAA

/-- A native layer for a value retrieval that asks for five bytes and then
stores a header announcing a value of three bytes. -/
def shortValueLayer : ValueLayer where
  reply := fun i =>
    match i with
    | 0 => NativeReply.moreData 5
    | _ => NativeReply.ok [3, 0, 0, 0, 7, 9, 4]
  uninitialised := fun _ _ => 0xAA

/-- A native layer for a value retrieval that asks for five bytes and then
stores a header announcing a value of two bytes. -/
def tightValueLayer : ValueLayer where
  reply := fun i =>
    match i with
    | 0 => NativeReply.moreData 5
    | _ => NativeReply.ok [2, 0, 0, 0, 7, 9]
  uninitialised := fun _ _ => 0xAA

/-- A native layer for a value retrieval that asks for eight bytes and then
stores only a header announcing two bytes of data and the first of them;
memory that is not initialised holds the byte 190. -/
def shortWriteValueLayer : ValueLayer where
  reply := fun i =>
    match i with
    | 0 => NativeReply.moreData 8
    | _ => NativeReply.ok [2, 0, 0, 0, 7]
  uninitialised := fun _ _ => 190

/-- A native layer for a value retrieval that asks for eight bytes and then
stores a header whose `DataSize` is 2^31 and the bytes 7, 9, 0, 5. -/
def negativeSizeValueLayer : ValueLayer where
  reply := fun i =>
    match i with
    | 0 => NativeReply.moreData 8
    | _ => NativeReply.ok [0, 0, 0, 128, 7, 9, 0, 5]
  uninitialised := fun _ _ => 0xAA

/-- A native layer for a value retrieval that asks for eight bytes and then
stores a header whose `DataSize` is 2^31 and the bytes 7, 9, 1, 5, none of
them zero. -/
def unterminatedValueLayer : ValueLayer where
  reply := fun i =>
    match i with
    | 0 => NativeReply.moreData 8
    | _ => NativeReply.ok [0, 0, 0, 128, 7, 9, 1, 5]
  uninitialised := fun _ _ => 0xAA

/-! ## What a service discovery is expected to store -/

/-- Spec §6, the framing of a value read back: the bytes announced by a 4-byte
length prefix, when the buffer holds the prefix and that many bytes behind
it. -/
def framedValue (buffer : List Nat) : Option (List Nat) :=
  if 4 ≤ buffer.length ∧ 4 + readDataSize buffer ≤ buffer.length then
    some ((buffer.drop 4).take (readDataSize buffer))
  else none

theorem resize_nil {α : Type} [Inhabited α] (n : Nat) :
    resize ([] : List α) n = List.replicate n default := by
  simp [resize]

theorem fill_replicate {α : Type} (N : Nat) (z : α) (w : List α) (hw : w.length ≤ N) :
    fill (List.replicate N z) w = w ++ List.replicate (N - w.length) z := by
  simp [fill, List.take_of_length_le hw]

theorem enumerateLoop_moreData {α : Type} [Inhabited α] (native : NativeLayer α)
    (sizes : List Nat) :
    ∀ (fuel i : Nat) (found : List α) (count : Nat) (issued : List Nat),
      (∀ j, (h : j < sizes.length) → native (i + j) = NativeReply.moreData (sizes.get ⟨j, h⟩)) →
      enumerateLoop native (fuel + sizes.length) i found count issued
        = enumerateLoop native fuel (i + sizes.length) (resizeAll found sizes)
            (lastAnnounced count sizes) (issued ++ (count :: sizes).dropLast) := by
  induction sizes with
  | nil => intro fuel i found count issued _; simp [resizeAll, lastAnnounced]
  | cons n rest ih =>
    intro fuel i found count issued h
    have h0 : native i = NativeReply.moreData n := by
      simpa using h 0 (by simp)
    have hrest : ∀ j, (hj : j < rest.length) →
        native (i + 1 + j) = NativeReply.moreData (rest.get ⟨j, hj⟩) := by
      intro j hj
      have := h (j + 1) (by simpa using hj)
      simpa [Nat.add_assoc, Nat.add_comm 1 j] using this
    have hstep : enumerateLoop native (fuel + rest.length + 1) i found count issued
        = enumerateLoop native (fuel + rest.length) (i + 1) (resize found n) n
            (issued ++ [count]) := by
      simp [enumerateLoop, h0]
    have hlen : fuel + (n :: rest).length = fuel + rest.length + 1 := by simp [Nat.add_assoc]
    rw [hlen, hstep, ih fuel (i + 1) (resize found n) n (issued ++ [count]) hrest]
    simp [resizeAll, lastAnnounced, Nat.add_assoc, Nat.add_comm 1 rest.length]

theorem valueLoop_moreData (native : ValueLayer) (dataSizeOffset : Nat) (sizes : List Nat) :
    ∀ (fuel i : Nat) (valueBuffer : List Nat) (count : Nat) (issued : List Nat),
      (∀ j, (h : j < sizes.length) →
        native.reply (i + j) = NativeReply.moreData (sizes.get ⟨j, h⟩)) →
      valueLoop native dataSizeOffset (fuel + sizes.length) i valueBuffer count issued
        = valueLoop native dataSizeOffset fuel (i + sizes.length)
            (resizeAllBytes native.uninitialised i valueBuffer sizes)
            (lastAnnounced count sizes) (issued ++ (count :: sizes).dropLast) := by
  induction sizes with
  | nil => intro fuel i valueBuffer count issued _; simp [resizeAllBytes, lastAnnounced]
  | cons n rest ih =>
    intro fuel i valueBuffer count issued h
    have h0 : native.reply i = NativeReply.moreData n := by
      simpa using h 0 (by simp)
    have hrest : ∀ j, (hj : j < rest.length) →
        native.reply (i + 1 + j) = NativeReply.moreData (rest.get ⟨j, hj⟩) := by
      intro j hj
      have := h (j + 1) (by simpa using hj)
      simpa [Nat.add_assoc, Nat.add_comm 1 j] using this
    have hstep : valueLoop native dataSizeOffset (fuel + rest.length + 1) i valueBuffer count
          issued
        = valueLoop native dataSizeOffset (fuel + rest.length) (i + 1)
            (resizeBytes (native.uninitialised i) valueBuffer n) n (issued ++ [count]) := by
      simp [valueLoop, h0]
    have hlen : fuel + (n :: rest).length = fuel + rest.length + 1 := by simp [Nat.add_assoc]
    rw [hlen, hstep, ih fuel (i + 1) (resizeBytes (native.uninitialised i) valueBuffer n) n
      (issued ++ [count]) hrest]
    simp [resizeAllBytes, lastAnnounced, Nat.add_assoc, Nat.add_comm 1 rest.length]

theorem resizeBytes_length (uninitialised : Nat → Nat) (buf : List Nat) (n : Nat) :
    (resizeBytes uninitialised buf n).length = n := by
  simp only [resizeBytes, List.length_append, List.length_take, List.length_map,
    List.length_range]
  omega

theorem resizeAllBytes_length (uninitialised : Nat → Nat → Nat) (sizes : List Nat) :
    ∀ (i : Nat) (buf : List Nat),
      (resizeAllBytes uninitialised i buf sizes).length = lastAnnounced buf.length sizes := by
  induction sizes with
  | nil => intro i buf; rfl
  | cons n rest ih =>
    intro i buf
    simp only [resizeAllBytes, lastAnnounced]
    rw [ih, resizeBytes_length]

theorem drop_map_range (u : Nat → Nat) (N k : Nat) :
    ((List.range N).map u).drop k = (List.range (N - k)).map (fun j => u (k + j)) := by
  apply List.ext_getElem
  · simp
  · intro i h1 h2
    simp

/-- The value buffer after one resize from empty to `N` bytes and a native
call that stored `w`, at most `N` bytes: `w` followed by the bytes the resize
left uninitialised. -/
theorem fill_resizeBytes (uninitialised : Nat → Nat) (N : Nat) (w : List Nat)
    (hw : w.length ≤ N) :
    fill (resizeBytes uninitialised [] N) w
      = w ++ (List.range (N - w.length)).map (fun j => uninitialised (w.length + j)) := by
  have hnil : resizeBytes uninitialised [] N = (List.range N).map uninitialised := by
    simp [resizeBytes]
  rw [hnil]
  unfold fill
  rw [drop_map_range, List.take_of_length_le (by simpa using hw)]

theorem fill_length {α : Type} (buf written : List α) :
    (fill buf written).length = buf.length := by
  simp only [fill, List.length_append, List.length_take, List.length_drop]
  omega

theorem readDataSize_append (l r : List Nat) (h : 4 ≤ l.length) :
    readDataSize (l ++ r) = readDataSize l := by
  unfold readDataSize
  rw [List.getD_append l r 0 0 (by omega), List.getD_append l r 0 1 (by omega),
    List.getD_append l r 0 2 (by omega), List.getD_append l r 0 3 (by omega)]

theorem bufferMemory_length (valueBuffer : List Nat) :
    (bufferMemory valueBuffer).length = valueBuffer.length + 1 := by
  simp [bufferMemory]

/-- The success branch of a value retrieval on a buffer that holds the
`DataSize` field and, behind it, the number of bytes it announces, below
2^31: the value handed back is exactly these bytes. -/
theorem readValue_within (dataSizeOffset : Nat) (valueBuffer : List Nat)
    (hheader : dataSizeOffset + 4 ≤ valueBuffer.length)
    (hsize : readDataSize (valueBuffer.drop dataSizeOffset) < 2 ^ 31)
    (hdata : dataSizeOffset + 4 + readDataSize (valueBuffer.drop dataSizeOffset)
      ≤ valueBuffer.length) :
    readValue dataSizeOffset valueBuffer
      = some ((valueBuffer.drop (dataSizeOffset + 4)).take
          (readDataSize (valueBuffer.drop dataSizeOffset))) := by
  have hmem : readDataSize ((bufferMemory valueBuffer).drop dataSizeOffset)
      = readDataSize (valueBuffer.drop dataSizeOffset) := by
    unfold bufferMemory
    rw [List.drop_append_of_le_length (by omega)]
    exact readDataSize_append _ _ (by rw [List.length_drop]; omega)
  have hmod : readDataSize (valueBuffer.drop dataSizeOffset) % 2 ^ 32
      = readDataSize (valueBuffer.drop dataSizeOffset) :=
    Nat.mod_eq_of_lt (lt_trans hsize (by norm_num))
  have htake : ((bufferMemory valueBuffer).drop (dataSizeOffset + 4)).take
        (readDataSize (valueBuffer.drop dataSizeOffset))
      = (valueBuffer.drop (dataSizeOffset + 4)).take
        (readDataSize (valueBuffer.drop dataSizeOffset)) := by
    unfold bufferMemory
    rw [List.drop_append_of_le_length (by omega),
      List.take_append_of_le_length (by rw [List.length_drop]; omega)]
  unfold readValue
  simp only [hmem, hmod, bufferMemory_length]
  rw [if_pos (by omega), if_pos hsize, if_pos (by omega), htake]

theorem dropLast_append_lastAnnounced (count : Nat) (sizes : List Nat) :
    (count :: sizes).dropLast ++ [lastAnnounced count sizes] = count :: sizes := by
  induction sizes generalizing count with
  | nil => simp [lastAnnounced]
  | cons n rest ih => simpa [lastAnnounced] using ih n

theorem resize_replicate {α : Type} [Inhabited α] (m n : Nat) :
    resize (List.replicate m (default : α)) n = List.replicate n default := by
  simp only [resize, List.take_replicate, List.length_replicate, List.append_replicate_replicate]
  congr 1
  omega

theorem resizeAll_replicate {α : Type} [Inhabited α] (sizes : List Nat) :
    ∀ m : Nat, resizeAll (List.replicate m (default : α)) sizes
      = List.replicate (lastAnnounced m sizes) default := by
  induction sizes with
  | nil => intro m; simp [resizeAll, lastAnnounced]
  | cons n rest ih =>
    intro m
    have := ih n
    simpa [resizeAll, lastAnnounced, resize_replicate] using this

theorem resizeAll_nil {α : Type} [Inhabited α] (sizes : List Nat) :
    resizeAll ([] : List α) sizes = List.replicate (lastAnnounced 0 sizes) default := by
  simpa using resizeAll_replicate (α := α) sizes 0

theorem enumerateLoop_settles {α : Type} [Inhabited α] (native : NativeLayer α)
    (sizes : List Nat) (fuel : Nat) (hfuel : sizes.length < fuel)
    (h : AnswersMoreData native sizes) :
    (∀ w, native sizes.length = NativeReply.ok w →
      enumerateLoop native fuel 0 [] 0 []
        = some ⟨NO_ERROR, fill (List.replicate (lastAnnounced 0 sizes) default) w, 0 :: sizes⟩) ∧
    (∀ e, native sizes.length = NativeReply.failed e →
      enumerateLoop native fuel 0 [] 0 [] = some ⟨e, [], 0 :: sizes⟩) := by
  obtain ⟨extra, rfl⟩ : ∃ extra, fuel = extra + 1 + sizes.length :=
    ⟨fuel - sizes.length - 1, by omega⟩
  have h0 : ∀ j, (hj : j < sizes.length) →
      native (0 + j) = NativeReply.moreData (sizes.get ⟨j, hj⟩) := by
    intro j hj
    simpa using h j hj
  rw [enumerateLoop_moreData native sizes (extra + 1) 0 [] 0 [] h0]
  constructor
  · intro w hw
    have hw0 : native (0 + sizes.length) = NativeReply.ok w := by simpa using hw
    simp only [enumerateLoop, hw0, List.nil_append, dropLast_append_lastAnnounced,
      resizeAll_nil]
  · intro e he
    have he0 : native (0 + sizes.length) = NativeReply.failed e := by simpa using he
    simp only [enumerateLoop, he0, List.nil_append, dropLast_append_lastAnnounced]

theorem valueLoop_settles (native : ValueLayer) (dataSizeOffset : Nat)
    (sizes : List Nat) (fuel : Nat) (hfuel : sizes.length < fuel)
    (h : AnswersMoreData native.reply sizes) :
    (∀ w, native.reply sizes.length = NativeReply.ok w →
      valueLoop native dataSizeOffset fuel 0 [] 0 []
        = some ⟨NO_ERROR,
            readValue dataSizeOffset (fill (resizeAllBytes native.uninitialised 0 [] sizes) w),
            0 :: sizes⟩) ∧
    (∀ e, native.reply sizes.length = NativeReply.failed e →
      valueLoop native dataSizeOffset fuel 0 [] 0 [] = some ⟨e, some [], 0 :: sizes⟩) := by
  obtain ⟨extra, rfl⟩ : ∃ extra, fuel = extra + 1 + sizes.length :=
    ⟨fuel - sizes.length - 1, by omega⟩
  have h0 : ∀ j, (hj : j < sizes.length) →
      native.reply (0 + j) = NativeReply.moreData (sizes.get ⟨j, hj⟩) := by
    intro j hj
    simpa using h j hj
  rw [valueLoop_moreData native dataSizeOffset sizes (extra + 1) 0 [] 0 [] h0]
  constructor
  · intro w hw
    have hw0 : native.reply (0 + sizes.length) = NativeReply.ok w := by simpa using hw
    simp only [valueLoop, hw0, List.nil_append, dropLast_append_lastAnnounced]
  · intro e he
    have he0 : native.reply (0 + sizes.length) = NativeReply.failed e := by simpa using he
    simp only [valueLoop, he0, List.nil_append, dropLast_append_lastAnnounced]

theorem enumerateLoop_never_returns {α : Type} [Inhabited α] (native : NativeLayer α)
    (h : ∀ i, ∃ n, native i = NativeReply.moreData n) :
    ∀ (fuel i : Nat) (found : List α) (count : Nat) (issued : List Nat),
      enumerateLoop native fuel i found count issued = none := by
  intro fuel
  induction fuel with
  | zero => intro i found count issued; rfl
  | succ fuel ih =>
    intro i found count issued
    obtain ⟨n, hn⟩ := h i
    simp only [enumerateLoop, hn]
    exact ih _ _ _ _

theorem valueLoop_never_returns (native : ValueLayer) (dataSizeOffset : Nat)
    (h : ∀ i, ∃ n, native.reply i = NativeReply.moreData n) :
    ∀ (fuel i : Nat) (valueBuffer : List Nat) (count : Nat) (issued : List Nat),
      valueLoop native dataSizeOffset fuel i valueBuffer count issued = none := by
  intro fuel
  induction fuel with
  | zero => intro i valueBuffer count issued; rfl
  | succ fuel ih =>
    intro i valueBuffer count issued
    obtain ⟨n, hn⟩ := h i
    simp only [valueLoop, hn]
    exact ih _ _ _ _

theorem answersMoreData_single {α : Type} (native : NativeLayer α) (N : Nat)
    (h : native 0 = NativeReply.moreData N) : AnswersMoreData native [N] := by
  intro j hj
  have hj0 : j = 0 := by simpa using hj
  subst hj0
  simpa using h

/-- C1, counterexample. (a) The native layer would answer insufficient-space
with size 2 and then fill two entries, yet with the GATT functions
unresolved `enumeratePrimaryGattServices` issues no native call at all (not
two) and hands back `ERROR_NOT_SUPPORTED` with an empty vector. (b) With the
functions resolved, when the second call fills one entry of the two it
asked for, the vector returned is not the one item filled: it has two
entries, the second one zero-filled. -/
theorem single_retry_claim_fails :
    (retryOnceLayer 0 = NativeReply.moreData 2 ∧
      retryOnceLayer 1 = NativeReply.ok [exampleServiceA, exampleServiceB] ∧
      enumeratePrimaryGattServices false retryOnceLayer 2
        = some ⟨ERROR_NOT_SUPPORTED, [], []⟩ ∧
      ¬ ((enumeratePrimaryGattServices false retryOnceLayer 2).map (fun run => run.capacities)
        = some [0, 2])) ∧
    (shortFillLayer 0 = NativeReply.moreData 2 ∧
      shortFillLayer 1 = NativeReply.ok [exampleServiceA] ∧
      (enumeratePrimaryGattServices true shortFillLayer 2).map (fun run => run.result)
        = some [exampleServiceA, ⟨BTH_LE_UUID.LongUuid 0, 0⟩] ∧
      ¬ ((enumeratePrimaryGattServices true shortFillLayer 2).map (fun run => run.result)
        = some [exampleServiceA])) := by
  refine ⟨⟨rfl, rfl, rfl, ?_⟩, ⟨rfl, rfl, rfl, ?_⟩⟩ <;> decide

/-- C1, amended. With the GATT functions resolved, every query primitive whose
first native reply is insufficient-space with required size `N` and whose
second reply ends the query issues exactly two native calls, the first with
capacity 0 and the second with capacity `N`. When the second call succeeds
having written `w` (at most `N` items), an enumeration returns with
`NO_ERROR` the `N`-entry vector that call filled, `w` followed by zero-filled
entries up to `N`. A value retrieval returns with `NO_ERROR` what its success
branch reads from the `N`-byte buffer, `w` followed by the bytes the resize
left uninitialised, cast to the native value structure (`DataSize` at byte
offset 0 for a characteristic value, at byte offset 72 for a descriptor
value); when the call wrote all `N` bytes and the `DataSize` it stored is
below 2^31 and fits the buffer, that is the `DataSize` bytes behind the
`DataSize` field. When the second call fails hard, the query hands back the
last-error value and an empty result. -/
theorem single_retry_uses_reported_size (N fuel : Nat) (hfuel : 2 ≤ fuel) :
    (∀ native : NativeLayer BTH_LE_GATT_SERVICE, native 0 = NativeReply.moreData N →
      (∀ w, w.length ≤ N → native 1 = NativeReply.ok w →
        enumeratePrimaryGattServices true native fuel
          = some ⟨NO_ERROR, w ++ List.replicate (N - w.length) default, [0, N]⟩) ∧
      (∀ e, native 1 = NativeReply.failed e →
        enumeratePrimaryGattServices true native fuel = some ⟨e, [], [0, N]⟩)) ∧
    (∀ native : NativeLayer BTH_LE_GATT_CHARACTERISTIC, native 0 = NativeReply.moreData N →
      (∀ w, w.length ≤ N → native 1 = NativeReply.ok w →
        enumerateGattCharacteristics true native fuel
          = some ⟨NO_ERROR, w ++ List.replicate (N - w.length) default, [0, N]⟩) ∧
      (∀ e, native 1 = NativeReply.failed e →
        enumerateGattCharacteristics true native fuel = some ⟨e, [], [0, N]⟩)) ∧
    (∀ native : NativeLayer BTH_LE_GATT_DESCRIPTOR, native 0 = NativeReply.moreData N →
      (∀ w, w.length ≤ N → native 1 = NativeReply.ok w →
        enumerateGattDescriptors true native fuel
          = some ⟨NO_ERROR, w ++ List.replicate (N - w.length) default, [0, N]⟩) ∧
      (∀ e, native 1 = NativeReply.failed e →
        enumerateGattDescriptors true native fuel = some ⟨e, [], [0, N]⟩)) ∧
    (∀ native : ValueLayer, native.reply 0 = NativeReply.moreData N →
      (∀ w, w.length ≤ N → native.reply 1 = NativeReply.ok w →
        getGattCharacteristicValue true native fuel
          = some ⟨NO_ERROR,
              readValue characteristicValueDataSizeOffset
                (w ++ (List.range (N - w.length)).map
                  (fun j => native.uninitialised 0 (w.length + j))),
              [0, N]⟩ ∧
        (w.length = N → readDataSize w < 2 ^ 31 → 4 + readDataSize w ≤ N →
          getGattCharacteristicValue true native fuel
            = some ⟨NO_ERROR, some ((w.drop 4).take (readDataSize w)), [0, N]⟩)) ∧
      (∀ e, native.reply 1 = NativeReply.failed e →
        getGattCharacteristicValue true native fuel = some ⟨e, some [], [0, N]⟩)) ∧
    (∀ native : ValueLayer, native.reply 0 = NativeReply.moreData N →
      (∀ w, w.length ≤ N → native.reply 1 = NativeReply.ok w →
        getGattDescriptorValue true native fuel
          = some ⟨NO_ERROR,
              readValue descriptorValueDataSizeOffset
                (w ++ (List.range (N - w.length)).map
                  (fun j => native.uninitialised 0 (w.length + j))),
              [0, N]⟩ ∧
        (w.length = N → readDataSize (w.drop 72) < 2 ^ 31 →
          76 + readDataSize (w.drop 72) ≤ N →
          getGattDescriptorValue true native fuel
            = some ⟨NO_ERROR, some ((w.drop 76).take (readDataSize (w.drop 72))), [0, N]⟩)) ∧
      (∀ e, native.reply 1 = NativeReply.failed e →
        getGattDescriptorValue true native fuel = some ⟨e, some [], [0, N]⟩)) := by
  have hlen : ([N] : List Nat).length < fuel := by simpa using hfuel
  have enum : ∀ {α : Type} [Inhabited α] (native : NativeLayer α),
      native 0 = NativeReply.moreData N →
      (∀ w, w.length ≤ N → native 1 = NativeReply.ok w →
        enumerateLoop native fuel 0 [] 0 []
          = some ⟨NO_ERROR, w ++ List.replicate (N - w.length) default, [0, N]⟩) ∧
      (∀ e, native 1 = NativeReply.failed e →
        enumerateLoop native fuel 0 [] 0 [] = some ⟨e, [], [0, N]⟩) := by
    intro α _ native h0
    have hs := enumerateLoop_settles native [N] fuel hlen (answersMoreData_single native N h0)
    constructor
    · intro w hw h1
      have := hs.1 w (by simpa using h1)
      simpa [lastAnnounced, fill_replicate N default w hw] using this
    · intro e h1
      simpa using hs.2 e (by simpa using h1)
  have value : ∀ (native : ValueLayer) (dataSizeOffset : Nat),
      native.reply 0 = NativeReply.moreData N →
      (∀ w, w.length ≤ N → native.reply 1 = NativeReply.ok w →
        valueLoop native dataSizeOffset fuel 0 [] 0 []
          = some ⟨NO_ERROR,
              readValue dataSizeOffset
                (w ++ (List.range (N - w.length)).map
                  (fun j => native.uninitialised 0 (w.length + j))),
              [0, N]⟩ ∧
        (w.length = N → readDataSize (w.drop dataSizeOffset) < 2 ^ 31 →
          dataSizeOffset + 4 + readDataSize (w.drop dataSizeOffset) ≤ N →
          valueLoop native dataSizeOffset fuel 0 [] 0 []
            = some ⟨NO_ERROR,
                some ((w.drop (dataSizeOffset + 4)).take (readDataSize (w.drop dataSizeOffset))),
                [0, N]⟩)) ∧
      (∀ e, native.reply 1 = NativeReply.failed e →
        valueLoop native dataSizeOffset fuel 0 [] 0 [] = some ⟨e, some [], [0, N]⟩) := by
    intro native dataSizeOffset h0
    have hs := valueLoop_settles native dataSizeOffset [N] fuel hlen
      (answersMoreData_single native.reply N h0)
    constructor
    · intro w hw h1
      have hrun := hs.1 w (by simpa using h1)
      simp only [resizeAllBytes, fill_resizeBytes (native.uninitialised 0) N w hw] at hrun
      refine ⟨hrun, fun hfull hsize hfit => ?_⟩
      rw [hrun]
      have hnone : N - w.length = 0 := by omega
      simp only [hnone, List.range_zero, List.map_nil, List.append_nil]
      rw [readValue_within dataSizeOffset w (by omega) hsize (by omega)]
    · intro e h1
      simpa using hs.2 e (by simpa using h1)
  refine ⟨?_, ?_, ?_, ?_, ?_⟩
  · intro native h0
    simpa [enumeratePrimaryGattServices] using enum native h0
  · intro native h0
    simpa [enumerateGattCharacteristics] using enum native h0
  · intro native h0
    simpa [enumerateGattDescriptors] using enum native h0
  · intro native h0
    have hv := value native characteristicValueDataSizeOffset h0
    simpa [getGattCharacteristicValue, characteristicValueDataSizeOffset] using hv
  · intro native h0
    have hv := value native descriptorValueDataSizeOffset h0
    simpa [getGattDescriptorValue, descriptorValueDataSizeOffset] using hv

/-- C1, witness: a service enumeration answered "two entries needed", then
two services; the retrieval of a characteristic value answered "six bytes
needed", then a two-byte value behind its length header; and the retrieval
of a descriptor value answered "78 bytes needed", then a two-byte value
behind the 72 bytes in front of `DataSize` and that field. -/
theorem single_retry_uses_reported_size_witness :
    2 ≤ 2 ∧
    enumeratePrimaryGattServices true retryOnceLayer 2
      = some ⟨NO_ERROR, [exampleServiceA, exampleServiceB], [0, 2]⟩ ∧
    getGattCharacteristicValue true valueOnceLayer 2 = some ⟨NO_ERROR, some [7, 9], [0, 6]⟩ ∧
    getGattDescriptorValue true descriptorValueOnceLayer 2
      = some ⟨NO_ERROR, some [7, 9], [0, 78]⟩ :=
  ⟨by decide,
   by simpa using
     ((single_retry_uses_reported_size 2 2 (by decide)).1 retryOnceLayer rfl).1
       [exampleServiceA, exampleServiceB] (by decide) rfl,
   (((single_retry_uses_reported_size 6 2 (by decide)).2.2.2.1 valueOnceLayer rfl).1
       [2, 0, 0, 0, 7, 9] (by decide) rfl).2 rfl (by decide) (by decide),
   (((single_retry_uses_reported_size 78 2 (by decide)).2.2.2.2 descriptorValueOnceLayer rfl).1
       (List.replicate 72 0 ++ [2, 0, 0, 0, 7, 9]) (by decide) rfl).2 rfl (by decide)
       (by decide)⟩

/-- C2, counterexample. After two insufficient-space replies in a row the
query does not stop with a failure: it issues a third native call, with the
capacity announced by the second reply, and returns its result with
`NO_ERROR`. -/
theorem second_insufficient_space_is_retried :
    retryTwiceLayer 0 = NativeReply.moreData 1 ∧
    retryTwiceLayer 1 = NativeReply.moreData 2 ∧
    enumeratePrimaryGattServices true retryTwiceLayer 3
      = some ⟨NO_ERROR, [exampleServiceA, exampleServiceB], [0, 1, 2]⟩ :=
  ⟨rfl, rfl, rfl⟩

/-- C2, amended. With the GATT functions resolved, a query primitive does not
stop at a second insufficient-space reply. When the native layer answers
insufficient-space to the first `k` calls, announcing the sizes `sizes`
(any `k`, two and more included), and ends the query with its next reply,
the query issues `k + 1` native calls with the capacities `0 :: sizes`, each
retry using the size announced last, and returns what that last reply
yields: on success `NO_ERROR` and, for an enumeration, the vector of the size
announced last as the call filled it, for a value retrieval, what its
success branch reads from the buffer of the size announced last as the call
filled it (bytes the call did not store are the uninitialised ones the
resizes left); on a hard failure the last-error value and an empty result.
When the native layer answers insufficient-space to every call, the query
never returns, whatever the fuel. -/
theorem retries_until_reply_settles (sizes : List Nat) (fuel : Nat)
    (hfuel : sizes.length < fuel) :
    ((∀ native : NativeLayer BTH_LE_GATT_SERVICE, AnswersMoreData native sizes →
      (∀ w, native sizes.length = NativeReply.ok w →
        enumeratePrimaryGattServices true native fuel
          = some ⟨NO_ERROR, fill (List.replicate (lastAnnounced 0 sizes) default) w,
              0 :: sizes⟩) ∧
      (∀ e, native sizes.length = NativeReply.failed e →
        enumeratePrimaryGattServices true native fuel = some ⟨e, [], 0 :: sizes⟩)) ∧
    (∀ native : NativeLayer BTH_LE_GATT_CHARACTERISTIC, AnswersMoreData native sizes →
      (∀ w, native sizes.length = NativeReply.ok w →
        enumerateGattCharacteristics true native fuel
          = some ⟨NO_ERROR, fill (List.replicate (lastAnnounced 0 sizes) default) w,
              0 :: sizes⟩) ∧
      (∀ e, native sizes.length = NativeReply.failed e →
        enumerateGattCharacteristics true native fuel = some ⟨e, [], 0 :: sizes⟩)) ∧
    (∀ native : NativeLayer BTH_LE_GATT_DESCRIPTOR, AnswersMoreData native sizes →
      (∀ w, native sizes.length = NativeReply.ok w →
        enumerateGattDescriptors true native fuel
          = some ⟨NO_ERROR, fill (List.replicate (lastAnnounced 0 sizes) default) w,
              0 :: sizes⟩) ∧
      (∀ e, native sizes.length = NativeReply.failed e →
        enumerateGattDescriptors true native fuel = some ⟨e, [], 0 :: sizes⟩)) ∧
    (∀ native : ValueLayer, AnswersMoreData native.reply sizes →
      (∀ w, native.reply sizes.length = NativeReply.ok w →
        getGattCharacteristicValue true native fuel
          = some ⟨NO_ERROR,
              readValue characteristicValueDataSizeOffset
                (fill (resizeAllBytes native.uninitialised 0 [] sizes) w),
              0 :: sizes⟩) ∧
      (∀ e, native.reply sizes.length = NativeReply.failed e →
        getGattCharacteristicValue true native fuel = some ⟨e, some [], 0 :: sizes⟩)) ∧
    (∀ native : ValueLayer, AnswersMoreData native.reply sizes →
      (∀ w, native.reply sizes.length = NativeReply.ok w →
        getGattDescriptorValue true native fuel
          = some ⟨NO_ERROR,
              readValue descriptorValueDataSizeOffset
                (fill (resizeAllBytes native.uninitialised 0 [] sizes) w),
              0 :: sizes⟩) ∧
      (∀ e, native.reply sizes.length = NativeReply.failed e →
        getGattDescriptorValue true native fuel = some ⟨e, some [], 0 :: sizes⟩))) ∧
    ((∀ native : NativeLayer BTH_LE_GATT_SERVICE,
        (∀ i, ∃ n, native i = NativeReply.moreData n) →
        ∀ anyFuel, enumeratePrimaryGattServices true native anyFuel = none) ∧
    (∀ native : NativeLayer BTH_LE_GATT_CHARACTERISTIC,
        (∀ i, ∃ n, native i = NativeReply.moreData n) →
        ∀ anyFuel, enumerateGattCharacteristics true native anyFuel = none) ∧
    (∀ native : NativeLayer BTH_LE_GATT_DESCRIPTOR,
        (∀ i, ∃ n, native i = NativeReply.moreData n) →
        ∀ anyFuel, enumerateGattDescriptors true native anyFuel = none) ∧
    (∀ native : ValueLayer,
        (∀ i, ∃ n, native.reply i = NativeReply.moreData n) →
        ∀ anyFuel, getGattCharacteristicValue true native anyFuel = none) ∧
    (∀ native : ValueLayer,
        (∀ i, ∃ n, native.reply i = NativeReply.moreData n) →
        ∀ anyFuel, getGattDescriptorValue true native anyFuel = none)) := by
  refine ⟨⟨?_, ?_, ?_, ?_, ?_⟩, ⟨?_, ?_, ?_, ?_, ?_⟩⟩
  · intro native h
    simpa [enumeratePrimaryGattServices] using enumerateLoop_settles native sizes fuel hfuel h
  · intro native h
    simpa [enumerateGattCharacteristics] using enumerateLoop_settles native sizes fuel hfuel h
  · intro native h
    simpa [enumerateGattDescriptors] using enumerateLoop_settles native sizes fuel hfuel h
  · intro native h
    simpa [getGattCharacteristicValue] using
      valueLoop_settles native characteristicValueDataSizeOffset sizes fuel hfuel h
  · intro native h
    simpa [getGattDescriptorValue] using
      valueLoop_settles native descriptorValueDataSizeOffset sizes fuel hfuel h
  · intro native h anyFuel
    simpa [enumeratePrimaryGattServices] using
      enumerateLoop_never_returns native h anyFuel 0 [] 0 []
  · intro native h anyFuel
    simpa [enumerateGattCharacteristics] using
      enumerateLoop_never_returns native h anyFuel 0 [] 0 []
  · intro native h anyFuel
    simpa [enumerateGattDescriptors] using
      enumerateLoop_never_returns native h anyFuel 0 [] 0 []
  · intro native h anyFuel
    simpa [getGattCharacteristicValue] using
      valueLoop_never_returns native characteristicValueDataSizeOffset h anyFuel 0 [] 0 []
  · intro native h anyFuel
    simpa [getGattDescriptorValue] using
      valueLoop_never_returns native descriptorValueDataSizeOffset h anyFuel 0 [] 0 []

theorem retryTwiceLayer_answers : AnswersMoreData retryTwiceLayer [1, 2] := by
  intro j hj
  match j, hj with
  | 0, _ => rfl
  | 1, _ => rfl

/-- C2, witness: two insufficient-space replies, sizes 1 and 2, then success:
three native calls with capacities 0, 1 and 2; and a layer that always asks
for one more entry keeps a service enumeration from returning within 50
calls. -/
theorem retries_until_reply_settles_witness :
    [1, 2].length < 3 ∧ AnswersMoreData retryTwiceLayer [1, 2] ∧
    enumeratePrimaryGattServices true retryTwiceLayer 3
      = some ⟨NO_ERROR, [exampleServiceA, exampleServiceB], [0, 1, 2]⟩ ∧
    enumeratePrimaryGattServices true (fun i => NativeReply.moreData (i + 1)) 50 = none :=
  ⟨by decide, retryTwiceLayer_answers,
   by simpa [lastAnnounced, fill] using
     ((retries_until_reply_settles [1, 2] 3 (by decide)).1.1 retryTwiceLayer
       retryTwiceLayer_answers).1 [exampleServiceA, exampleServiceB] rfl,
   (retries_until_reply_settles [1, 2] 3 (by decide)).2.1
     (fun i => NativeReply.moreData (i + 1)) (fun i => ⟨i + 1, rfl⟩) 50⟩

/-- C3, the code at the failing input. The first native call fails hard while
`::GetLastError()` yields 0: every query primitive issues that one call and
hands back `NO_ERROR` with an empty result, which its caller cannot tell
from a success that found nothing. -/
theorem hard_failure_with_zero_last_error_hands_back_no_error :
    enumeratePrimaryGattServices true (fun _ => NativeReply.failed 0) 1
      = some ⟨NO_ERROR, [], [0]⟩ ∧
    enumerateGattCharacteristics true (fun _ => NativeReply.failed 0) 1
      = some ⟨NO_ERROR, [], [0]⟩ ∧
    enumerateGattDescriptors true (fun _ => NativeReply.failed 0) 1
      = some ⟨NO_ERROR, [], [0]⟩ ∧
    (∀ uninitialised : Nat → Nat → Nat,
      getGattCharacteristicValue true ⟨fun _ => NativeReply.failed 0, uninitialised⟩ 1
        = some ⟨NO_ERROR, some [], [0]⟩) ∧
    (∀ uninitialised : Nat → Nat → Nat,
      getGattDescriptorValue true ⟨fun _ => NativeReply.failed 0, uninitialised⟩ 1
        = some ⟨NO_ERROR, some [], [0]⟩) :=
  ⟨rfl, rfl, rfl, fun _ => rfl, fun _ => rfl⟩

/-! ## Properties of the connection life cycle -/

namespace QLowEnergyControllerPrivate

/-- C4. `connectToDevice` on a controller whose remote address is null sets the
error to `UnknownRemoteDeviceError` and does nothing else: the state is the
one before the call (Unconnected stays Unconnected), the only signal emitted
is the error, so no state transition (no `stateChanged`, in particular none
to Connecting) and no `connected`; the identity resolver is not called and
the result does not depend on it. -/
theorem connect_null_address_rejected (resolver : Nat → List Nat)
    (d : QLowEnergyControllerPrivate) (hnull : d.remoteDevice = 0) :
    (connectToDevice resolver d).error = ControllerError.UnknownRemoteDeviceError ∧
    (connectToDevice resolver d).state = d.state ∧
    (d.state = ControllerState.UnconnectedState →
      (connectToDevice resolver d).state = ControllerState.UnconnectedState) ∧
    (connectToDevice resolver d).signals
      = d.signals ++ [Signal.error ControllerError.UnknownRemoteDeviceError] ∧
    transitionsSince d.signals (connectToDevice resolver d) = [] ∧
    Signal.connected ∉ signalsSince d.signals (connectToDevice resolver d) ∧
    (connectToDevice resolver d).resolverCalls = d.resolverCalls ∧
    (connectToDevice resolver d).deviceSystemPath = d.deviceSystemPath ∧
    (∀ other : Nat → List Nat, connectToDevice other d = connectToDevice resolver d) := by
  have hconn : ∀ r : Nat → List Nat,
      connectToDevice r d = setError ControllerError.UnknownRemoteDeviceError d := by
    intro r
    simp [connectToDevice, hnull]
  rw [hconn resolver]
  refine ⟨rfl, rfl, fun h => h, rfl, ?_, ?_, rfl, rfl, fun other => hconn other⟩
  · simp [transitionsSince, setError, emit]
  · simp [signalsSince, setError, emit]

/-- C4, witness: a fresh controller with the null address. -/
theorem connect_null_address_rejected_witness :
    (initial 0).remoteDevice = 0 ∧
    (connectToDevice exampleResolver (initial 0)).error
      = ControllerError.UnknownRemoteDeviceError ∧
    (connectToDevice exampleResolver (initial 0)).state = ControllerState.UnconnectedState ∧
    (connectToDevice exampleResolver (initial 0)).resolverCalls = 0 :=
  ⟨rfl, (connect_null_address_rejected exampleResolver (initial 0) rfl).1,
   (connect_null_address_rejected exampleResolver (initial 0) rfl).2.2.1 rfl,
   (connect_null_address_rejected exampleResolver (initial 0) rfl).2.2.2.2.2.2.1⟩

/-- C5. `connectToDevice` on an unconnected controller (state Unconnected, no
cached identity) with a non-null address, when the identity resolver returns
an empty identity: the states observed are exactly Unconnected, Connecting,
Unconnected; the error is `UnknownRemoteDeviceError`; no `connected` is
emitted; the cached identity stays empty. -/
theorem connect_unresolved_identity (resolver : Nat → List Nat)
    (d : QLowEnergyControllerPrivate)
    (hstate : d.state = ControllerState.UnconnectedState)
    (hpath : d.deviceSystemPath = [])
    (haddr : d.remoteDevice ≠ 0)
    (hres : resolver d.remoteDevice = []) :
    d.state :: transitionsSince d.signals (connectToDevice resolver d)
      = [ControllerState.UnconnectedState, ControllerState.ConnectingState,
         ControllerState.UnconnectedState] ∧
    (connectToDevice resolver d).state = ControllerState.UnconnectedState ∧
    (connectToDevice resolver d).error = ControllerError.UnknownRemoteDeviceError ∧
    (connectToDevice resolver d).signals
      = d.signals ++ [Signal.stateChanged ControllerState.ConnectingState,
          Signal.error ControllerError.UnknownRemoteDeviceError,
          Signal.stateChanged ControllerState.UnconnectedState] ∧
    Signal.connected ∉ signalsSince d.signals (connectToDevice resolver d) ∧
    (connectToDevice resolver d).deviceSystemPath = [] := by
  have hsig : (connectToDevice resolver d).signals
      = d.signals ++ [Signal.stateChanged ControllerState.ConnectingState,
          Signal.error ControllerError.UnknownRemoteDeviceError,
          Signal.stateChanged ControllerState.UnconnectedState] := by
    simp [connectToDevice, setState, setError, emit, hstate, hpath, haddr, hres]
  refine ⟨?_, ?_, ?_, hsig, ?_, ?_⟩
  · simp [transitionsSince, hsig, hstate]
  · simp [connectToDevice, setState, setError, emit, hstate, hpath, haddr, hres]
  · simp [connectToDevice, setState, setError, emit, hstate, hpath, haddr, hres]
  · simp [signalsSince, hsig]
  · simp [connectToDevice, setState, setError, emit, hstate, hpath, haddr, hres]

/-- C5, witness: a fresh controller for address 5 and a resolver that knows
no device. -/
theorem connect_unresolved_identity_witness :
    (initial 5).state = ControllerState.UnconnectedState ∧
    (initial 5).deviceSystemPath = [] ∧ (initial 5).remoteDevice ≠ 0 ∧
    emptyResolver (initial 5).remoteDevice = [] ∧
    (connectToDevice emptyResolver (initial 5)).signals
      = [Signal.stateChanged ControllerState.ConnectingState,
          Signal.error ControllerError.UnknownRemoteDeviceError,
          Signal.stateChanged ControllerState.UnconnectedState] :=
  ⟨rfl, rfl, by decide, rfl,
   (connect_unresolved_identity emptyResolver (initial 5) rfl rfl (by decide) rfl).2.2.2.1⟩

/-- C6. `connectToDevice` on an unconnected controller (state Unconnected, no
cached identity) with a non-null address, when the identity resolver returns
a non-empty identity: the transitions are exactly Connecting then Connected,
the resolved identity is cached, the error is left as it was and no error
is signalled, and `connected` is emitted exactly once, after the
transitions. -/
theorem connect_resolved_identity (resolver : Nat → List Nat)
    (d : QLowEnergyControllerPrivate)
    (hstate : d.state = ControllerState.UnconnectedState)
    (hpath : d.deviceSystemPath = [])
    (haddr : d.remoteDevice ≠ 0)
    (hres : resolver d.remoteDevice ≠ []) :
    transitionsSince d.signals (connectToDevice resolver d)
      = [ControllerState.ConnectingState, ControllerState.ConnectedState] ∧
    (connectToDevice resolver d).state = ControllerState.ConnectedState ∧
    (connectToDevice resolver d).deviceSystemPath = resolver d.remoteDevice ∧
    (connectToDevice resolver d).error = d.error ∧
    (connectToDevice resolver d).signals
      = d.signals ++ [Signal.stateChanged ControllerState.ConnectingState,
          Signal.stateChanged ControllerState.ConnectedState, Signal.connected] ∧
    (signalsSince d.signals (connectToDevice resolver d)).count Signal.connected = 1 ∧
    (connectToDevice resolver d).resolverCalls = d.resolverCalls + 1 := by
  have hsig : (connectToDevice resolver d).signals
      = d.signals ++ [Signal.stateChanged ControllerState.ConnectingState,
          Signal.stateChanged ControllerState.ConnectedState, Signal.connected] := by
    simp [connectToDevice, setState, emit, hstate, hpath, haddr, hres]
  refine ⟨?_, ?_, ?_, ?_, hsig, ?_, ?_⟩
  · simp [transitionsSince, hsig]
  · simp [connectToDevice, setState, emit, hstate, hpath, haddr, hres]
  · simp [connectToDevice, setState, emit, hstate, hpath, haddr, hres]
  · simp [connectToDevice, setState, emit, hstate, hpath, haddr, hres]
  · simp [signalsSince, hsig]
  · simp [connectToDevice, setState, emit, hstate, hpath, haddr, hres]

/-- C6, witness: a fresh controller for address 5 and a resolver that answers
the path "A". -/
theorem connect_resolved_identity_witness :
    (initial 5).state = ControllerState.UnconnectedState ∧
    (initial 5).deviceSystemPath = [] ∧ (initial 5).remoteDevice ≠ 0 ∧
    exampleResolver (initial 5).remoteDevice ≠ [] ∧
    (connectToDevice exampleResolver (initial 5)).signals
      = [Signal.stateChanged ControllerState.ConnectingState,
          Signal.stateChanged ControllerState.ConnectedState, Signal.connected] ∧
    (connectToDevice exampleResolver (initial 5)).deviceSystemPath = [65] :=
  ⟨rfl, rfl, by decide, by decide,
   (connect_resolved_identity exampleResolver (initial 5) rfl rfl (by decide)
     (by decide)).2.2.2.2.1,
   (connect_resolved_identity exampleResolver (initial 5) rfl rfl (by decide)
     (by decide)).2.2.1⟩

end QLowEnergyControllerPrivate

namespace QLowEnergyControllerPrivate

theorem initial_identity_needs_address (a : Nat) :
    (initial a).deviceSystemPath ≠ [] → (initial a).remoteDevice ≠ 0 := by
  intro h
  exact absurd rfl h

theorem connectToDevice_identity_needs_address (resolver : Nat → List Nat)
    (d : QLowEnergyControllerPrivate)
    (hinv : d.deviceSystemPath ≠ [] → d.remoteDevice ≠ 0) :
    (connectToDevice resolver d).deviceSystemPath ≠ [] →
      (connectToDevice resolver d).remoteDevice ≠ 0 := by
  by_cases hnull : d.remoteDevice = 0
  · have hempty : d.deviceSystemPath = [] := by
      by_contra hne
      exact hinv hne hnull
    simp [connectToDevice, hnull, setError, emit, hempty]
  · intro _
    have hrem : (connectToDevice resolver d).remoteDevice = d.remoteDevice := by
      unfold connectToDevice
      simp only [hnull, if_false]
      split
      · rfl
      · split <;> simp only [setState, setError, emit] <;> split <;> (try split) <;> rfl
    rw [hrem]
    exact hnull

theorem disconnectFromDevice_identity_needs_address (d : QLowEnergyControllerPrivate) :
    (disconnectFromDevice d).deviceSystemPath ≠ [] →
      (disconnectFromDevice d).remoteDevice ≠ 0 := by
  have hempty : (disconnectFromDevice d).deviceSystemPath = [] := by
    unfold disconnectFromDevice
    split
    · assumption
    · simp only [setState, emit]
      split <;> split <;> rfl
  intro h
  exact absurd hempty h

theorem setState_identity (newState : ControllerState) (d : QLowEnergyControllerPrivate) :
    (setState newState d).remoteDevice = d.remoteDevice ∧
    (setState newState d).deviceSystemPath = d.deviceSystemPath := by
  unfold setState
  split <;> exact ⟨rfl, rfl⟩

theorem noteOpen_identity (h : Nat) (d : QLowEnergyControllerPrivate) :
    (noteOpen h d).remoteDevice = d.remoteDevice ∧
    (noteOpen h d).deviceSystemPath = d.deviceSystemPath := by
  unfold noteOpen
  split <;> exact ⟨rfl, rfl⟩

theorem noteClose_identity (h : Nat) (d : QLowEnergyControllerPrivate) :
    (noteClose h d).remoteDevice = d.remoteDevice ∧
    (noteClose h d).deviceSystemPath = d.deviceSystemPath := by
  unfold noteClose
  split <;> exact ⟨rfl, rfl⟩

theorem foldl_addFoundService_identity (rs : List BTH_LE_GATT_SERVICE) :
    ∀ d : QLowEnergyControllerPrivate,
      (rs.foldl addFoundService d).remoteDevice = d.remoteDevice ∧
      (rs.foldl addFoundService d).deviceSystemPath = d.deviceSystemPath := by
  induction rs with
  | nil => intro d; exact ⟨rfl, rfl⟩
  | cons r rest ih =>
    intro d
    have := ih (addFoundService d r)
    simpa [addFoundService, emit] using this

theorem discoverServices_identity_needs_address (CreateFile : CreateFileFn)
    (gattFunctionsResolved : Bool) (native : NativeLayer BTH_LE_GATT_SERVICE) (fuel : Nat)
    (d r : QLowEnergyControllerPrivate)
    (hinv : d.deviceSystemPath ≠ [] → d.remoteDevice ≠ 0)
    (hr : discoverServices CreateFile gattFunctionsResolved native fuel d = some r) :
    r.deviceSystemPath ≠ [] → r.remoteDevice ≠ 0 := by
  have hsame : r.remoteDevice = d.remoteDevice ∧ r.deviceSystemPath = d.deviceSystemPath := by
    have hno := noteOpen_identity
      (openSystemDevice CreateFile d.deviceSystemPath QIODevice.ReadOnly).1 d
    have hnc := noteClose_identity
      (openSystemDevice CreateFile d.deviceSystemPath QIODevice.ReadOnly).1
      (noteOpen (openSystemDevice CreateFile d.deviceSystemPath QIODevice.ReadOnly).1 d)
    unfold discoverServices at hr
    simp only [] at hr
    split at hr
    · injection hr with hr
      subst hr
      have h1 := setState_identity ControllerState.ConnectedState
        (setError ControllerError.NetworkError
          (noteOpen (openSystemDevice CreateFile d.deviceSystemPath QIODevice.ReadOnly).1 d))
      exact ⟨h1.1.trans hno.1, h1.2.trans hno.2⟩
    · split at hr
      · exact absurd hr (by simp)
      · split at hr
        · injection hr with hr
          subst hr
          have h1 := setState_identity ControllerState.ConnectedState
            (setError ControllerError.NetworkError
              (noteClose (openSystemDevice CreateFile d.deviceSystemPath QIODevice.ReadOnly).1
                (noteOpen (openSystemDevice CreateFile d.deviceSystemPath QIODevice.ReadOnly).1
                  d)))
          exact ⟨h1.1.trans (hnc.1.trans hno.1), h1.2.trans (hnc.2.trans hno.2)⟩
        · injection hr with hr
          subst hr
          rename_i run _ _
          have h1 := setState_identity ControllerState.DiscoveredState
            (run.result.foldl addFoundService (setState ControllerState.DiscoveringState
              (noteClose (openSystemDevice CreateFile d.deviceSystemPath QIODevice.ReadOnly).1
                (noteOpen (openSystemDevice CreateFile d.deviceSystemPath QIODevice.ReadOnly).1
                  d))))
          have h2 := foldl_addFoundService_identity run.result
            (setState ControllerState.DiscoveringState
              (noteClose (openSystemDevice CreateFile d.deviceSystemPath QIODevice.ReadOnly).1
                (noteOpen (openSystemDevice CreateFile d.deviceSystemPath QIODevice.ReadOnly).1
                  d)))
          have h3 := setState_identity ControllerState.DiscoveringState
            (noteClose (openSystemDevice CreateFile d.deviceSystemPath QIODevice.ReadOnly).1
              (noteOpen (openSystemDevice CreateFile d.deviceSystemPath QIODevice.ReadOnly).1 d))
          exact ⟨h1.1.trans (h2.1.trans (h3.1.trans (hnc.1.trans hno.1))),
            h1.2.trans (h2.2.trans (h3.2.trans (hnc.2.trans hno.2)))⟩
  intro hp
  rw [hsame.1]
  exact hinv (by rw [← hsame.2]; exact hp)

/-- C7. A redundant call is a no-op. A controller holds a resolved identity
only for a non-null address (true of the fresh controller and kept by every
operation); on such a controller `connectToDevice` with an identity already
held, and `disconnectFromDevice` with none held, in particular on the fresh
controller before any connect, return the controller unchanged: same state,
error, identity and service map, and the same signal log, so no transition
and no event. -/
theorem redundant_call_is_noop (resolver : Nat → List Nat)
    (d : QLowEnergyControllerPrivate)
    (hinv : d.deviceSystemPath ≠ [] → d.remoteDevice ≠ 0) :
    (d.deviceSystemPath ≠ [] → connectToDevice resolver d = d) ∧
    (d.deviceSystemPath = [] → disconnectFromDevice d = d) ∧
    (∀ a, disconnectFromDevice (initial a) = initial a) := by
  refine ⟨?_, ?_, ?_⟩
  · intro hpath
    simp [connectToDevice, hinv hpath, hpath]
  · intro hpath
    simp [disconnectFromDevice, hpath]
  · intro a
    rfl

/-- C7, witness: a second connect on the connected example controller, and a
disconnect on the fresh controller. -/
theorem redundant_call_is_noop_witness :
    (exampleConnected.deviceSystemPath ≠ [] → exampleConnected.remoteDevice ≠ 0) ∧
    exampleConnected.deviceSystemPath ≠ [] ∧
    connectToDevice emptyResolver exampleConnected = exampleConnected ∧
    (initial 5).deviceSystemPath = [] ∧
    disconnectFromDevice (initial 5) = initial 5 :=
  ⟨fun _ => by decide, by decide,
   (redundant_call_is_noop emptyResolver exampleConnected (fun _ => by decide)).1 (by decide),
   rfl,
   (redundant_call_is_noop emptyResolver (initial 5) (fun h => absurd rfl h)).2.1 rfl⟩

/-- C8, counterexample. The example controller is in state Discovered, holds an
identity and two services; after `disconnectFromDevice` its service map
still holds the two services: the map is not empty. -/
theorem disconnect_keeps_service_map :
    exampleDiscovered.state = ControllerState.DiscoveredState ∧
    exampleDiscovered.deviceSystemPath = [65] ∧
    exampleDiscovered.serviceList.length = 2 ∧
    (disconnectFromDevice exampleDiscovered).state = ControllerState.UnconnectedState ∧
    (disconnectFromDevice exampleDiscovered).serviceList.length = 2 ∧
    (disconnectFromDevice exampleDiscovered).serviceList ≠ [] := by
  decide

/-- C8, amended. `disconnectFromDevice` on a controller in a connected-family
state (Connected, Discovering or Discovered) that holds a resolved identity
produces the transitions Closing then Unconnected and then emits
`disconnected`; afterwards the resolved identity is empty. The service map
is not touched by this function: it is the map from before the call. -/
theorem disconnect_closes_and_forgets_identity (d : QLowEnergyControllerPrivate)
    (hpath : d.deviceSystemPath ≠ [])
    (hstate : d.state = ControllerState.ConnectedState ∨
      d.state = ControllerState.DiscoveringState ∨
      d.state = ControllerState.DiscoveredState) :
    transitionsSince d.signals (disconnectFromDevice d)
      = [ControllerState.ClosingState, ControllerState.UnconnectedState] ∧
    (disconnectFromDevice d).signals
      = d.signals ++ [Signal.stateChanged ControllerState.ClosingState,
          Signal.stateChanged ControllerState.UnconnectedState, Signal.disconnected] ∧
    (disconnectFromDevice d).state = ControllerState.UnconnectedState ∧
    (disconnectFromDevice d).deviceSystemPath = [] ∧
    (disconnectFromDevice d).serviceList = d.serviceList ∧
    (disconnectFromDevice d).error = d.error := by
  have hsig : (disconnectFromDevice d).signals
      = d.signals ++ [Signal.stateChanged ControllerState.ClosingState,
          Signal.stateChanged ControllerState.UnconnectedState, Signal.disconnected] := by
    rcases hstate with h | h | h <;> simp [disconnectFromDevice, setState, emit, hpath, h]
  refine ⟨?_, hsig, ?_, ?_, ?_, ?_⟩
  · simp [transitionsSince, hsig]
  · rcases hstate with h | h | h <;> simp [disconnectFromDevice, setState, emit, hpath, h]
  · rcases hstate with h | h | h <;> simp [disconnectFromDevice, setState, emit, hpath, h]
  · rcases hstate with h | h | h <;> simp [disconnectFromDevice, setState, emit, hpath, h]
  · rcases hstate with h | h | h <;> simp [disconnectFromDevice, setState, emit, hpath, h]

/-- C8, witness: the disconnect of the connected example controller. -/
theorem disconnect_closes_and_forgets_identity_witness :
    exampleConnected.deviceSystemPath ≠ [] ∧
    exampleConnected.state = ControllerState.ConnectedState ∧
    (disconnectFromDevice exampleConnected).state = ControllerState.UnconnectedState ∧
    (disconnectFromDevice exampleConnected).deviceSystemPath = [] ∧
    transitionsSince exampleConnected.signals (disconnectFromDevice exampleConnected)
      = [ControllerState.ClosingState, ControllerState.UnconnectedState] :=
  ⟨by decide, by decide,
   (disconnect_closes_and_forgets_identity exampleConnected (by decide)
     (Or.inl (by decide))).2.2.1,
   (disconnect_closes_and_forgets_identity exampleConnected (by decide)
     (Or.inl (by decide))).2.2.2.1,
   (disconnect_closes_and_forgets_identity exampleConnected (by decide)
     (Or.inl (by decide))).1⟩

end QLowEnergyControllerPrivate

namespace QLowEnergyControllerPrivate

theorem noteOpen_frame (h : Nat) (d : QLowEnergyControllerPrivate) :
    (noteOpen h d).state = d.state ∧ (noteOpen h d).error = d.error ∧
    (noteOpen h d).signals = d.signals ∧ (noteOpen h d).serviceList = d.serviceList ∧
    (noteOpen h d).remoteDevice = d.remoteDevice ∧
    (noteOpen h d).deviceSystemPath = d.deviceSystemPath := by
  unfold noteOpen
  split <;> exact ⟨rfl, rfl, rfl, rfl, rfl, rfl⟩

theorem noteClose_frame (h : Nat) (d : QLowEnergyControllerPrivate) :
    (noteClose h d).state = d.state ∧ (noteClose h d).error = d.error ∧
    (noteClose h d).signals = d.signals ∧ (noteClose h d).serviceList = d.serviceList ∧
    (noteClose h d).remoteDevice = d.remoteDevice ∧
    (noteClose h d).deviceSystemPath = d.deviceSystemPath := by
  unfold noteClose
  split <;> exact ⟨rfl, rfl, rfl, rfl, rfl, rfl⟩

theorem setState_of_ne (newState : ControllerState) (d : QLowEnergyControllerPrivate)
    (h : d.state ≠ newState) :
    setState newState d
      = emit (Signal.stateChanged newState) { d with state := newState } := by
  unfold setState
  rw [if_neg h]

theorem setState_of_eq (newState : ControllerState) (d : QLowEnergyControllerPrivate)
    (h : d.state = newState) : setState newState d = d := by
  unfold setState
  rw [if_pos h]

end QLowEnergyControllerPrivate

namespace QLowEnergyControllerPrivate

/-- What `discoverServices` does once a failure has been reported to it, by
`openSystemDevice` or by `enumeratePrimaryGattServices`, through a
`systemErrorCode` other than `NO_ERROR`: the error is `NetworkError`, the
final state is Connected, the service map is untouched, and the signals
emitted are the error and, unless the controller was Connected already, the
transition to Connected. -/
theorem discoverServices_reported_failure (CreateFile : CreateFileFn)
    (gattFunctionsResolved : Bool) (native : NativeLayer BTH_LE_GATT_SERVICE) (fuel : Nat)
    (d : QLowEnergyControllerPrivate)
    (hfail : (openSystemDevice CreateFile d.deviceSystemPath QIODevice.ReadOnly).2 ≠ NO_ERROR ∨
      ∃ run, enumeratePrimaryGattServices gattFunctionsResolved native fuel = some run ∧
        run.systemErrorCode ≠ NO_ERROR) :
    ∃ r, discoverServices CreateFile gattFunctionsResolved native fuel d = some r ∧
      r.error = ControllerError.NetworkError ∧
      r.state = ControllerState.ConnectedState ∧
      r.serviceList = d.serviceList ∧
      r.deviceSystemPath = d.deviceSystemPath ∧
      r.signals = d.signals ++ Signal.error ControllerError.NetworkError ::
        (if d.state = ControllerState.ConnectedState then []
         else [Signal.stateChanged ControllerState.ConnectedState]) := by
  have key : ∀ d0 : QLowEnergyControllerPrivate, d0.state = d.state → d0.signals = d.signals →
      d0.serviceList = d.serviceList → d0.deviceSystemPath = d.deviceSystemPath →
      (setState ControllerState.ConnectedState
          (setError ControllerError.NetworkError d0)).error = ControllerError.NetworkError ∧
      (setState ControllerState.ConnectedState
          (setError ControllerError.NetworkError d0)).state = ControllerState.ConnectedState ∧
      (setState ControllerState.ConnectedState
          (setError ControllerError.NetworkError d0)).serviceList = d.serviceList ∧
      (setState ControllerState.ConnectedState
          (setError ControllerError.NetworkError d0)).deviceSystemPath = d.deviceSystemPath ∧
      (setState ControllerState.ConnectedState
          (setError ControllerError.NetworkError d0)).signals
        = d.signals ++ Signal.error ControllerError.NetworkError ::
          (if d.state = ControllerState.ConnectedState then []
           else [Signal.stateChanged ControllerState.ConnectedState]) := by
    intro d0 hs hg hl hp
    by_cases hc : d.state = ControllerState.ConnectedState
    · have h0 : (setError ControllerError.NetworkError d0).state
          = ControllerState.ConnectedState := by
        simp [setError, emit, hs, hc]
      rw [setState_of_eq _ _ h0]
      simp [setError, emit, hs, hg, hl, hp, hc]
    · have h0 : (setError ControllerError.NetworkError d0).state
          ≠ ControllerState.ConnectedState := by
        simp [setError, emit, hs, hc]
      rw [setState_of_ne _ _ h0]
      simp [setError, emit, hg, hl, hp, hc]
  have hno := noteOpen_frame (openSystemDevice CreateFile d.deviceSystemPath QIODevice.ReadOnly).1 d
  have hnc := noteClose_frame (openSystemDevice CreateFile d.deviceSystemPath QIODevice.ReadOnly).1
    (noteOpen (openSystemDevice CreateFile d.deviceSystemPath QIODevice.ReadOnly).1 d)
  by_cases hopen : (openSystemDevice CreateFile d.deviceSystemPath QIODevice.ReadOnly).2 = NO_ERROR
  · rcases hfail with h | ⟨run, hrun, hcode⟩
    · exact absurd hopen h
    · refine ⟨_, ?_, key _ (hnc.1.trans hno.1) (hnc.2.2.1.trans hno.2.2.1)
        (hnc.2.2.2.1.trans hno.2.2.2.1) (hnc.2.2.2.2.2.trans hno.2.2.2.2.2)⟩
      simp only [discoverServices, hopen, hrun, ne_eq, not_true_eq_false, if_false, hcode,
        not_false_eq_true, if_true]
  · refine ⟨_, ?_, key _ hno.1 hno.2.2.1 hno.2.2.2.1 hno.2.2.2.2.2⟩
    simp only [discoverServices, ne_eq, hopen, not_false_eq_true, if_true]

/-- C10, the code at the failing input. The example controller is Connected,
the device handle opens, and the one native enumeration call fails hard
while `::GetLastError()` yields 0. `discoverServices` then sets no error and
ends in state Discovered after the transitions Discovering and Discovered,
and emits `discoveryFinished`. -/
theorem discovery_finishes_after_unreported_hard_failure :
    exampleConnected.state = ControllerState.ConnectedState ∧
    (openSystemDevice exampleCreateFile exampleConnected.deviceSystemPath QIODevice.ReadOnly).1
      ≠ INVALID_HANDLE_VALUE ∧
    (discoverServices exampleCreateFile true (fun _ => NativeReply.failed 0) 1
        exampleConnected).map (fun r => (r.state, r.error, signalsSince exampleConnected.signals r))
      = some (ControllerState.DiscoveredState, ControllerError.NoError,
          [Signal.stateChanged ControllerState.DiscoveringState,
           Signal.stateChanged ControllerState.DiscoveredState,
           Signal.discoveryFinished]) := by
  decide

end QLowEnergyControllerPrivate

/-! ## Properties of the maps -/

theorem NatMap.value_insert_self {β : Type} (k : Nat) (v : β) (m : NatMap β) :
    NatMap.value (NatMap.insert k v m) k = some v := by
  induction m with
  | nil => simp [NatMap.insert, NatMap.value]
  | cons p rest ih =>
    obtain ⟨k0, v0⟩ := p
    unfold NatMap.insert
    by_cases h1 : k < k0
    · simp [h1, NatMap.value]
    · by_cases h2 : k = k0
      · simp [h2, NatMap.value]
      · have h3 : (k0 == k) = false := by
          simp only [beq_eq_false_iff_ne, ne_eq]
          exact fun h => h2 h.symm
        simp only [h1, h2, if_false]
        simp only [NatMap.value, List.find?_cons, h3] at ih ⊢
        exact ih

theorem NatMap.value_eq_none_of_not_contains {β : Type} (m : NatMap β) (k : Nat)
    (h : NatMap.contains m k = false) : NatMap.value m k = none := by
  induction m with
  | nil => rfl
  | cons p rest ih =>
    simp only [NatMap.contains, List.any_cons, Bool.or_eq_false_iff] at h
    simp only [NatMap.value, List.find?_cons, h.1]
    exact ih (by simpa [NatMap.contains] using h.2)

theorem NatMap.keys_insert {β : Type} (k : Nat) (v : β) (m : NatMap β) :
    ∀ x, x ∈ NatMap.keys (NatMap.insert k v m) → x = k ∨ x ∈ NatMap.keys m := by
  induction m with
  | nil =>
    intro x hx
    simp [NatMap.insert, NatMap.keys] at hx
    exact Or.inl hx
  | cons p rest ih =>
    obtain ⟨k0, v0⟩ := p
    intro x hx
    unfold NatMap.insert at hx
    split at hx
    · simp only [NatMap.keys, List.map_cons, List.mem_cons] at hx ⊢
      rcases hx with h | h | h
      · exact Or.inl h
      · exact Or.inr (Or.inl h)
      · exact Or.inr (Or.inr h)
    · split at hx
      · simp only [NatMap.keys, List.map_cons, List.mem_cons] at hx ⊢
        rcases hx with h | h
        · exact Or.inl h
        · exact Or.inr (Or.inr h)
      · simp only [NatMap.keys, List.map_cons, List.mem_cons] at hx ⊢
        rcases hx with h | h
        · exact Or.inr (Or.inl h)
        · rcases ih x h with h' | h'
          · exact Or.inl h'
          · exact Or.inr (Or.inr h')

/-! ## Properties of the UUID conversions and of the write buffer -/

theorem land_high_mask_of_lt (s : Nat) (hs : s < 65536) : s &&& 0xFFFF0000 = 0 := by
  apply Nat.eq_of_testBit_eq
  intro i
  rw [Nat.testBit_and, Nat.zero_testBit]
  by_cases hi : i < 16
  · have hm : Nat.testBit 0xFFFF0000 i = false := by
      interval_cases i <;> rfl
    rw [hm, Bool.and_false]
  · have hlt : s < 2 ^ i :=
      lt_of_lt_of_le hs (by
        have : (2 : Nat) ^ 16 ≤ 2 ^ i := Nat.pow_le_pow_right (by decide) (by omega)
        simpa using this)
    rw [Nat.testBit_lt_two_pow hlt, Bool.false_and]

theorem fromShort_parts (s : Nat) (hs : s < 65536) :
    QBluetoothUuid.fromShort s % 2 ^ 96 = baseUuidTail ∧
    QBluetoothUuid.data1 (QBluetoothUuid.fromShort s) = s := by
  have hpow : (2 : Nat) ^ 96 = 79228162514264337593543950336 := by norm_num
  have hpow32 : (2 : Nat) ^ 32 = 4294967296 := by norm_num
  unfold QBluetoothUuid.data1 QBluetoothUuid.fromShort baseUuidTail
  rw [hpow, hpow32]
  constructor <;> omega

/-- C16. For every 16-bit value `s`, converting the native short-form UUID `s`
to the controller's 128-bit UUID and converting the result back yields a
native UUID marked short whose short value is `s`; and converting the
128-bit form of `s` to the native form and back yields that 128-bit form:
the two conversions are mutually inverse on short-form UUIDs. -/
theorem short_uuid_round_trip (s : Nat) (hs : s < 65536) :
    nativeLeUuidFromQtBluetoothUuid (qtBluetoothUuidFromNativeLeUuid (BTH_LE_UUID.ShortUuid s))
      = BTH_LE_UUID.ShortUuid s ∧
    qtBluetoothUuidFromNativeLeUuid
        (nativeLeUuidFromQtBluetoothUuid (QBluetoothUuid.fromShort s))
      = QBluetoothUuid.fromShort s ∧
    QBluetoothUuid.minimumSize (QBluetoothUuid.fromShort s) = 2 := by
  obtain ⟨htail, hdata⟩ := fromShort_parts s hs
  have hmin : QBluetoothUuid.minimumSize (QBluetoothUuid.fromShort s) = 2 := by
    unfold QBluetoothUuid.minimumSize
    rw [if_pos htail, hdata, land_high_mask_of_lt s hs]
    simp
  have hback : nativeLeUuidFromQtBluetoothUuid (QBluetoothUuid.fromShort s)
      = BTH_LE_UUID.ShortUuid s := by
    unfold nativeLeUuidFromQtBluetoothUuid
    rw [if_pos hmin, hdata, Nat.mod_eq_of_lt hs]
  refine ⟨?_, ?_, hmin⟩
  · simpa [qtBluetoothUuidFromNativeLeUuid] using hback
  · rw [hback]
    rfl

/-- C16, witness: the battery-service short UUID 0x180F. -/
theorem short_uuid_round_trip_witness :
    0x180F < 65536 ∧
    nativeLeUuidFromQtBluetoothUuid
        (qtBluetoothUuidFromNativeLeUuid (BTH_LE_UUID.ShortUuid 0x180F))
      = BTH_LE_UUID.ShortUuid 0x180F :=
  ⟨by decide, (short_uuid_round_trip 0x180F (by decide)).1⟩

theorem readDataSize_ulongBytes (n : Nat) (rest : List Nat) (hn : n < 2 ^ 32) :
    readDataSize (ulongBytes n ++ rest) = n := by
  have hpow32 : (2 : Nat) ^ 32 = 4294967296 := by norm_num
  rw [hpow32] at hn
  simp only [readDataSize, ulongBytes, List.cons_append, List.nil_append, List.getD_cons_zero,
    List.getD_cons_succ]
  omega

/-- C19. For every byte sequence `v`, the buffer that `setGattCharacteristicValue`
hands to the native write call is exactly `4 + |v|` bytes long: its first 4
bytes are the length `|v|` as a 32-bit unsigned integer in native (little
endian) byte order, so that they read back as `|v|` (a `QByteArray` is
shorter than 2^32 bytes), and the remaining bytes are `v` unchanged; the
buffer is the framing the value retrievals parse. With the GATT functions
resolved that buffer is handed to exactly one native call. Read as a native
characteristic value by the success branch of the value retrieval, the
buffer of a value shorter than 2^31 bytes gives back `v`. -/
theorem write_payload_framing (v : List Nat) :
    (writeValueBuffer v).length = 4 + v.length ∧
    (writeValueBuffer v).take 4 = ulongBytes (v.length % 2 ^ 32) ∧
    (writeValueBuffer v).drop 4 = v ∧
    readDataSize (writeValueBuffer v) = v.length % 2 ^ 32 ∧
    (v.length < 2 ^ 32 → readDataSize (writeValueBuffer v) = v.length) ∧
    (v.length < 2 ^ 32 → framedValue (writeValueBuffer v) = some v) ∧
    (∀ (nativeSet : SetValueFn) (gattCharacteristic : BTH_LE_GATT_CHARACTERISTIC) (flags : Nat),
      (setGattCharacteristicValue true nativeSet gattCharacteristic v flags).payloads
        = [writeValueBuffer v]) ∧
    (v.length < 2 ^ 31 →
      readValue characteristicValueDataSizeOffset (writeValueBuffer v) = some v) := by
  have hsize : readDataSize (writeValueBuffer v) = v.length % 2 ^ 32 := by
    unfold writeValueBuffer
    exact readDataSize_ulongBytes _ _ (Nat.mod_lt _ (by norm_num))
  have hlen : (writeValueBuffer v).length = 4 + v.length := by
    simp only [writeValueBuffer, ulongBytes, List.length_append, List.length_cons,
      List.length_nil]
  have hdrop : (writeValueBuffer v).drop 4 = v := by
    simp [writeValueBuffer, ulongBytes]
  refine ⟨hlen, ?_, hdrop, hsize, ?_, ?_, ?_, ?_⟩
  · simp [writeValueBuffer, ulongBytes]
  · intro hv
    rw [hsize, Nat.mod_eq_of_lt hv]
  · intro hv
    have hs : readDataSize (writeValueBuffer v) = v.length := by
      rw [hsize, Nat.mod_eq_of_lt hv]
    unfold framedValue
    rw [hs, hlen, hdrop]
    simp
  · intro nativeSet gattCharacteristic flags
    unfold setGattCharacteristicValue
    simp only [Bool.not_true, Bool.false_eq_true, if_false]
    split <;> rfl
  · intro hv
    have hs : readDataSize (writeValueBuffer v) = v.length := by
      rw [hsize, Nat.mod_eq_of_lt (lt_trans hv (by norm_num))]
    have hread := readValue_within 0 (writeValueBuffer v) (by omega)
      (by rw [List.drop_zero, hs]; exact hv) (by rw [List.drop_zero, hs, hlen])
    rw [List.drop_zero, hs, hdrop] at hread
    simpa [characteristicValueDataSizeOffset] using hread

/-- C19, witness: the value 5, 6, 7 is framed as 3, 0, 0, 0, 5, 6, 7. -/
theorem write_payload_framing_witness :
    [5, 6, 7].length < 2 ^ 32 ∧
    writeValueBuffer [5, 6, 7] = [3, 0, 0, 0, 5, 6, 7] ∧
    readDataSize (writeValueBuffer [5, 6, 7]) = [5, 6, 7].length ∧
    framedValue (writeValueBuffer [5, 6, 7]) = some [5, 6, 7] :=
  ⟨by decide, by decide,
   (write_payload_framing [5, 6, 7]).2.2.2.2.1 (by decide),
   (write_payload_framing [5, 6, 7]).2.2.2.2.2.1 (by decide)⟩

/-! ## Properties of reading and writing a characteristic -/

namespace QLowEnergyControllerPrivate

theorem signalsSince_append (d r : QLowEnergyControllerPrivate) (emitted : List Signal)
    (h : r.signals = d.signals ++ emitted) : signalsSince d.signals r = emitted := by
  simp [signalsSince, h]

theorem noteOpen_signals (h : Nat) (d : QLowEnergyControllerPrivate) :
    (noteOpen h d).signals = d.signals :=
  (noteOpen_frame h d).2.2.1

theorem noteOpen_handlesClosed (h : Nat) (d : QLowEnergyControllerPrivate) :
    (noteOpen h d).handlesClosed = d.handlesClosed := by
  unfold noteOpen
  split <;> rfl

theorem noteOpen_handlesOpened (h : Nat) (d : QLowEnergyControllerPrivate)
    (hvalid : h ≠ INVALID_HANDLE_VALUE) :
    (noteOpen h d).handlesOpened = d.handlesOpened + 1 := by
  unfold noteOpen
  rw [if_neg hvalid]

/-- What `readCharacteristic` does, path by path, for a service and a
characteristic that are in the maps. -/
theorem readCharacteristic_paths (env : GattEnv) (service : QBluetoothUuid)
    (charHandle : QLowEnergyHandle) (d : QLowEnergyControllerPrivate)
    (servicePrivate : QLowEnergyServicePrivate) (charDetails : CharData)
    (hservice : NatMap.value d.serviceList service = some servicePrivate)
    (hchar : NatMap.value servicePrivate.characteristicList charHandle = some charDetails) :
    ((openSystemService env.setupDi env.CreateFile servicePrivate.uuid QIODevice.ReadOnly).2
        ≠ NO_ERROR →
      readCharacteristic env service charHandle d
        = some (storeService service
            (QLowEnergyServicePrivate.setError ServiceError.CharacteristicReadError
              (servicePrivate, noteOpen (openSystemService env.setupDi env.CreateFile
                servicePrivate.uuid QIODevice.ReadOnly).1 d)))) ∧
    ((openSystemService env.setupDi env.CreateFile servicePrivate.uuid QIODevice.ReadOnly).2
        = NO_ERROR →
      ∀ run, getGattCharacteristicValue env.gattFunctionsResolved
          (env.characteristicValue (recoverNativeLeGattCharacteristic
            servicePrivate.startHandle charHandle charDetails)) env.fuel = some run →
        (run.systemErrorCode ≠ NO_ERROR →
          readCharacteristic env service charHandle d
            = some (storeService service
                (QLowEnergyServicePrivate.setError ServiceError.CharacteristicReadError
                  (servicePrivate, noteOpen (openSystemService env.setupDi env.CreateFile
                    servicePrivate.uuid QIODevice.ReadOnly).1 d)))) ∧
        (run.systemErrorCode = NO_ERROR → ∀ value, run.result = some value →
          readCharacteristic env service charHandle d
            = some (storeService service
                ((updateValueOfCharacteristic charHandle value
                    (servicePrivate, noteOpen (openSystemService env.setupDi env.CreateFile
                      servicePrivate.uuid QIODevice.ReadOnly).1 d)).1,
                 emit (Signal.characteristicRead servicePrivate.uuid charHandle value)
                  (updateValueOfCharacteristic charHandle value
                    (servicePrivate, noteOpen (openSystemService env.setupDi env.CreateFile
                      servicePrivate.uuid QIODevice.ReadOnly).1 d)).2)))) := by
  refine ⟨?_, ?_⟩
  · intro hopen
    simp only [readCharacteristic, hservice, hchar, ne_eq, hopen, not_false_eq_true, if_true]
  · intro hopen run hrun
    refine ⟨?_, ?_⟩
    · intro hcode
      simp only [readCharacteristic, hservice, hchar, ne_eq, hopen, not_true_eq_false, if_false,
        hrun, hcode, not_false_eq_true, if_true]
    · intro hcode value hvalue
      simp only [readCharacteristic, hservice, hchar, ne_eq, hopen, not_true_eq_false, if_false,
        hrun, hcode, hvalue]

/-- What `writeCharacteristic` does, path by path, for a service and a
characteristic that are in the maps. -/
theorem writeCharacteristic_paths (env : GattEnv) (service : QBluetoothUuid)
    (charHandle : QLowEnergyHandle) (newValue : List Nat) (writeWithResponse : Bool)
    (d : QLowEnergyControllerPrivate)
    (servicePrivate : QLowEnergyServicePrivate) (charDetails : CharData)
    (hservice : NatMap.value d.serviceList service = some servicePrivate)
    (hchar : NatMap.value servicePrivate.characteristicList charHandle = some charDetails) :
    (((openSystemService env.setupDi env.CreateFile servicePrivate.uuid QIODevice.ReadWrite).2
        ≠ NO_ERROR ∨
      (setGattCharacteristicValue env.gattFunctionsResolved env.setCharacteristicValue
        (recoverNativeLeGattCharacteristic servicePrivate.startHandle charHandle charDetails)
        newValue (if writeWithResponse then BLUETOOTH_GATT_FLAG_NONE
          else BLUETOOTH_GATT_FLAG_WRITE_WITHOUT_RESPONSE)).systemErrorCode ≠ NO_ERROR) →
      writeCharacteristic env service charHandle newValue writeWithResponse d
        = some (storeService service
            (QLowEnergyServicePrivate.setError ServiceError.CharacteristicWriteError
              (servicePrivate, noteOpen (openSystemService env.setupDi env.CreateFile
                servicePrivate.uuid QIODevice.ReadWrite).1 d)))) ∧
    ((openSystemService env.setupDi env.CreateFile servicePrivate.uuid QIODevice.ReadWrite).2
        = NO_ERROR →
      (setGattCharacteristicValue env.gattFunctionsResolved env.setCharacteristicValue
        (recoverNativeLeGattCharacteristic servicePrivate.startHandle charHandle charDetails)
        newValue (if writeWithResponse then BLUETOOTH_GATT_FLAG_NONE
          else BLUETOOTH_GATT_FLAG_WRITE_WITHOUT_RESPONSE)).systemErrorCode = NO_ERROR →
      writeCharacteristic env service charHandle newValue writeWithResponse d
        = some (storeService service
            ((updateValueOfCharacteristic charHandle newValue
                (servicePrivate, noteOpen (openSystemService env.setupDi env.CreateFile
                  servicePrivate.uuid QIODevice.ReadWrite).1 d)).1,
             if writeWithResponse then
               emit (Signal.characteristicWritten servicePrivate.uuid charHandle newValue)
                (updateValueOfCharacteristic charHandle newValue
                  (servicePrivate, noteOpen (openSystemService env.setupDi env.CreateFile
                    servicePrivate.uuid QIODevice.ReadWrite).1 d)).2
             else
               (updateValueOfCharacteristic charHandle newValue
                  (servicePrivate, noteOpen (openSystemService env.setupDi env.CreateFile
                    servicePrivate.uuid QIODevice.ReadWrite).1 d)).2))) := by
  refine ⟨?_, ?_⟩
  · intro hfail
    by_cases hopen : (openSystemService env.setupDi env.CreateFile servicePrivate.uuid
        QIODevice.ReadWrite).2 = NO_ERROR
    · rcases hfail with h | h
      · exact absurd hopen h
      · simp only [writeCharacteristic, hservice, hchar, ne_eq, hopen, not_true_eq_false,
          if_false, h, not_false_eq_true, if_true]
    · simp only [writeCharacteristic, hservice, hchar, ne_eq, hopen, not_false_eq_true, if_true]
  · intro hopen hcode
    cases writeWithResponse
    · simp only [Bool.false_eq_true, if_false] at hcode ⊢
      simp only [writeCharacteristic, hservice, hchar, ne_eq, hopen, not_true_eq_false, if_false,
        Bool.false_eq_true, hcode]
    · simp only [if_true] at hcode ⊢
      simp only [writeCharacteristic, hservice, hchar, ne_eq, hopen, not_true_eq_false, if_false,
        if_true, hcode]

/-- C17. `readCharacteristic` and `writeCharacteristic` called with a
characteristic handle that is absent from the service's characteristic map
return the controller exactly as it was: no error set, no signal emitted, no
handle opened, the service's cached data unchanged. This holds for every
native layer and every fuel, zero included: no native call is issued. -/
theorem absent_handle_is_ignored (env : GattEnv) (service : QBluetoothUuid)
    (charHandle : QLowEnergyHandle) (d : QLowEnergyControllerPrivate)
    (servicePrivate : QLowEnergyServicePrivate)
    (hservice : NatMap.value d.serviceList service = some servicePrivate)
    (habsent : NatMap.contains servicePrivate.characteristicList charHandle = false) :
    readCharacteristic env service charHandle d = some d ∧
    (∀ (newValue : List Nat) (writeWithResponse : Bool),
      writeCharacteristic env service charHandle newValue writeWithResponse d = some d) := by
  have hnone := NatMap.value_eq_none_of_not_contains _ _ habsent
  refine ⟨?_, ?_⟩
  · simp only [readCharacteristic, hservice, hnone]
  · intro newValue writeWithResponse
    simp only [writeCharacteristic, hservice, hnone]

set_option maxRecDepth 4096 in
/-- C17, witness: handle 99 is not a characteristic of the discovered battery
service. -/
theorem absent_handle_is_ignored_witness :
    NatMap.value exampleDetailed.serviceList exampleUuidA = some exampleDetailedService ∧
    NatMap.contains exampleDetailedService.characteristicList 99 = false ∧
    readCharacteristic silentFailureEnv exampleUuidA 99 exampleDetailed = some exampleDetailed ∧
    writeCharacteristic silentFailureEnv exampleUuidA 99 [1] true exampleDetailed
      = some exampleDetailed :=
  ⟨by decide, by decide,
   (absent_handle_is_ignored silentFailureEnv exampleUuidA 99 exampleDetailed
     exampleDetailedService (by decide) (by decide)).1,
   (absent_handle_is_ignored silentFailureEnv exampleUuidA 99 exampleDetailed
     exampleDetailedService (by decide) (by decide)).2 [1] true⟩

end QLowEnergyControllerPrivate

namespace QLowEnergyControllerPrivate

theorem updateValueOfCharacteristic_found (charHandle : QLowEnergyHandle) (value : List Nat)
    (p : ServicePass) (charData : CharData)
    (hchar : NatMap.value p.1.characteristicList charHandle = some charData) :
    updateValueOfCharacteristic charHandle value p
      = ({ p.1 with characteristicList :=
            NatMap.insert charHandle { charData with value := value } p.1.characteristicList },
         p.2) := by
  simp only [updateValueOfCharacteristic, hchar]

/-- The effects of the error path shared by `readCharacteristic` and
`writeCharacteristic`: one service error signal, the error stored, and
nothing else of the service changed. -/
theorem reported_failure_effects (service : QBluetoothUuid) (newError : ServiceError)
    (servicePrivate : QLowEnergyServicePrivate) (hService : Nat)
    (d : QLowEnergyControllerPrivate) :
    signalsSince d.signals (storeService service
        (QLowEnergyServicePrivate.setError newError (servicePrivate, noteOpen hService d)))
      = [Signal.serviceError servicePrivate.uuid newError] ∧
    NatMap.value (storeService service
        (QLowEnergyServicePrivate.setError newError
          (servicePrivate, noteOpen hService d))).serviceList service
      = some { servicePrivate with error := newError } := by
  refine ⟨?_, ?_⟩
  · apply signalsSince_append
    simp only [storeService, QLowEnergyServicePrivate.setError, emit, noteOpen_signals]
  · simp only [storeService, QLowEnergyServicePrivate.setError]
    exact NatMap.value_insert_self _ _ _

/-- C18. `writeCharacteristic` with `writeWithResponse = false` returns and
emits no `characteristicWritten`, whatever the native layer does and
whatever the handle. When the characteristic is in the map, the service
handle opens and the native write succeeds, the call with
`writeWithResponse = true` emits exactly one signal, `characteristicWritten`
carrying the new value, the call with `writeWithResponse = false` emits
none, and in both modes the cached value of the characteristic is the new
value afterwards. -/
theorem written_signal_only_with_response (env : GattEnv) (service : QBluetoothUuid)
    (charHandle : QLowEnergyHandle) (newValue : List Nat) (d : QLowEnergyControllerPrivate)
    (servicePrivate : QLowEnergyServicePrivate)
    (hservice : NatMap.value d.serviceList service = some servicePrivate) :
    (∃ r, writeCharacteristic env service charHandle newValue false d = some r ∧
      ∀ u h v, Signal.characteristicWritten u h v ∉ signalsSince d.signals r) ∧
    (∀ charDetails : CharData,
      NatMap.value servicePrivate.characteristicList charHandle = some charDetails →
      (openSystemService env.setupDi env.CreateFile servicePrivate.uuid QIODevice.ReadWrite).2
        = NO_ERROR →
      env.gattFunctionsResolved = true →
      (∀ flags, (env.setCharacteristicValue
        (recoverNativeLeGattCharacteristic servicePrivate.startHandle charHandle charDetails)
        (writeValueBuffer newValue) flags).isOk = true) →
      ∀ writeWithResponse : Bool, ∃ r updated,
        writeCharacteristic env service charHandle newValue writeWithResponse d = some r ∧
        signalsSince d.signals r
          = (if writeWithResponse then
              [Signal.characteristicWritten servicePrivate.uuid charHandle newValue]
             else []) ∧
        NatMap.value r.serviceList service = some updated ∧
        NatMap.value updated.characteristicList charHandle
          = some { charDetails with value := newValue } ∧
        updated.error = servicePrivate.error) := by
  refine ⟨?_, ?_⟩
  · cases hchar : NatMap.value servicePrivate.characteristicList charHandle with
    | none =>
      refine ⟨d, ?_, ?_⟩
      · simp only [writeCharacteristic, hservice, hchar]
      · intro u h v
        simp [signalsSince]
    | some charDetails =>
      have hpaths := fun wr => writeCharacteristic_paths env service charHandle newValue wr d
        servicePrivate charDetails hservice hchar
      have hupd := fun (d0 : QLowEnergyControllerPrivate) =>
        updateValueOfCharacteristic_found charHandle newValue (servicePrivate, d0) charDetails
          hchar
      by_cases hfail :
          (openSystemService env.setupDi env.CreateFile servicePrivate.uuid
            QIODevice.ReadWrite).2 ≠ NO_ERROR ∨
          (setGattCharacteristicValue env.gattFunctionsResolved env.setCharacteristicValue
            (recoverNativeLeGattCharacteristic servicePrivate.startHandle charHandle
              charDetails)
            newValue (if false = true then BLUETOOTH_GATT_FLAG_NONE
              else BLUETOOTH_GATT_FLAG_WRITE_WITHOUT_RESPONSE)).systemErrorCode ≠ NO_ERROR
      · refine ⟨_, (hpaths false).1 hfail, ?_⟩
        intro u h v
        rw [(reported_failure_effects service _ servicePrivate _ d).1]
        simp
      · have hopen : (openSystemService env.setupDi env.CreateFile servicePrivate.uuid
            QIODevice.ReadWrite).2 = NO_ERROR := by
          by_contra hne
          exact hfail (Or.inl hne)
        have hcode : (setGattCharacteristicValue env.gattFunctionsResolved
            env.setCharacteristicValue
            (recoverNativeLeGattCharacteristic servicePrivate.startHandle charHandle
              charDetails)
            newValue (if false = true then BLUETOOTH_GATT_FLAG_NONE
              else BLUETOOTH_GATT_FLAG_WRITE_WITHOUT_RESPONSE)).systemErrorCode = NO_ERROR := by
          by_contra hne
          exact hfail (Or.inr hne)
        refine ⟨_, (hpaths false).2 hopen hcode, ?_⟩
        intro u h v
        have hs : signalsSince d.signals (storeService service
            ((updateValueOfCharacteristic charHandle newValue
                (servicePrivate, noteOpen (openSystemService env.setupDi env.CreateFile
                  servicePrivate.uuid QIODevice.ReadWrite).1 d)).1,
             if false = true then
               emit (Signal.characteristicWritten servicePrivate.uuid charHandle newValue)
                (updateValueOfCharacteristic charHandle newValue
                  (servicePrivate, noteOpen (openSystemService env.setupDi env.CreateFile
                    servicePrivate.uuid QIODevice.ReadWrite).1 d)).2
             else
               (updateValueOfCharacteristic charHandle newValue
                  (servicePrivate, noteOpen (openSystemService env.setupDi env.CreateFile
                    servicePrivate.uuid QIODevice.ReadWrite).1 d)).2)) = [] := by
          apply signalsSince_append
          simp only [Bool.false_eq_true, if_false, hupd, storeService, noteOpen_signals,
            List.append_nil]
        rw [hs]
        simp
  · intro charDetails hchar hopen hres hok writeWithResponse
    have hpaths := fun wr => writeCharacteristic_paths env service charHandle newValue wr d
      servicePrivate charDetails hservice hchar
    have hupd := fun (d0 : QLowEnergyControllerPrivate) =>
      updateValueOfCharacteristic_found charHandle newValue (servicePrivate, d0) charDetails
        hchar
    have hcode : (setGattCharacteristicValue env.gattFunctionsResolved
        env.setCharacteristicValue
        (recoverNativeLeGattCharacteristic servicePrivate.startHandle charHandle charDetails)
        newValue (if writeWithResponse = true then BLUETOOTH_GATT_FLAG_NONE
          else BLUETOOTH_GATT_FLAG_WRITE_WITHOUT_RESPONSE)).systemErrorCode = NO_ERROR := by
      simp only [setGattCharacteristicValue, hres, Bool.not_true, Bool.false_eq_true, if_false,
        hok]
    refine ⟨_, QLowEnergyServicePrivate.mk servicePrivate.uuid servicePrivate.type
      servicePrivate.state servicePrivate.error servicePrivate.startHandle
      servicePrivate.endHandle
      (NatMap.insert charHandle { charDetails with value := newValue }
        servicePrivate.characteristicList),
      (hpaths writeWithResponse).2 hopen hcode, ?_, ?_, ?_, rfl⟩
    · apply signalsSince_append
      cases writeWithResponse
      · simp only [Bool.false_eq_true, if_false, hupd, storeService, noteOpen_signals,
          List.append_nil]
      · simp only [if_true, hupd, storeService, emit, noteOpen_signals]
    · simp only [hupd, storeService]
      cases writeWithResponse
      · simp only [Bool.false_eq_true, if_false]
        exact NatMap.value_insert_self _ _ _
      · simp only [if_true, emit]
        exact NatMap.value_insert_self _ _ _
    · exact NatMap.value_insert_self _ _ _

end QLowEnergyControllerPrivate

namespace QLowEnergyControllerPrivate

set_option maxRecDepth 4096 in
/-- C18, witness: writing 1, 2, 3 to the battery-level characteristic of the
example, with response. -/
theorem written_signal_only_with_response_witness :
    NatMap.value exampleDetailed.serviceList exampleUuidA = some exampleDetailedService ∧
    NatMap.value exampleDetailedService.characteristicList 17 = some exampleDetailedChar ∧
    (openSystemService exampleEnv.setupDi exampleEnv.CreateFile exampleDetailedService.uuid
      QIODevice.ReadWrite).2 = NO_ERROR ∧
    (∃ r updated,
      writeCharacteristic exampleEnv exampleUuidA 17 [1, 2, 3] true exampleDetailed = some r ∧
      signalsSince exampleDetailed.signals r
        = [Signal.characteristicWritten exampleDetailedService.uuid 17 [1, 2, 3]] ∧
      NatMap.value r.serviceList exampleUuidA = some updated ∧
      NatMap.value updated.characteristicList 17
        = some { exampleDetailedChar with value := [1, 2, 3] }) := by
  refine ⟨by decide, by decide, by decide, ?_⟩
  obtain ⟨r, updated, hr, hsig, hmap, hval, _⟩ :=
    (written_signal_only_with_response exampleEnv exampleUuidA 17 [1, 2, 3] exampleDetailed
      exampleDetailedService (by decide)).2 exampleDetailedChar (by decide)
      (by decide) rfl (fun _ => rfl) true
  exact ⟨r, updated, hr, by simpa using hsig, hmap, hval⟩

/-- What `readCharacteristic` and `writeCharacteristic` do once a failure has
been reported to them, by `openSystemService` or by the native value call,
through a `systemErrorCode` other than `NO_ERROR`: they return, the only
signal emitted is the service error (`CharacteristicReadError`, respectively
`CharacteristicWriteError`), the error is stored, and the service is
otherwise unchanged, so the cached value is the one from before. -/
theorem readWrite_reported_failure (env : GattEnv) (service : QBluetoothUuid)
    (charHandle : QLowEnergyHandle) (d : QLowEnergyControllerPrivate)
    (servicePrivate : QLowEnergyServicePrivate) (charDetails : CharData)
    (hservice : NatMap.value d.serviceList service = some servicePrivate)
    (hchar : NatMap.value servicePrivate.characteristicList charHandle = some charDetails) :
    (((openSystemService env.setupDi env.CreateFile servicePrivate.uuid QIODevice.ReadOnly).2
          ≠ NO_ERROR ∨
        ((openSystemService env.setupDi env.CreateFile servicePrivate.uuid
            QIODevice.ReadOnly).2 = NO_ERROR ∧
          ∃ run, getGattCharacteristicValue env.gattFunctionsResolved
            (env.characteristicValue (recoverNativeLeGattCharacteristic
              servicePrivate.startHandle charHandle charDetails)) env.fuel = some run ∧
            run.systemErrorCode ≠ NO_ERROR)) →
      ∃ r, readCharacteristic env service charHandle d = some r ∧
        signalsSince d.signals r
          = [Signal.serviceError servicePrivate.uuid ServiceError.CharacteristicReadError] ∧
        NatMap.value r.serviceList service
          = some { servicePrivate with error := ServiceError.CharacteristicReadError }) ∧
    (∀ (newValue : List Nat) (writeWithResponse : Bool),
      ((openSystemService env.setupDi env.CreateFile servicePrivate.uuid QIODevice.ReadWrite).2
          ≠ NO_ERROR ∨
        (setGattCharacteristicValue env.gattFunctionsResolved env.setCharacteristicValue
          (recoverNativeLeGattCharacteristic servicePrivate.startHandle charHandle charDetails)
          newValue (if writeWithResponse then BLUETOOTH_GATT_FLAG_NONE
            else BLUETOOTH_GATT_FLAG_WRITE_WITHOUT_RESPONSE)).systemErrorCode ≠ NO_ERROR) →
      ∃ r, writeCharacteristic env service charHandle newValue writeWithResponse d = some r ∧
        signalsSince d.signals r
          = [Signal.serviceError servicePrivate.uuid ServiceError.CharacteristicWriteError] ∧
        NatMap.value r.serviceList service
          = some { servicePrivate with error := ServiceError.CharacteristicWriteError }) := by
  refine ⟨?_, ?_⟩
  · intro hfail
    have hpaths := readCharacteristic_paths env service charHandle d servicePrivate charDetails
      hservice hchar
    rcases hfail with hopen | ⟨hopen, run, hrun, hcode⟩
    · exact ⟨_, hpaths.1 hopen, reported_failure_effects service _ servicePrivate _ d⟩
    · exact ⟨_, (hpaths.2 hopen run hrun).1 hcode,
        reported_failure_effects service _ servicePrivate _ d⟩
  · intro newValue writeWithResponse hfail
    exact ⟨_, (writeCharacteristic_paths env service charHandle newValue writeWithResponse d
      servicePrivate charDetails hservice hchar).1 hfail,
      reported_failure_effects service _ servicePrivate _ d⟩

set_option maxRecDepth 8192 in
/-- C20, the code at the failing input. The battery-level characteristic of the
example caches the value 7, 9; the service handle opens; the native value
call fails hard while `::GetLastError()` yields 0. `readCharacteristic` then
sets no error, replaces the cached value by the empty value and emits
`characteristicRead` with it; `writeCharacteristic` sets no error, replaces
the cached value by the new value and emits `characteristicWritten`. -/
theorem failed_value_call_with_zero_last_error_counts_as_success :
    (NatMap.value exampleDetailedService.characteristicList 17).map (fun c => c.value)
      = some [7, 9] ∧
    (readCharacteristic silentFailureEnv exampleUuidA 17 exampleDetailed).map
        (fun r => (signalsSince exampleDetailed.signals r,
          (NatMap.value r.serviceList exampleUuidA).map (fun updated => (updated.error,
            (NatMap.value updated.characteristicList 17).map (fun c => c.value)))))
      = some ([Signal.characteristicRead exampleUuidA 17 []],
          some (ServiceError.NoError, some [])) ∧
    (writeCharacteristic silentFailureEnv exampleUuidA 17 [1, 2, 3] true exampleDetailed).map
        (fun r => (signalsSince exampleDetailed.signals r,
          (NatMap.value r.serviceList exampleUuidA).map (fun updated => (updated.error,
            (NatMap.value updated.characteristicList 17).map (fun c => c.value)))))
      = some ([Signal.characteristicWritten exampleUuidA 17 [1, 2, 3]],
          some (ServiceError.NoError, some [1, 2, 3])) := by
  decide

set_option maxRecDepth 8192 in
/-- C11, the code at the failing input. After `discoverServices` and
`discoverServiceDetails` the example controller has opened two handles and
closed two. A `readCharacteristic` and a `writeCharacteristic` that succeed
each open one service handle and return without closing it: three handles
opened, two closed. -/
theorem read_and_write_leave_service_handle_open :
    (exampleDetailed.handlesOpened, exampleDetailed.handlesClosed) = (2, 2) ∧
    (readCharacteristic exampleEnv exampleUuidA 17 exampleDetailed).map
        (fun r => (r.handlesOpened, r.handlesClosed, signalsSince exampleDetailed.signals r))
      = some (3, 2, [Signal.characteristicRead exampleUuidA 17 [7, 9]]) ∧
    (writeCharacteristic exampleEnv exampleUuidA 17 [1, 2, 3] true exampleDetailed).map
        (fun r => (r.handlesOpened, r.handlesClosed, signalsSince exampleDetailed.signals r))
      = some (3, 2, [Signal.characteristicWritten exampleUuidA 17 [1, 2, 3]]) := by
  decide

end QLowEnergyControllerPrivate

/-! ## Properties of the detail discovery -/

namespace QLowEnergyServicePrivate

theorem setError_frame (newError : ServiceError) (p : ServicePass) :
    (setError newError p).1.startHandle = p.1.startHandle ∧
    (setError newError p).1.endHandle = p.1.endHandle ∧
    (setError newError p).1.uuid = p.1.uuid ∧
    (setError newError p).1.characteristicList = p.1.characteristicList ∧
    (setError newError p).1.state = p.1.state ∧
    (setError newError p).1.error = newError ∧
    (setError newError p).2.handlesOpened = p.2.handlesOpened ∧
    (setError newError p).2.handlesClosed = p.2.handlesClosed :=
  ⟨rfl, rfl, rfl, rfl, rfl, rfl, rfl, rfl⟩

theorem setState_frame (newState : ServiceState) (p : ServicePass) :
    (setState newState p).1.startHandle = p.1.startHandle ∧
    (setState newState p).1.endHandle = p.1.endHandle ∧
    (setState newState p).1.uuid = p.1.uuid ∧
    (setState newState p).1.characteristicList = p.1.characteristicList ∧
    (setState newState p).1.state = newState ∧
    (setState newState p).1.error = p.1.error ∧
    (setState newState p).2.handlesOpened = p.2.handlesOpened ∧
    (setState newState p).2.handlesClosed = p.2.handlesClosed := by
  unfold setState
  split
  · rename_i h
    exact ⟨rfl, rfl, rfl, rfl, h, rfl, rfl, rfl⟩
  · exact ⟨rfl, rfl, rfl, rfl, rfl, rfl, rfl, rfl⟩

/-- The abort path of a detail pass: close the handle, set the error, ask for
a new discovery. -/
theorem abort_frame (newError : ServiceError) (hService : Nat)
    (servicePrivate : QLowEnergyServicePrivate) (d : QLowEnergyControllerPrivate) :
    (setState ServiceState.DiscoveryRequired
      (setError newError (servicePrivate,
        QLowEnergyControllerPrivate.noteClose hService d))).1.startHandle
      = servicePrivate.startHandle ∧
    (setState ServiceState.DiscoveryRequired
      (setError newError (servicePrivate,
        QLowEnergyControllerPrivate.noteClose hService d))).1.endHandle
      = servicePrivate.endHandle ∧
    (setState ServiceState.DiscoveryRequired
      (setError newError (servicePrivate,
        QLowEnergyControllerPrivate.noteClose hService d))).1.uuid = servicePrivate.uuid ∧
    (setState ServiceState.DiscoveryRequired
      (setError newError (servicePrivate,
        QLowEnergyControllerPrivate.noteClose hService d))).1.characteristicList
      = servicePrivate.characteristicList ∧
    (setState ServiceState.DiscoveryRequired
      (setError newError (servicePrivate,
        QLowEnergyControllerPrivate.noteClose hService d))).1.state
      = ServiceState.DiscoveryRequired ∧
    (setState ServiceState.DiscoveryRequired
      (setError newError (servicePrivate,
        QLowEnergyControllerPrivate.noteClose hService d))).1.error = newError ∧
    (setState ServiceState.DiscoveryRequired
      (setError newError (servicePrivate,
        QLowEnergyControllerPrivate.noteClose hService d))).2.handlesOpened
      = d.handlesOpened ∧
    (setState ServiceState.DiscoveryRequired
      (setError newError (servicePrivate,
        QLowEnergyControllerPrivate.noteClose hService d))).2.handlesClosed
      = (QLowEnergyControllerPrivate.noteClose hService d).handlesClosed := by
  have h1 := setState_frame ServiceState.DiscoveryRequired
    (setError newError (servicePrivate, QLowEnergyControllerPrivate.noteClose hService d))
  have h2 := setError_frame newError
    (servicePrivate, QLowEnergyControllerPrivate.noteClose hService d)
  have h3 : (QLowEnergyControllerPrivate.noteClose hService d).handlesOpened
      = d.handlesOpened := by
    unfold QLowEnergyControllerPrivate.noteClose
    split <;> rfl
  exact ⟨h1.1.trans h2.1, h1.2.1.trans h2.2.1, h1.2.2.1.trans h2.2.2.1,
    h1.2.2.2.1.trans h2.2.2.2.1, h1.2.2.2.2.1, h1.2.2.2.2.2.1.trans h2.2.2.2.2.2.1,
    (h1.2.2.2.2.2.2.1.trans h2.2.2.2.2.2.2.1).trans h3,
    h1.2.2.2.2.2.2.2.trans h2.2.2.2.2.2.2.2⟩

end QLowEnergyServicePrivate

namespace QLowEnergyControllerPrivate

/-- What every return of the descriptor loop guarantees. -/
theorem descriptorLoop_facts (env : GattEnv) (hService : Nat)
    (ds : List BTH_LE_GATT_DESCRIPTOR) :
    ∀ (detailsData : CharData) (p : ServicePass) (aborted : Bool) (detailsData1 : CharData)
      (p1 : ServicePass),
      descriptorLoop env hService ds detailsData p = some (aborted, detailsData1, p1) →
      p1.1.startHandle = p.1.startHandle ∧
      p1.1.uuid = p.1.uuid ∧
      p1.1.characteristicList = p.1.characteristicList ∧
      p.1.endHandle ≤ p1.1.endHandle ∧
      p1.2.handlesOpened = p.2.handlesOpened ∧
      (aborted = true →
        p1.1.state = ServiceState.DiscoveryRequired ∧
        p1.1.error = ServiceError.DescriptorReadError ∧
        p1.2.handlesClosed = (noteClose hService p.2).handlesClosed) ∧
      (aborted = false →
        p1.1.endHandle = maxDescriptorHandle p.1.endHandle ds ∧
        p1.1.state = p.1.state ∧ p1.1.error = p.1.error ∧ p1.2 = p.2) := by
  induction ds with
  | nil =>
    intro detailsData p aborted detailsData1 p1 h
    simp only [descriptorLoop, Option.some.injEq, Prod.mk.injEq] at h
    obtain ⟨ha, _, hp⟩ := h
    subst ha hp
    exact ⟨rfl, rfl, rfl, le_refl _, rfl, fun hc => absurd hc (by decide),
      fun _ => ⟨rfl, rfl, rfl, rfl⟩⟩
  | cons g rest ih =>
    intro detailsData p aborted detailsData1 p1 h
    cases hq : getGattDescriptorValue env.gattFunctionsResolved (env.descriptorValue g)
        env.fuel with
    | none => simp [descriptorLoop, hq] at h
    | some run =>
      by_cases hcode : run.systemErrorCode = NO_ERROR
      · cases hres : run.result with
        | none => simp [descriptorLoop, hq, hcode, hres] at h
        | some value =>
          simp only [descriptorLoop, hq, hcode, hres, ne_eq, not_true_eq_false, if_false] at h
          have := ih _ _ _ _ _ h
          obtain ⟨h1, h2, h3, h4, h5, h6, h7⟩ := this
          refine ⟨h1, h2, h3, le_trans (le_max_left _ _) h4, h5, ?_, ?_⟩
          · intro ha
            exact h6 ha
          · intro ha
            obtain ⟨e1, e2, e3, e4⟩ := h7 ha
            exact ⟨by simpa [maxDescriptorHandle] using e1, e2, e3, e4⟩
      · simp only [descriptorLoop, hq, ne_eq, hcode, not_false_eq_true, if_true,
          Option.some.injEq, Prod.mk.injEq] at h
        obtain ⟨ha, _, hp⟩ := h
        subst ha hp
        have hf := QLowEnergyServicePrivate.abort_frame ServiceError.DescriptorReadError
          hService p.1 p.2
        exact ⟨hf.1, hf.2.2.1, hf.2.2.2.1, le_of_eq hf.2.1.symm, hf.2.2.2.2.2.2.1,
          fun _ => ⟨hf.2.2.2.2.1, hf.2.2.2.2.2.1, hf.2.2.2.2.2.2.2⟩,
          fun hc => absurd hc (by decide)⟩

end QLowEnergyControllerPrivate

namespace QLowEnergyControllerPrivate

theorem foundDescriptorsOf_eq (env : GattEnv) (c : BTH_LE_GATT_CHARACTERISTIC)
    (found : QueryRun BTH_LE_GATT_DESCRIPTOR)
    (h : enumerateGattDescriptors env.gattFunctionsResolved (env.descriptors c) env.fuel
      = some found) :
    foundDescriptorsOf env c = found.result := by
  simp only [foundDescriptorsOf, h]

theorem endHandleAfter_cons (env : GattEnv) (c : BTH_LE_GATT_CHARACTERISTIC)
    (rest : List BTH_LE_GATT_CHARACTERISTIC) (e : Nat) :
    endHandleAfter env (c :: rest) e
      = endHandleAfter env rest
          (maxDescriptorHandle (max e ((c.AttributeHandle + 1) % 65536))
            (foundDescriptorsOf env c)) := rfl

/-- What every return of the characteristic loop guarantees. -/
theorem characteristicLoop_facts (env : GattEnv) (hService : Nat)
    (cs : List BTH_LE_GATT_CHARACTERISTIC) :
    ∀ (p : ServicePass) (aborted : Bool) (p1 : ServicePass),
      characteristicLoop env hService cs p = some (aborted, p1) →
      p1.1.startHandle = p.1.startHandle ∧
      p1.1.uuid = p.1.uuid ∧
      p.1.endHandle ≤ p1.1.endHandle ∧
      p1.2.handlesOpened = p.2.handlesOpened ∧
      (aborted = true →
        p1.1.state = ServiceState.DiscoveryRequired ∧
        p1.1.error = ServiceError.DescriptorReadError ∧
        p1.2.handlesClosed = (noteClose hService p.2).handlesClosed) ∧
      (aborted = false →
        p1.1.endHandle = endHandleAfter env cs p.1.endHandle ∧
        p1.1.state = p.1.state ∧ p1.1.error = p.1.error ∧ p1.2 = p.2) := by
  induction cs with
  | nil =>
    intro p aborted p1 h
    simp only [characteristicLoop, Option.some.injEq, Prod.mk.injEq] at h
    obtain ⟨ha, hp⟩ := h
    subst ha hp
    exact ⟨rfl, rfl, le_refl _, rfl, fun hc => absurd hc (by decide),
      fun _ => ⟨rfl, rfl, rfl, rfl⟩⟩
  | cons c rest ih =>
    intro p aborted p1 h
    cases hv : getGattCharacteristicValue env.gattFunctionsResolved (env.characteristicValue c)
        env.fuel with
    | none => simp [characteristicLoop, hv] at h
    | some valueRun =>
      cases hres : valueRun.result with
      | none => simp [characteristicLoop, hv, hres] at h
      | some value =>
        cases hq : enumerateGattDescriptors env.gattFunctionsResolved (env.descriptors c)
            env.fuel with
        | none => simp [characteristicLoop, hv, hres, hq] at h
        | some found =>
          by_cases hfatal : found.systemErrorCode ≠ NO_ERROR ∧
              found.systemErrorCode ≠ ERROR_NOT_FOUND
          · simp only [characteristicLoop, hv, hres, hq] at h
            rw [if_pos hfatal] at h
            simp only [Option.some.injEq, Prod.mk.injEq] at h
            obtain ⟨ha, hp⟩ := h
            subst ha hp
            have hf := QLowEnergyServicePrivate.abort_frame ServiceError.DescriptorReadError
              hService { p.1 with
                endHandle := max p.1.endHandle ((c.AttributeHandle + 1) % 65536) } p.2
            refine ⟨hf.1, hf.2.2.1, ?_, hf.2.2.2.2.2.2.1,
              fun _ => ⟨hf.2.2.2.2.1, hf.2.2.2.2.2.1, hf.2.2.2.2.2.2.2⟩,
              fun hc => absurd hc (by decide)⟩
            rw [hf.2.1]
            exact le_max_left _ _
          · simp only [characteristicLoop, hv, hres, hq] at h
            rw [if_neg hfatal] at h
            cases hd : descriptorLoop env hService found.result
                { uuid := qtBluetoothUuidFromNativeLeUuid c.CharacteristicUuid,
                  valueHandle := c.CharacteristicValueHandle,
                  properties := decodeProperties c, value := value, descriptorList := [] }
                ({ p.1 with endHandle := max p.1.endHandle ((c.AttributeHandle + 1) % 65536) },
                  p.2) with
            | none => simp [hd] at h
            | some res =>
              obtain ⟨dAborted, detailsData1, p2⟩ := res
              have hdf := descriptorLoop_facts env hService found.result _ _ _ _ _ hd
              obtain ⟨d1, d2, d3, d4, d5, d6, d7⟩ := hdf
              cases dAborted with
              | true =>
                simp only [hd, Option.some.injEq, Prod.mk.injEq] at h
                obtain ⟨ha, hp⟩ := h
                subst ha hp
                obtain ⟨a1, a2, a3⟩ := d6 rfl
                exact ⟨d1, d2, le_trans (le_max_left _ _) d4, d5, fun _ => ⟨a1, a2, a3⟩,
                  fun hc => absurd hc (by decide)⟩
              | false =>
                simp only [hd] at h
                obtain ⟨b1, b2, b3, b4⟩ := d7 rfl
                have := ih _ _ _ h
                obtain ⟨i1, i2, i3, i4, i5, i6⟩ := this
                have hp2 : p2.2 = p.2 := b4
                refine ⟨i1.trans d1, i2.trans d2,
                  le_trans (le_trans (le_max_left _ _) d4) i3, ?_, ?_, ?_⟩
                · rw [i4]
                  exact d5
                · intro ha
                  obtain ⟨a1, a2, a3⟩ := i5 ha
                  refine ⟨a1, a2, ?_⟩
                  rw [a3]
                  simp only [hp2]
                · intro ha
                  obtain ⟨e1, e2, e3, e4⟩ := i6 ha
                  refine ⟨?_, e2.trans b2, e3.trans b3, e4.trans hp2⟩
                  rw [e1, endHandleAfter_cons, foundDescriptorsOf_eq env c found hq]
                  simp only [b1]

end QLowEnergyControllerPrivate

namespace QLowEnergyControllerPrivate

theorem value_storeService (service : QBluetoothUuid) (p : ServicePass) :
    NatMap.value (storeService service p).serviceList service = some p.1 :=
  NatMap.value_insert_self _ _ _

/-- C12. After every run of `discoverServiceDetails` that returns with the
service status `ServiceDiscovered`, the service's `endHandle` is greater than
or equal to its `startHandle`, for every native layer, whatever
characteristics and descriptors it reports, handles at the top of the 16-bit
range included (there `AttributeHandle + 1` wraps to 0 and leaves the
maximum where it was). -/
theorem end_handle_not_below_start (env : GattEnv) (service : QBluetoothUuid)
    (d r : QLowEnergyControllerPrivate) (updated : QLowEnergyServicePrivate)
    (hrun : discoverServiceDetails env service d = some r)
    (hval : NatMap.value r.serviceList service = some updated)
    (hdisc : updated.state = ServiceState.ServiceDiscovered) :
    updated.startHandle ≤ updated.endHandle := by
  cases hs : NatMap.value d.serviceList service with
  | none =>
    simp only [discoverServiceDetails, hs, Option.some.injEq] at hrun
    subst hrun
    rw [hs] at hval
    exact absurd hval (by simp)
  | some servicePrivate =>
    by_cases hopen : (openSystemService env.setupDi env.CreateFile service
        QIODevice.ReadOnly).2 = NO_ERROR
    · cases hq : enumerateGattCharacteristics env.gattFunctionsResolved env.characteristics
          env.fuel with
      | none => simp [discoverServiceDetails, hs, hopen, hq] at hrun
      | some found =>
        by_cases hcode : found.systemErrorCode = NO_ERROR
        · simp only [discoverServiceDetails, hs, hopen, hq, hcode, ne_eq, not_true_eq_false,
            if_false] at hrun
          cases hl : characteristicLoop env
              (openSystemService env.setupDi env.CreateFile service QIODevice.ReadOnly).1
              found.result
              ({ servicePrivate with endHandle := servicePrivate.startHandle },
                noteOpen (openSystemService env.setupDi env.CreateFile service
                  QIODevice.ReadOnly).1 d) with
          | none => simp [hl] at hrun
          | some res =>
            obtain ⟨aborted, p1⟩ := res
            obtain ⟨f1, _, f3, _, f5, _⟩ := characteristicLoop_facts env _ found.result _ _ _ hl
            cases aborted with
            | true =>
              simp only [hl, Option.some.injEq] at hrun
              subst hrun
              rw [value_storeService, Option.some.injEq] at hval
              subst hval
              rw [(f5 rfl).1] at hdisc
              exact absurd hdisc (by decide)
            | false =>
              simp only [hl, Option.some.injEq] at hrun
              subst hrun
              rw [value_storeService, Option.some.injEq] at hval
              subst hval
              have hf := QLowEnergyServicePrivate.setState_frame ServiceState.ServiceDiscovered
                (p1.1, noteClose (openSystemService env.setupDi env.CreateFile service
                  QIODevice.ReadOnly).1 p1.2)
              rw [hf.1, hf.2.1, f1]
              exact f3
        · simp only [discoverServiceDetails, hs, hopen, hq, ne_eq, not_true_eq_false, if_false,
            hcode, not_false_eq_true, if_true, Option.some.injEq] at hrun
          subst hrun
          rw [value_storeService, Option.some.injEq] at hval
          subst hval
          rw [(QLowEnergyServicePrivate.abort_frame _ _ _ _).2.2.2.2.1] at hdisc
          exact absurd hdisc (by decide)
    · simp only [discoverServiceDetails, hs, ne_eq, hopen, not_false_eq_true, if_true,
        Option.some.injEq] at hrun
      subst hrun
      rw [value_storeService, Option.some.injEq] at hval
      subst hval
      rw [(QLowEnergyServicePrivate.setState_frame _ _).2.2.2.2.1] at hdisc
      exact absurd hdisc (by decide)

set_option maxRecDepth 8192 in
/-- C12, witness: the detail discovery of the battery service of the example
(start handle 16, end handle 19). -/
theorem end_handle_not_below_start_witness :
    discoverServiceDetails exampleEnv exampleUuidA exampleDiscovered = some exampleDetailed ∧
    NatMap.value exampleDetailed.serviceList exampleUuidA = some exampleDetailedService ∧
    exampleDetailedService.state = ServiceState.ServiceDiscovered ∧
    exampleDetailedService.startHandle ≤ exampleDetailedService.endHandle ∧
    (exampleDetailedService.startHandle, exampleDetailedService.endHandle) = (16, 19) :=
  ⟨by decide, by decide, by decide,
   end_handle_not_below_start exampleEnv exampleUuidA exampleDiscovered exampleDetailed
     exampleDetailedService (by decide) (by decide) (by decide),
   by decide⟩

end QLowEnergyControllerPrivate

namespace QLowEnergyControllerPrivate

theorem descriptorLoop_finishes (env : GattEnv) (hService : Nat)
    (ds : List BTH_LE_GATT_DESCRIPTOR) :
    ∀ (detailsData : CharData) (p : ServicePass),
      (∀ g, g ∈ ds → ∃ run value, getGattDescriptorValue env.gattFunctionsResolved
        (env.descriptorValue g) env.fuel = some run ∧
        run.systemErrorCode = NO_ERROR ∧ run.result = some value) →
      ∃ detailsData1 p1,
        descriptorLoop env hService ds detailsData p = some (false, detailsData1, p1) := by
  induction ds with
  | nil =>
    intro detailsData p _
    exact ⟨detailsData, p, rfl⟩
  | cons g rest ih =>
    intro detailsData p h
    obtain ⟨run, value, hq, hcode, hres⟩ := h g (List.mem_cons_self _ _)
    simp only [descriptorLoop, hq, hcode, hres, ne_eq, not_true_eq_false, if_false]
    exact ih _ _ (fun g1 hg1 => h g1 (List.mem_cons_of_mem _ hg1))

theorem characteristicLoop_finishes (env : GattEnv) (hService : Nat)
    (cs : List BTH_LE_GATT_CHARACTERISTIC) :
    ∀ (p : ServicePass), NoFatalFailure env cs →
      ∃ p1, characteristicLoop env hService cs p = some (false, p1) := by
  induction cs with
  | nil =>
    intro p _
    exact ⟨p, rfl⟩
  | cons c rest ih =>
    intro p h
    obtain ⟨⟨valueRun, value, hv, hres⟩, ⟨found, hq, hcode⟩, hdesc⟩ :=
      h c (List.mem_cons_self _ _)
    have hnot : ¬(found.systemErrorCode ≠ NO_ERROR ∧ found.systemErrorCode ≠ ERROR_NOT_FOUND) := by
      rintro ⟨h1, h2⟩
      rcases hcode with hc | hc
      · exact h1 hc
      · exact h2 hc
    rw [foundDescriptorsOf_eq env c found hq] at hdesc
    obtain ⟨detailsData1, p2, hd⟩ := descriptorLoop_finishes env hService found.result
      { uuid := qtBluetoothUuidFromNativeLeUuid c.CharacteristicUuid,
        valueHandle := c.CharacteristicValueHandle,
        properties := decodeProperties c, value := value, descriptorList := [] }
      ({ p.1 with endHandle := max p.1.endHandle ((c.AttributeHandle + 1) % 65536) }, p.2)
      hdesc
    simp only [characteristicLoop, hv, hres, hq]
    rw [if_neg hnot]
    simp only [hd]
    exact ih _ (fun c1 hc1 => h c1 (List.mem_cons_of_mem _ hc1))

/-- A detail discovery of a service of the map, when the service handle opens,
the characteristic enumeration reports `NO_ERROR` and nothing fatal happens
during the pass: it returns, the service status is `ServiceDiscovered`, the
start handle and the error are the ones from before, and the end handle is
the one the pass builds from the start handle. -/
theorem discoverServiceDetails_succeeds (env : GattEnv) (service : QBluetoothUuid)
    (d : QLowEnergyControllerPrivate) (servicePrivate : QLowEnergyServicePrivate)
    (found : QueryRun BTH_LE_GATT_CHARACTERISTIC)
    (hservice : NatMap.value d.serviceList service = some servicePrivate)
    (hopen : (openSystemService env.setupDi env.CreateFile service QIODevice.ReadOnly).2
      = NO_ERROR)
    (hchars : enumerateGattCharacteristics env.gattFunctionsResolved env.characteristics
      env.fuel = some found)
    (hcode : found.systemErrorCode = NO_ERROR)
    (hpass : NoFatalFailure env found.result) :
    ∃ r updated, discoverServiceDetails env service d = some r ∧
      NatMap.value r.serviceList service = some updated ∧
      updated.state = ServiceState.ServiceDiscovered ∧
      updated.startHandle = servicePrivate.startHandle ∧
      updated.endHandle = endHandleAfter env found.result servicePrivate.startHandle ∧
      updated.error = servicePrivate.error := by
  obtain ⟨p1, hl⟩ := characteristicLoop_finishes env
    (openSystemService env.setupDi env.CreateFile service QIODevice.ReadOnly).1 found.result
    ({ servicePrivate with endHandle := servicePrivate.startHandle },
      noteOpen (openSystemService env.setupDi env.CreateFile service QIODevice.ReadOnly).1 d)
    hpass
  obtain ⟨f1, _, _, _, _, f6⟩ := characteristicLoop_facts env _ found.result _ _ _ hl
  obtain ⟨e1, _, e3, _⟩ := f6 rfl
  have hf := QLowEnergyServicePrivate.setState_frame ServiceState.ServiceDiscovered
    (p1.1, noteClose (openSystemService env.setupDi env.CreateFile service
      QIODevice.ReadOnly).1 p1.2)
  refine ⟨_, _, ?_, value_storeService service _, hf.2.2.2.2.1, ?_, ?_, ?_⟩
  · simp only [discoverServiceDetails, hservice, hopen, hchars, hcode, ne_eq,
      not_true_eq_false, if_false, hl]
  · rw [hf.1]
    exact f1
  · rw [hf.2.1]
    exact e1
  · rw [hf.2.2.2.2.2.1]
    exact e3

theorem foldl_max_bounds {α : Type} (f : α → Nat) (l : List α) :
    ∀ e0 : Nat, e0 ≤ l.foldl (fun e a => max e (f a)) e0 ∧
      (∀ a, a ∈ l → f a ≤ l.foldl (fun e a => max e (f a)) e0) ∧
      (∀ m, e0 ≤ m → (∀ a, a ∈ l → f a ≤ m) → l.foldl (fun e a => max e (f a)) e0 ≤ m) := by
  induction l with
  | nil =>
    intro e0
    exact ⟨le_refl _, fun a ha => absurd ha (List.not_mem_nil a), fun m hm _ => hm⟩
  | cons x rest ih =>
    intro e0
    obtain ⟨i1, i2, i3⟩ := ih (max e0 (f x))
    refine ⟨le_trans (le_max_left _ _) i1, ?_, ?_⟩
    · intro a ha
      rcases List.mem_cons.mp ha with h | h
      · subst h
        exact le_trans (le_max_right _ _) i1
      · exact i2 a h
    · intro m hm hall
      exact i3 m (max_le hm (hall x (List.mem_cons_self _ _)))
        (fun a ha => hall a (List.mem_cons_of_mem _ ha))

theorem endHandleAfter_no_descriptors (env : GattEnv) (cs : List BTH_LE_GATT_CHARACTERISTIC) :
    ∀ e : Nat, (∀ c, c ∈ cs → foundDescriptorsOf env c = []) →
      endHandleAfter env cs e
        = cs.foldl (fun e c => max e ((c.AttributeHandle + 1) % 65536)) e := by
  induction cs with
  | nil => intro e _; rfl
  | cons c rest ih =>
    intro e h
    rw [endHandleAfter_cons, h c (List.mem_cons_self _ _)]
    simp only [maxDescriptorHandle, List.foldl_nil, List.foldl_cons]
    exact ih _ (fun c1 hc1 => h c1 (List.mem_cons_of_mem _ hc1))

end QLowEnergyControllerPrivate

namespace QLowEnergyControllerPrivate

theorem noDescriptorEnv_passes (found : List BTH_LE_GATT_CHARACTERISTIC) :
    (∀ c, foundDescriptorsOf (noDescriptorEnv found) c = []) ∧
    (∀ cs, NoFatalFailure (noDescriptorEnv found) cs) := by
  have hnone : ∀ c, foundDescriptorsOf (noDescriptorEnv found) c = [] := fun _ => rfl
  refine ⟨hnone, ?_⟩
  intro cs c _
  refine ⟨⟨_, _, rfl, rfl⟩, ⟨_, rfl, Or.inr rfl⟩, ?_⟩
  intro g hg
  rw [hnone c] at hg
  exact absurd hg (List.not_mem_nil g)

set_option maxRecDepth 8192 in
theorem descriptorValueOnceLayer_run :
    getGattDescriptorValue true descriptorValueOnceLayer 2
      = some ⟨NO_ERROR, some [7, 9], [0, 78]⟩ := by
  have hmore : AnswersMoreData descriptorValueOnceLayer.reply [78] :=
    answersMoreData_single _ 78 rfl
  have hrun := (valueLoop_settles descriptorValueOnceLayer descriptorValueDataSizeOffset [78] 2
    (by decide) hmore).1 (List.replicate 72 0 ++ [2, 0, 0, 0, 7, 9]) rfl
  have hfill : fill (resizeAllBytes descriptorValueOnceLayer.uninitialised 0 [] [78])
      (List.replicate 72 0 ++ [2, 0, 0, 0, 7, 9])
      = List.replicate 72 0 ++ [2, 0, 0, 0, 7, 9] := by
    simp only [resizeAllBytes]
    rw [fill_resizeBytes _ 78 _ (by decide)]
    decide
  have hread : readValue descriptorValueDataSizeOffset
      (List.replicate 72 0 ++ [2, 0, 0, 0, 7, 9]) = some [7, 9] := by
    rw [readValue_within descriptorValueDataSizeOffset _ (by decide) (by decide) (by decide)]
    decide
  rw [hfill, hread] at hrun
  simp only [getGattDescriptorValue, Bool.not_true, Bool.false_eq_true, if_false, hrun]

theorem exampleEnv_passes : NoFatalFailure exampleEnv [exampleCharacteristic] := by
  intro c hc
  refine ⟨⟨_, _, rfl, rfl⟩, ⟨_, rfl, Or.inl rfl⟩, ?_⟩
  intro g _
  exact ⟨⟨NO_ERROR, some [7, 9], [0, 78]⟩, [7, 9], descriptorValueOnceLayer_run, rfl, rfl⟩

set_option maxRecDepth 8192 in
/-- C13, counterexample. The battery service of the example starts at handle
16. (a) When the native layer reports the characteristics at the handles 20
and 18, in this order, and no descriptor, the end handle after the pass is
21, not 19, the handle of the last enumerated characteristic plus one.
(b) When it reports one characteristic at handle 65535 and no descriptor,
the end handle is 16, not 65536 (nor 0). -/
theorem end_handle_is_not_last_handle_plus_one :
    exampleEndHandle (noDescriptorEnv [exampleCharacteristicAt 20, exampleCharacteristicAt 18])
        exampleDiscovered = some 21 ∧
    exampleEndHandle (noDescriptorEnv [exampleCharacteristicAt 20, exampleCharacteristicAt 18])
        exampleDiscovered ≠ some (18 + 1) ∧
    exampleEndHandle (noDescriptorEnv [exampleCharacteristicAt 65535]) exampleDiscovered
      = some 16 ∧
    exampleEndHandle (noDescriptorEnv [exampleCharacteristicAt 65535]) exampleDiscovered
      ≠ some (65535 + 1) := by
  decide

/-- C13, amended. For every service of the map whose detail discovery runs to
its end (the service handle opens, the characteristic enumeration reports
`NO_ERROR`, nothing fatal happens) and finds `N` characteristics and no
descriptor at all, the discovery returns with the status `ServiceDiscovered`
and the service's `endHandle` is the largest of its `startHandle` and of the
characteristics' attribute handles plus one, cut to 16 bits. It equals the
attribute handle of the last enumerated characteristic plus one whenever
that handle is the largest one enumerated, is below 65535, and is not below
`startHandle - 1`. -/
theorem end_handle_without_descriptors (env : GattEnv) (service : QBluetoothUuid)
    (d : QLowEnergyControllerPrivate) (servicePrivate : QLowEnergyServicePrivate)
    (found : QueryRun BTH_LE_GATT_CHARACTERISTIC)
    (hservice : NatMap.value d.serviceList service = some servicePrivate)
    (hopen : (openSystemService env.setupDi env.CreateFile service QIODevice.ReadOnly).2
      = NO_ERROR)
    (hchars : enumerateGattCharacteristics env.gattFunctionsResolved env.characteristics
      env.fuel = some found)
    (hcode : found.systemErrorCode = NO_ERROR)
    (hpass : NoFatalFailure env found.result)
    (hnone : ∀ c, c ∈ found.result → foundDescriptorsOf env c = []) :
    ∃ r updated, discoverServiceDetails env service d = some r ∧
      NatMap.value r.serviceList service = some updated ∧
      updated.state = ServiceState.ServiceDiscovered ∧
      updated.endHandle
        = found.result.foldl (fun e c => max e ((c.AttributeHandle + 1) % 65536))
            servicePrivate.startHandle ∧
      (∀ last, found.result.getLast? = some last →
        (∀ c, c ∈ found.result → c.AttributeHandle ≤ last.AttributeHandle) →
        last.AttributeHandle < 65535 →
        servicePrivate.startHandle ≤ last.AttributeHandle + 1 →
        updated.endHandle = last.AttributeHandle + 1) := by
  obtain ⟨r, updated, hr, hval, hstate, _, hend, _⟩ :=
    discoverServiceDetails_succeeds env service d servicePrivate found hservice hopen hchars
      hcode hpass
  rw [endHandleAfter_no_descriptors env found.result _ hnone] at hend
  refine ⟨r, updated, hr, hval, hstate, hend, ?_⟩
  intro last hlast hmax hlt hstart
  obtain ⟨_, b2, b3⟩ := foldl_max_bounds
    (fun c : BTH_LE_GATT_CHARACTERISTIC => (c.AttributeHandle + 1) % 65536) found.result
    servicePrivate.startHandle
  have hmem : last ∈ found.result := by
    obtain ⟨ys, hys⟩ := List.getLast?_eq_some_iff.mp hlast
    rw [hys]
    simp
  rw [hend]
  apply le_antisymm
  · apply b3 _ hstart
    intro c hc
    have := hmax c hc
    have hmod : (c.AttributeHandle + 1) % 65536 ≤ c.AttributeHandle + 1 := Nat.mod_le _ _
    omega
  · have := b2 last hmem
    have hmod : (last.AttributeHandle + 1) % 65536 = last.AttributeHandle + 1 :=
      Nat.mod_eq_of_lt (by omega)
    simp only [hmod] at this
    exact this

set_option maxRecDepth 8192 in
/-- C13, witness: the battery service (start handle 16) with characteristics
at the handles 17 and 20 and no descriptor ends at handle 21. -/
theorem end_handle_without_descriptors_witness :
    NatMap.value exampleDiscovered.serviceList exampleUuidA
      = some { newService with uuid := exampleUuidA, startHandle := 16 } ∧
    enumerateGattCharacteristics true
        (noDescriptorEnv [exampleCharacteristicAt 17, exampleCharacteristicAt 20]).characteristics 2
      = some ⟨NO_ERROR, [exampleCharacteristicAt 17, exampleCharacteristicAt 20], [0, 2]⟩ ∧
    ∃ r updated,
      discoverServiceDetails
          (noDescriptorEnv [exampleCharacteristicAt 17, exampleCharacteristicAt 20])
          exampleUuidA exampleDiscovered = some r ∧
      NatMap.value r.serviceList exampleUuidA = some updated ∧
      updated.state = ServiceState.ServiceDiscovered ∧
      updated.endHandle = 20 + 1 := by
  refine ⟨by decide, rfl, ?_⟩
  obtain ⟨r, updated, hr, hval, hstate, _, hlast⟩ :=
    end_handle_without_descriptors
      (noDescriptorEnv [exampleCharacteristicAt 17, exampleCharacteristicAt 20])
      exampleUuidA exampleDiscovered { newService with uuid := exampleUuidA, startHandle := 16 }
      ⟨NO_ERROR, [exampleCharacteristicAt 17, exampleCharacteristicAt 20], [0, 2]⟩
      (by decide) (by decide) rfl rfl
      ((noDescriptorEnv_passes _).2 _) (fun c _ => (noDescriptorEnv_passes _).1 c)
  exact ⟨r, updated, hr, hval, hstate,
    hlast (exampleCharacteristicAt 20) rfl (by decide) (by decide) (by decide)⟩

set_option maxRecDepth 8192 in
/-- C14, counterexample. The battery service of the example starts at handle
16. (a) When the native layer reports one characteristic at handle 10 with
one descriptor at handle 12, the end handle after the pass is 16, not
max(10 + 1, 12) = 12. (b) When it reports one characteristic at handle 65535
with no descriptor, the end handle is 16, not 65535 + 1. -/
theorem end_handle_is_not_max_of_characteristic_and_descriptors :
    exampleEndHandle lowHandleEnv exampleDiscovered = some 16 ∧
    exampleEndHandle lowHandleEnv exampleDiscovered ≠ some (max (10 + 1) 12) ∧
    exampleEndHandle (noDescriptorEnv [exampleCharacteristicAt 65535]) exampleDiscovered
      = some 16 ∧
    exampleEndHandle (noDescriptorEnv [exampleCharacteristicAt 65535]) exampleDiscovered
      ≠ some (65535 + 1) := by
  decide

/-- C14, amended. For every service of the map whose detail discovery runs to
its end and finds exactly one characteristic, with `M` descriptors, the
discovery returns with the status `ServiceDiscovered` and the service's
`endHandle` is the largest of its `startHandle`, of the characteristic's
attribute handle plus one, cut to 16 bits, and of the descriptors' raw
attribute handles (not handle plus one). It equals
max(characteristicHandle + 1, the largest descriptor handle) whenever the
characteristic handle is below 65535 and not below `startHandle - 1`. -/
theorem end_handle_one_characteristic (env : GattEnv) (service : QBluetoothUuid)
    (d : QLowEnergyControllerPrivate) (servicePrivate : QLowEnergyServicePrivate)
    (found : QueryRun BTH_LE_GATT_CHARACTERISTIC) (c : BTH_LE_GATT_CHARACTERISTIC)
    (hservice : NatMap.value d.serviceList service = some servicePrivate)
    (hopen : (openSystemService env.setupDi env.CreateFile service QIODevice.ReadOnly).2
      = NO_ERROR)
    (hchars : enumerateGattCharacteristics env.gattFunctionsResolved env.characteristics
      env.fuel = some found)
    (hcode : found.systemErrorCode = NO_ERROR)
    (hone : found.result = [c])
    (hpass : NoFatalFailure env [c]) :
    ∃ r updated, discoverServiceDetails env service d = some r ∧
      NatMap.value r.serviceList service = some updated ∧
      updated.state = ServiceState.ServiceDiscovered ∧
      updated.endHandle
        = maxDescriptorHandle (max servicePrivate.startHandle ((c.AttributeHandle + 1) % 65536))
            (foundDescriptorsOf env c) ∧
      (c.AttributeHandle < 65535 → servicePrivate.startHandle ≤ c.AttributeHandle + 1 →
        updated.endHandle
          = (foundDescriptorsOf env c).foldl (fun e g => max e g.AttributeHandle)
              (c.AttributeHandle + 1)) := by
  obtain ⟨r, updated, hr, hval, hstate, _, hend, _⟩ :=
    discoverServiceDetails_succeeds env service d servicePrivate found hservice hopen hchars
      hcode (by rw [hone]; exact hpass)
  rw [hone] at hend
  have hend1 : updated.endHandle
      = maxDescriptorHandle (max servicePrivate.startHandle ((c.AttributeHandle + 1) % 65536))
          (foundDescriptorsOf env c) := hend
  refine ⟨r, updated, hr, hval, hstate, hend1, ?_⟩
  intro hlt hstart
  rw [hend1, Nat.mod_eq_of_lt (by omega), max_eq_right hstart]
  rfl

set_option maxRecDepth 8192 in
/-- C14, witness: the battery service (start handle 16) with one characteristic
at handle 17 and one descriptor at handle 19 ends at max(17 + 1, 19) = 19. -/
theorem end_handle_one_characteristic_witness :
    NatMap.value exampleDiscovered.serviceList exampleUuidA
      = some { newService with uuid := exampleUuidA, startHandle := 16 } ∧
    enumerateGattCharacteristics true exampleEnv.characteristics 2
      = some ⟨NO_ERROR, [exampleCharacteristic], [0, 1]⟩ ∧
    foundDescriptorsOf exampleEnv exampleCharacteristic = [exampleDescriptor] ∧
    ∃ r updated,
      discoverServiceDetails exampleEnv exampleUuidA exampleDiscovered = some r ∧
      NatMap.value r.serviceList exampleUuidA = some updated ∧
      updated.state = ServiceState.ServiceDiscovered ∧
      updated.endHandle = max (17 + 1) 19 := by
  refine ⟨by decide, rfl, rfl, ?_⟩
  obtain ⟨r, updated, hr, hval, hstate, _, hmax⟩ :=
    end_handle_one_characteristic exampleEnv exampleUuidA exampleDiscovered
      { newService with uuid := exampleUuidA, startHandle := 16 }
      ⟨NO_ERROR, [exampleCharacteristic], [0, 1]⟩ exampleCharacteristic
      (by decide) (by decide) rfl rfl rfl exampleEnv_passes
  exact ⟨r, updated, hr, hval, hstate, hmax (by decide) (by decide)⟩

end QLowEnergyControllerPrivate

theorem NatMap.mem_insert {β : Type} (k : Nat) (v : β) (m : NatMap β) :
    ∀ x, x ∈ NatMap.insert k v m → x = (k, v) ∨ x ∈ m := by
  induction m with
  | nil =>
    intro x hx
    simp only [NatMap.insert, List.mem_singleton] at hx
    exact Or.inl hx
  | cons p rest ih =>
    obtain ⟨k0, v0⟩ := p
    intro x hx
    unfold NatMap.insert at hx
    split at hx
    · rcases List.mem_cons.mp hx with h | h
      · exact Or.inl h
      · exact Or.inr h
    · split at hx
      · rcases List.mem_cons.mp hx with h | h
        · exact Or.inl h
        · exact Or.inr (List.mem_cons_of_mem _ h)
      · rcases List.mem_cons.mp hx with h | h
        · exact Or.inr (by rw [h]; exact List.mem_cons_self _ _)
        · rcases ih x h with h1 | h1
          · exact Or.inl h1
          · exact Or.inr (List.mem_cons_of_mem _ h1)

namespace QLowEnergyControllerPrivate

theorem descriptorLoop_keys (env : GattEnv) (hService : Nat)
    (ds : List BTH_LE_GATT_DESCRIPTOR) :
    ∀ (detailsData : CharData) (p : ServicePass) (detailsData1 : CharData) (p1 : ServicePass),
      descriptorLoop env hService ds detailsData p = some (false, detailsData1, p1) →
      ∀ x, x ∈ NatMap.keys detailsData1.descriptorList →
        x ∈ NatMap.keys detailsData.descriptorList ∨ ∃ g, g ∈ ds ∧ x = g.AttributeHandle := by
  induction ds with
  | nil =>
    intro detailsData p detailsData1 p1 h x hx
    simp only [descriptorLoop, Option.some.injEq, Prod.mk.injEq, true_and] at h
    rw [← h.1] at hx
    exact Or.inl hx
  | cons g rest ih =>
    intro detailsData p detailsData1 p1 h x hx
    cases hq : getGattDescriptorValue env.gattFunctionsResolved (env.descriptorValue g)
        env.fuel with
    | none => simp [descriptorLoop, hq] at h
    | some run =>
      by_cases hcode : run.systemErrorCode = NO_ERROR
      · cases hres : run.result with
        | none => simp [descriptorLoop, hq, hcode, hres] at h
        | some value =>
          simp only [descriptorLoop, hq, hcode, hres, ne_eq, not_true_eq_false, if_false] at h
          rcases ih _ _ _ _ h x hx with h1 | ⟨g1, hg1, hx1⟩
          · rcases NatMap.keys_insert _ _ _ x h1 with h2 | h2
            · exact Or.inr ⟨g, List.mem_cons_self _ _, h2⟩
            · exact Or.inl h2
          · exact Or.inr ⟨g1, List.mem_cons_of_mem _ hg1, hx1⟩
      · simp [descriptorLoop, hq, hcode] at h

theorem characteristicLoop_within (env : GattEnv) (hService : Nat) (lo : Nat)
    (cs : List BTH_LE_GATT_CHARACTERISTIC) :
    ∀ (p p1 : ServicePass),
      characteristicLoop env hService cs p = some (false, p1) →
      (∀ c, c ∈ cs → lo ≤ c.AttributeHandle ∧ c.AttributeHandle < 65535) →
      (∀ c, c ∈ cs → ∀ g, g ∈ foundDescriptorsOf env c → lo ≤ g.AttributeHandle) →
      HandlesWithinFrom lo p.1 → HandlesWithinFrom lo p1.1 := by
  induction cs with
  | nil =>
    intro p p1 h _ _ hw
    simp only [characteristicLoop, Option.some.injEq, Prod.mk.injEq, true_and] at h
    rw [← h]
    exact hw
  | cons c rest ih =>
    intro p p1 h hchar hdesc hw
    cases hv : getGattCharacteristicValue env.gattFunctionsResolved (env.characteristicValue c)
        env.fuel with
    | none => simp [characteristicLoop, hv] at h
    | some valueRun =>
      cases hres : valueRun.result with
      | none => simp [characteristicLoop, hv, hres] at h
      | some value =>
        cases hq : enumerateGattDescriptors env.gattFunctionsResolved (env.descriptors c)
            env.fuel with
        | none => simp [characteristicLoop, hv, hres, hq] at h
        | some found =>
          by_cases hfatal : found.systemErrorCode ≠ NO_ERROR ∧
              found.systemErrorCode ≠ ERROR_NOT_FOUND
          · simp only [characteristicLoop, hv, hres, hq] at h
            rw [if_pos hfatal] at h
            simp at h
          · simp only [characteristicLoop, hv, hres, hq] at h
            rw [if_neg hfatal] at h
            cases hd : descriptorLoop env hService found.result
                { uuid := qtBluetoothUuidFromNativeLeUuid c.CharacteristicUuid,
                  valueHandle := c.CharacteristicValueHandle,
                  properties := decodeProperties c, value := value, descriptorList := [] }
                ({ p.1 with endHandle := max p.1.endHandle ((c.AttributeHandle + 1) % 65536) },
                  p.2) with
            | none => simp [hd] at h
            | some res =>
              obtain ⟨dAborted, detailsData1, p2⟩ := res
              cases dAborted with
              | true => simp [hd] at h
              | false =>
                simp only [hd] at h
                obtain ⟨_, _, d3, d4, _, _, d7⟩ :=
                  descriptorLoop_facts env hService found.result _ _ _ _ _ hd
                obtain ⟨b1, _, _, _⟩ := d7 rfl
                have hkeys := descriptorLoop_keys env hService found.result _ _ _ _ hd
                obtain ⟨hclo, hclt⟩ := hchar c (List.mem_cons_self _ _)
                have hmod : (c.AttributeHandle + 1) % 65536 = c.AttributeHandle + 1 :=
                  Nat.mod_eq_of_lt (by omega)
                obtain ⟨m1, m2, _⟩ := foldl_max_bounds
                  (fun g : BTH_LE_GATT_DESCRIPTOR => g.AttributeHandle) found.result
                  (max p.1.endHandle ((c.AttributeHandle + 1) % 65536))
                have hend : p2.1.endHandle
                    = found.result.foldl (fun e g => max e g.AttributeHandle)
                        (max p.1.endHandle ((c.AttributeHandle + 1) % 65536)) := b1
                apply ih _ _ h (fun c1 hc1 => hchar c1 (List.mem_cons_of_mem _ hc1))
                  (fun c1 hc1 => hdesc c1 (List.mem_cons_of_mem _ hc1))
                intro hh cd hmem
                rcases NatMap.mem_insert _ _ _ _ hmem with hnew | hold
                · simp only [Prod.mk.injEq] at hnew
                  obtain ⟨hh1, hcd⟩ := hnew
                  subst hh1 hcd
                  refine ⟨hclo, ?_, ?_⟩
                  · show c.AttributeHandle ≤ p2.1.endHandle
                    rw [hend]
                    have h0 : c.AttributeHandle ≤ (c.AttributeHandle + 1) % 65536 := by
                      rw [hmod]
                      exact Nat.le_succ _
                    exact le_trans h0 (le_trans (le_max_right p.1.endHandle
                      ((c.AttributeHandle + 1) % 65536)) m1)
                  · intro g hg
                    rcases hkeys g hg with hk | ⟨g1, hg1, hgx⟩
                    · exact absurd hk (by simp [NatMap.keys])
                    · subst hgx
                      refine ⟨hdesc c (List.mem_cons_self _ _) g1
                        (by rw [foundDescriptorsOf_eq env c found hq]; exact hg1), ?_⟩
                      show g1.AttributeHandle ≤ p2.1.endHandle
                      rw [hend]
                      exact m2 g1 hg1
                · have hold1 : (hh, cd) ∈ p.1.characteristicList := by
                    have : p2.1.characteristicList = p.1.characteristicList := d3
                    rw [← this]
                    exact hold
                  obtain ⟨w1, w2, w3⟩ := hw hh cd hold1
                  have hmono : p.1.endHandle ≤ p2.1.endHandle :=
                    le_trans (le_max_left _ _) d4
                  exact ⟨w1, le_trans w2 hmono,
                    fun g hg => ⟨(w3 g hg).1, le_trans (w3 g hg).2 hmono⟩⟩

end QLowEnergyControllerPrivate

namespace QLowEnergyControllerPrivate

set_option maxRecDepth 8192 in
/-- C15, counterexample. The battery service of the example starts at handle
16. (a) After a successful pass that found one characteristic at handle
65535, the map stores the handle 65535 while the end handle is 16. (b) After
a successful pass that found one characteristic at handle 10, the map stores
the handle 10, below the start handle 16. (c) After the pass of the example
(characteristic at handle 17, end handle 19), a second successful pass that
finds no characteristic resets the end handle to 16 and keeps the stored
handle 17. -/
theorem stored_handle_outside_service_range :
    exampleHandles (noDescriptorEnv [exampleCharacteristicAt 65535]) exampleDiscovered
      = some (16, 16, [65535]) ∧
    exampleHandles lowHandleEnv exampleDiscovered = some (16, 16, [10]) ∧
    exampleHandles exampleEnv exampleDiscovered = some (16, 19, [17]) ∧
    exampleHandles (noDescriptorEnv []) exampleDetailed = some (16, 16, [17]) := by
  decide

theorem HandlesWithinFrom_congr (lo : Nat) (a b : QLowEnergyServicePrivate)
    (hlist : b.characteristicList = a.characteristicList) (hend : b.endHandle = a.endHandle)
    (h : HandlesWithinFrom lo a) : HandlesWithinFrom lo b := by
  intro hh cd hmem
  rw [hlist] at hmem
  rw [hend]
  exact h hh cd hmem

/-- C15, amended. After every run of `discoverServiceDetails` that returns with
the service status `ServiceDiscovered`, on a service that had no
characteristic cached before the run, and in which the native layer reports
characteristic handles between `startHandle` and 65534 and descriptor
handles not below `startHandle`, every characteristic handle stored in the
service's characteristic map and every descriptor handle stored in a
characteristic's descriptor map lies within the closed range
`[startHandle, endHandle]` of that service. -/
theorem handles_within_service_range (env : GattEnv) (service : QBluetoothUuid)
    (d r : QLowEnergyControllerPrivate) (servicePrivate updated : QLowEnergyServicePrivate)
    (found : QueryRun BTH_LE_GATT_CHARACTERISTIC)
    (hservice : NatMap.value d.serviceList service = some servicePrivate)
    (hfresh : servicePrivate.characteristicList = [])
    (hchars : enumerateGattCharacteristics env.gattFunctionsResolved env.characteristics
      env.fuel = some found)
    (hchar : ∀ c, c ∈ found.result →
      servicePrivate.startHandle ≤ c.AttributeHandle ∧ c.AttributeHandle < 65535)
    (hdesc : ∀ c, c ∈ found.result → ∀ g, g ∈ foundDescriptorsOf env c →
      servicePrivate.startHandle ≤ g.AttributeHandle)
    (hrun : discoverServiceDetails env service d = some r)
    (hval : NatMap.value r.serviceList service = some updated)
    (hdisc : updated.state = ServiceState.ServiceDiscovered) :
    HandlesWithin updated := by
  by_cases hopen : (openSystemService env.setupDi env.CreateFile service
      QIODevice.ReadOnly).2 = NO_ERROR
  · by_cases hcode : found.systemErrorCode = NO_ERROR
    · simp only [discoverServiceDetails, hservice, hopen, hchars, hcode, ne_eq,
        not_true_eq_false, if_false] at hrun
      cases hl : characteristicLoop env
          (openSystemService env.setupDi env.CreateFile service QIODevice.ReadOnly).1
          found.result
          ({ servicePrivate with endHandle := servicePrivate.startHandle },
            noteOpen (openSystemService env.setupDi env.CreateFile service
              QIODevice.ReadOnly).1 d) with
      | none => simp [hl] at hrun
      | some res =>
        obtain ⟨aborted, p1⟩ := res
        obtain ⟨f1, _, _, _, f5, _⟩ := characteristicLoop_facts env _ found.result _ _ _ hl
        cases aborted with
        | true =>
          simp only [hl, Option.some.injEq] at hrun
          subst hrun
          rw [value_storeService, Option.some.injEq] at hval
          subst hval
          rw [(f5 rfl).1] at hdisc
          exact absurd hdisc (by decide)
        | false =>
          simp only [hl, Option.some.injEq] at hrun
          subst hrun
          rw [value_storeService, Option.some.injEq] at hval
          subst hval
          have hf := QLowEnergyServicePrivate.setState_frame ServiceState.ServiceDiscovered
            (p1.1, noteClose (openSystemService env.setupDi env.CreateFile service
              QIODevice.ReadOnly).1 p1.2)
          have hw := characteristicLoop_within env _ servicePrivate.startHandle found.result
            _ _ hl hchar hdesc (by
              intro hh cd hmem
              have hnil : (hh, cd) ∈ servicePrivate.characteristicList := hmem
              rw [hfresh] at hnil
              exact absurd hnil (List.not_mem_nil _))
          unfold HandlesWithin
          rw [hf.1, f1]
          exact HandlesWithinFrom_congr _ _ _ hf.2.2.2.1 hf.2.1 hw
    · simp only [discoverServiceDetails, hservice, hopen, hchars, ne_eq, not_true_eq_false,
        if_false, hcode, not_false_eq_true, if_true, Option.some.injEq] at hrun
      subst hrun
      rw [value_storeService, Option.some.injEq] at hval
      subst hval
      rw [(QLowEnergyServicePrivate.abort_frame _ _ _ _).2.2.2.2.1] at hdisc
      exact absurd hdisc (by decide)
  · simp only [discoverServiceDetails, hservice, ne_eq, hopen, not_false_eq_true, if_true,
      Option.some.injEq] at hrun
    subst hrun
    rw [value_storeService, Option.some.injEq] at hval
    subst hval
    rw [(QLowEnergyServicePrivate.setState_frame _ _).2.2.2.2.1] at hdisc
    exact absurd hdisc (by decide)

set_option maxRecDepth 8192 in
/-- C15, witness: the first detail discovery of the battery service of the
example stores the characteristic handle 17 and the descriptor handle 19,
within the range from 16 to 19. -/
theorem handles_within_service_range_witness :
    NatMap.value exampleDiscovered.serviceList exampleUuidA
      = some { newService with uuid := exampleUuidA, startHandle := 16 } ∧
    enumerateGattCharacteristics true exampleEnv.characteristics 2
      = some ⟨NO_ERROR, [exampleCharacteristic], [0, 1]⟩ ∧
    discoverServiceDetails exampleEnv exampleUuidA exampleDiscovered = some exampleDetailed ∧
    NatMap.value exampleDetailed.serviceList exampleUuidA = some exampleDetailedService ∧
    exampleDetailedService.state = ServiceState.ServiceDiscovered ∧
    HandlesWithin exampleDetailedService ∧
    exampleHandles exampleEnv exampleDiscovered = some (16, 19, [17]) :=
  ⟨by decide, rfl, by decide, by decide, by decide,
   handles_within_service_range exampleEnv exampleUuidA exampleDiscovered exampleDetailed
     { newService with uuid := exampleUuidA, startHandle := 16 } exampleDetailedService
     ⟨NO_ERROR, [exampleCharacteristic], [0, 1]⟩ (by decide) rfl rfl
     (by
       intro c hc
       rw [List.mem_singleton.mp hc]
       decide)
     (by
       intro c _ g hg
       have hfound : foundDescriptorsOf exampleEnv c = [exampleDescriptor] := rfl
       rw [hfound] at hg
       rw [List.mem_singleton.mp hg]
       decide)
     (by decide) (by decide) (by decide),
   by decide⟩

end QLowEnergyControllerPrivate

/-! ## Handles opened and closed -/

namespace QLowEnergyControllerPrivate

theorem noteClose_counts (h : Nat) (d : QLowEnergyControllerPrivate) :
    (noteClose h d).handlesOpened = d.handlesOpened ∧
    (noteClose h d).handlesClosed
      = d.handlesClosed + (if closeSystemDevice h then 1 else 0) := by
  unfold noteClose
  split <;> exact ⟨rfl, rfl⟩

theorem noteOpen_counts (h : Nat) (d : QLowEnergyControllerPrivate) :
    (noteOpen h d).handlesClosed = d.handlesClosed ∧
    (noteOpen h d).handlesOpened
      = d.handlesOpened + (if h = INVALID_HANDLE_VALUE then 0 else 1) := by
  unfold noteOpen
  split <;> exact ⟨rfl, rfl⟩

theorem closeSystemDevice_of_ne_zero (h : Nat) (hne : h ≠ 0) :
    (if closeSystemDevice h then 1 else 0) = (if h = INVALID_HANDLE_VALUE then 0 else 1) := by
  by_cases hi : h = INVALID_HANDLE_VALUE
  · simp [closeSystemDevice, hi]
  · simp [closeSystemDevice, hi, hne]

theorem openSystemService_invalid_on_failure (setupDi : QBluetoothUuid → SetupDiReplies)
    (CreateFile : CreateFileFn) (service : QBluetoothUuid) (openMode : Nat)
    (h : (openSystemService setupDi CreateFile service openMode).2 ≠ NO_ERROR) :
    (openSystemService setupDi CreateFile service openMode).1 = INVALID_HANDLE_VALUE := by
  unfold openSystemService at h ⊢
  simp only [] at h ⊢
  split
  · rfl
  · split
    · rfl
    · rename_i h1 h2
      rw [if_neg h1, if_neg h2] at h
      exact absurd (not_not.mp h2) h

/-- Every return of `discoverServiceDetails` has closed the service handle it
opened (a handle other than the null handle): the numbers of handles opened
and closed grow by the same amount. -/
theorem discoverServiceDetails_closes_its_handle (env : GattEnv) (service : QBluetoothUuid)
    (d r : QLowEnergyControllerPrivate)
    (hrun : discoverServiceDetails env service d = some r)
    (hne : (openSystemService env.setupDi env.CreateFile service QIODevice.ReadOnly).1 ≠ 0) :
    r.handlesOpened + d.handlesClosed = r.handlesClosed + d.handlesOpened := by
  have hbal := closeSystemDevice_of_ne_zero _ hne
  have ho := noteOpen_counts
    (openSystemService env.setupDi env.CreateFile service QIODevice.ReadOnly).1 d
  cases hs : NatMap.value d.serviceList service with
  | none =>
    simp only [discoverServiceDetails, hs, Option.some.injEq] at hrun
    subst hrun
    exact Nat.add_comm _ _
  | some servicePrivate =>
    by_cases hopen : (openSystemService env.setupDi env.CreateFile service
        QIODevice.ReadOnly).2 = NO_ERROR
    · cases hq : enumerateGattCharacteristics env.gattFunctionsResolved env.characteristics
          env.fuel with
      | none => simp [discoverServiceDetails, hs, hopen, hq] at hrun
      | some found =>
        by_cases hcode : found.systemErrorCode = NO_ERROR
        · simp only [discoverServiceDetails, hs, hopen, hq, hcode, ne_eq, not_true_eq_false,
            if_false] at hrun
          cases hl : characteristicLoop env
              (openSystemService env.setupDi env.CreateFile service QIODevice.ReadOnly).1
              found.result
              ({ servicePrivate with endHandle := servicePrivate.startHandle },
                noteOpen (openSystemService env.setupDi env.CreateFile service
                  QIODevice.ReadOnly).1 d) with
          | none => simp [hl] at hrun
          | some res =>
            obtain ⟨aborted, p1⟩ := res
            obtain ⟨_, _, _, f4, f5, f6⟩ := characteristicLoop_facts env _ found.result _ _ _ hl
            cases aborted with
            | true =>
              simp only [hl, Option.some.injEq] at hrun
              subst hrun
              have hc := noteClose_counts
                (openSystemService env.setupDi env.CreateFile service QIODevice.ReadOnly).1
                (noteOpen (openSystemService env.setupDi env.CreateFile service
                  QIODevice.ReadOnly).1 d)
              have h3 := (f5 rfl).2.2
              simp only [storeService] at f4 h3 ⊢
              rw [f4, h3, hc.2, ho.1, ho.2, hbal]
              omega
            | false =>
              simp only [hl, Option.some.injEq] at hrun
              subst hrun
              have hp := (f6 rfl).2.2.2
              have hf := QLowEnergyServicePrivate.setState_frame ServiceState.ServiceDiscovered
                (p1.1, noteClose (openSystemService env.setupDi env.CreateFile service
                  QIODevice.ReadOnly).1 p1.2)
              have hc := noteClose_counts
                (openSystemService env.setupDi env.CreateFile service QIODevice.ReadOnly).1 p1.2
              simp only [storeService]
              rw [hf.2.2.2.2.2.2.1, hf.2.2.2.2.2.2.2, hc.1, hc.2, hp, ho.1, ho.2, hbal]
              omega
        · simp only [discoverServiceDetails, hs, hopen, hq, ne_eq, not_true_eq_false, if_false,
            hcode, not_false_eq_true, if_true, Option.some.injEq] at hrun
          subst hrun
          have hf := QLowEnergyServicePrivate.abort_frame
            ServiceError.CharacteristicReadError
            (openSystemService env.setupDi env.CreateFile service QIODevice.ReadOnly).1
            { servicePrivate with endHandle := servicePrivate.startHandle }
            (noteOpen (openSystemService env.setupDi env.CreateFile service
              QIODevice.ReadOnly).1 d)
          have hc := noteClose_counts
            (openSystemService env.setupDi env.CreateFile service QIODevice.ReadOnly).1
            (noteOpen (openSystemService env.setupDi env.CreateFile service
              QIODevice.ReadOnly).1 d)
          simp only [storeService]
          rw [hf.2.2.2.2.2.2.1, hf.2.2.2.2.2.2.2, hc.2, ho.1, ho.2, hbal]
          omega
    · simp only [discoverServiceDetails, hs, ne_eq, hopen, not_false_eq_true, if_true,
        Option.some.injEq] at hrun
      subst hrun
      have hinv := openSystemService_invalid_on_failure env.setupDi env.CreateFile service
        QIODevice.ReadOnly hopen
      have hf1 := QLowEnergyServicePrivate.setState_frame ServiceState.DiscoveryRequired
        (QLowEnergyServicePrivate.setError ServiceError.UnknownError
          (servicePrivate, noteOpen (openSystemService env.setupDi env.CreateFile service
            QIODevice.ReadOnly).1 d))
      simp only [storeService]
      rw [hf1.2.2.2.2.2.2.1, hf1.2.2.2.2.2.2.2]
      simp only [QLowEnergyServicePrivate.setError, emit]
      rw [ho.1, ho.2, if_pos hinv]
      omega

/-- Neither `readCharacteristic` nor `writeCharacteristic` ever closes a handle:
on every return the number of handles closed is the one from before, also
when the call has opened a service handle. -/
theorem readWrite_never_close (env : GattEnv) (service : QBluetoothUuid)
    (charHandle : QLowEnergyHandle) (d r : QLowEnergyControllerPrivate) :
    (readCharacteristic env service charHandle d = some r →
      r.handlesClosed = d.handlesClosed) ∧
    (∀ (newValue : List Nat) (writeWithResponse : Bool),
      writeCharacteristic env service charHandle newValue writeWithResponse d = some r →
      r.handlesClosed = d.handlesClosed) := by
  have hupd : ∀ (v : List Nat) (p : ServicePass),
      (updateValueOfCharacteristic charHandle v p).2 = p.2 := by
    intro v p
    unfold updateValueOfCharacteristic
    split <;> rfl
  refine ⟨?_, ?_⟩
  · intro h
    cases hs : NatMap.value d.serviceList service with
    | none => simp [readCharacteristic, hs] at h
    | some servicePrivate =>
      cases hc : NatMap.value servicePrivate.characteristicList charHandle with
      | none =>
        simp only [readCharacteristic, hs, hc, Option.some.injEq] at h
        rw [← h]
      | some charDetails =>
        obtain ⟨p1, p2⟩ := readCharacteristic_paths env service charHandle d servicePrivate
          charDetails hs hc
        by_cases hopen : (openSystemService env.setupDi env.CreateFile servicePrivate.uuid
            QIODevice.ReadOnly).2 = NO_ERROR
        · cases hq : getGattCharacteristicValue env.gattFunctionsResolved
              (env.characteristicValue (recoverNativeLeGattCharacteristic
                servicePrivate.startHandle charHandle charDetails)) env.fuel with
          | none => simp [readCharacteristic, hs, hc, hopen, hq] at h
          | some run =>
            by_cases hcode : run.systemErrorCode = NO_ERROR
            · cases hres : run.result with
              | none => simp [readCharacteristic, hs, hc, hopen, hq, hcode, hres] at h
              | some value =>
                rw [((p2 hopen run hq).2 hcode) value hres, Option.some.injEq] at h
                rw [← h]
                simp only [storeService, emit, hupd]
                exact noteOpen_handlesClosed _ _
            · rw [(p2 hopen run hq).1 hcode, Option.some.injEq] at h
              rw [← h]
              exact noteOpen_handlesClosed _ _
        · rw [p1 hopen, Option.some.injEq] at h
          rw [← h]
          exact noteOpen_handlesClosed _ _
  · intro newValue writeWithResponse h
    cases hs : NatMap.value d.serviceList service with
    | none => simp [writeCharacteristic, hs] at h
    | some servicePrivate =>
      cases hc : NatMap.value servicePrivate.characteristicList charHandle with
      | none =>
        simp only [writeCharacteristic, hs, hc, Option.some.injEq] at h
        rw [← h]
      | some charDetails =>
        obtain ⟨p1, p2⟩ := writeCharacteristic_paths env service charHandle newValue
          writeWithResponse d servicePrivate charDetails hs hc
        by_cases hfail :
            (openSystemService env.setupDi env.CreateFile servicePrivate.uuid
              QIODevice.ReadWrite).2 ≠ NO_ERROR ∨
            (setGattCharacteristicValue env.gattFunctionsResolved env.setCharacteristicValue
              (recoverNativeLeGattCharacteristic servicePrivate.startHandle charHandle
                charDetails)
              newValue (if writeWithResponse then BLUETOOTH_GATT_FLAG_NONE
                else BLUETOOTH_GATT_FLAG_WRITE_WITHOUT_RESPONSE)).systemErrorCode ≠ NO_ERROR
        · rw [p1 hfail, Option.some.injEq] at h
          rw [← h]
          exact noteOpen_handlesClosed _ _
        · have hopen : (openSystemService env.setupDi env.CreateFile servicePrivate.uuid
              QIODevice.ReadWrite).2 = NO_ERROR := by
            by_contra hne
            exact hfail (Or.inl hne)
          have hcode : (setGattCharacteristicValue env.gattFunctionsResolved
              env.setCharacteristicValue
              (recoverNativeLeGattCharacteristic servicePrivate.startHandle charHandle
                charDetails)
              newValue (if writeWithResponse then BLUETOOTH_GATT_FLAG_NONE
                else BLUETOOTH_GATT_FLAG_WRITE_WITHOUT_RESPONSE)).systemErrorCode
                = NO_ERROR := by
            by_contra hne
            exact hfail (Or.inr hne)
          rw [p2 hopen hcode, Option.some.injEq] at h
          rw [← h]
          cases writeWithResponse
          · simp only [storeService, Bool.false_eq_true, if_false, hupd]
            exact noteOpen_handlesClosed _ _
          · simp only [storeService, if_true, emit, hupd]
            exact noteOpen_handlesClosed _ _

end QLowEnergyControllerPrivate

/-! ## More properties of the maps -/

theorem NatMap.value_insert_of_ne {β : Type} (k k1 : Nat) (v : β) (m : NatMap β)
    (hne : k1 ≠ k) : NatMap.value (NatMap.insert k v m) k1 = NatMap.value m k1 := by
  have hk : (k == k1) = false := by
    simp only [beq_eq_false_iff_ne, ne_eq]
    exact fun h => hne h.symm
  induction m with
  | nil => simp [NatMap.insert, NatMap.value, hk]
  | cons p rest ih =>
    obtain ⟨k0, v0⟩ := p
    unfold NatMap.insert
    split
    · simp [NatMap.value, List.find?_cons, hk]
    · split
      · rename_i _ heq
        subst heq
        simp [NatMap.value, List.find?_cons, hk]
      · simp only [NatMap.value, List.find?_cons] at ih ⊢
        cases hb : (k0 == k1) with
        | true => rfl
        | false => exact ih

theorem NatMap.contains_iff_value {β : Type} (m : NatMap β) (k : Nat) :
    NatMap.contains m k = true ↔ ∃ v, NatMap.value m k = some v := by
  induction m with
  | nil => simp [NatMap.contains, NatMap.value]
  | cons p rest ih =>
    simp only [NatMap.contains, NatMap.value, List.any_cons, List.find?_cons] at ih ⊢
    cases hb : (p.1 == k) with
    | true => simp
    | false => simpa using ih

theorem NatMap.contains_insert_self {β : Type} (k : Nat) (v : β) (m : NatMap β) :
    NatMap.contains (NatMap.insert k v m) k = true :=
  (NatMap.contains_iff_value _ _).mpr ⟨v, NatMap.value_insert_self k v m⟩

theorem NatMap.contains_insert_of_contains {β : Type} (k k1 : Nat) (v : β) (m : NatMap β)
    (h : NatMap.contains m k1 = true) : NatMap.contains (NatMap.insert k v m) k1 = true := by
  by_cases hk : k1 = k
  · subst hk
    exact NatMap.contains_insert_self _ v m
  · rw [NatMap.contains_iff_value] at h ⊢
    rw [NatMap.value_insert_of_ne k k1 v m hk]
    exact h

/-! ## What a detail pass caches -/

theorem valueLoop_outcome (native : ValueLayer) (dataSizeOffset : Nat) :
    ∀ (fuel i : Nat) (valueBuffer : List Nat) (valueBufferSize : Nat) (issued : List Nat)
      (run : ValueRun),
      valueLoop native dataSizeOffset fuel i valueBuffer valueBufferSize issued = some run →
      i = issued.length →
      (run.result = some [] ∧
        native.reply (run.capacities.length - 1) = NativeReply.failed run.systemErrorCode) ∨
      (run.systemErrorCode = NO_ERROR ∧
        ∃ w, native.reply (run.capacities.length - 1) = NativeReply.ok w) := by
  intro fuel
  induction fuel with
  | zero =>
    intro i valueBuffer valueBufferSize issued run h
    simp only [valueLoop] at h
    exact absurd h (by simp)
  | succ fuel ih =>
    intro i valueBuffer valueBufferSize issued run h hi
    cases hn : native.reply i with
    | moreData n =>
      simp only [valueLoop, hn] at h
      exact ih _ _ _ _ run h (by simp [hi])
    | ok w =>
      simp only [valueLoop, hn, Option.some.injEq] at h
      subst h
      refine Or.inr ⟨rfl, w, ?_⟩
      simp only [List.length_append, List.length_cons, List.length_nil, Nat.add_sub_cancel]
      rw [← hi]
      exact hn
    | failed e =>
      simp only [valueLoop, hn, Option.some.injEq] at h
      subst h
      refine Or.inl ⟨rfl, ?_⟩
      simp only [List.length_append, List.length_cons, List.length_nil, Nat.add_sub_cancel]
      rw [← hi]
      exact hn

/-- A value retrieval that ends in a failure, reported through
`systemErrorCode` or not, hands back the empty value. -/
theorem failed_fetch_gives_empty_value (gattFunctionsResolved : Bool) (native : ValueLayer)
    (fuel : Nat) (run : ValueRun)
    (h : getGattCharacteristicValue gattFunctionsResolved native fuel = some run)
    (hfail : run.systemErrorCode ≠ NO_ERROR ∨
      ∃ e, native.reply (run.capacities.length - 1) = NativeReply.failed e) :
    run.result = some [] := by
  unfold getGattCharacteristicValue at h
  cases hr : gattFunctionsResolved with
  | false =>
    simp only [hr, Bool.not_false, if_true, Option.some.injEq] at h
    subst h
    rfl
  | true =>
    simp only [hr, Bool.not_true, Bool.false_eq_true, if_false] at h
    rcases valueLoop_outcome native _ fuel 0 [] 0 [] run h rfl with ⟨hres, _⟩ | ⟨hcode, w, hw⟩
    · exact hres
    · rcases hfail with hne | ⟨e, he⟩
      · exact absurd hcode hne
      · rw [hw] at he
        exact absurd he (by simp)

namespace QLowEnergyControllerPrivate

/-- The descriptor map handed on by a descriptor loop that was not aborted. -/
theorem descriptorLoop_caches (env : GattEnv) (hService : Nat)
    (ds : List BTH_LE_GATT_DESCRIPTOR) :
    ∀ (detailsData : CharData) (p : ServicePass) (detailsData1 : CharData) (p1 : ServicePass),
      descriptorLoop env hService ds detailsData p = some (false, detailsData1, p1) →
      detailsData1 = { detailsData with
        descriptorList := cachedDescriptors env ds detailsData.descriptorList } := by
  induction ds with
  | nil =>
    intro detailsData p detailsData1 p1 h
    simp only [descriptorLoop, Option.some.injEq, Prod.mk.injEq, true_and] at h
    rw [← h.1]
    rfl
  | cons g rest ih =>
    intro detailsData p detailsData1 p1 h
    cases hq : getGattDescriptorValue env.gattFunctionsResolved (env.descriptorValue g)
        env.fuel with
    | none => simp [descriptorLoop, hq] at h
    | some run =>
      by_cases hcode : run.systemErrorCode = NO_ERROR
      · cases hres : run.result with
        | none => simp [descriptorLoop, hq, hcode, hres] at h
        | some value =>
          simp only [descriptorLoop, hq, hcode, hres, ne_eq, not_true_eq_false, if_false] at h
          rw [ih _ _ _ _ h]
          simp only [cachedDescriptors, List.foldl_cons, fetchedValue, hq, hres, Option.getD_some]
      · simp [descriptorLoop, hq, hcode] at h

/-- The characteristic map handed on by a characteristic loop that was not
aborted. -/
theorem characteristicLoop_caches (env : GattEnv) (hService : Nat)
    (cs : List BTH_LE_GATT_CHARACTERISTIC) :
    ∀ (p p1 : ServicePass),
      characteristicLoop env hService cs p = some (false, p1) →
      p1.1.characteristicList = cachedCharacteristics env cs p.1.characteristicList := by
  induction cs with
  | nil =>
    intro p p1 h
    simp only [characteristicLoop, Option.some.injEq, Prod.mk.injEq, true_and] at h
    rw [← h]
    rfl
  | cons c rest ih =>
    intro p p1 h
    cases hv : getGattCharacteristicValue env.gattFunctionsResolved (env.characteristicValue c)
        env.fuel with
    | none => simp [characteristicLoop, hv] at h
    | some valueRun =>
      cases hres : valueRun.result with
      | none => simp [characteristicLoop, hv, hres] at h
      | some value =>
        cases hq : enumerateGattDescriptors env.gattFunctionsResolved (env.descriptors c)
            env.fuel with
        | none => simp [characteristicLoop, hv, hres, hq] at h
        | some found =>
          by_cases hfatal : found.systemErrorCode ≠ NO_ERROR ∧
              found.systemErrorCode ≠ ERROR_NOT_FOUND
          · simp only [characteristicLoop, hv, hres, hq] at h
            rw [if_pos hfatal] at h
            simp at h
          · simp only [characteristicLoop, hv, hres, hq] at h
            rw [if_neg hfatal] at h
            cases hd : descriptorLoop env hService found.result
                { uuid := qtBluetoothUuidFromNativeLeUuid c.CharacteristicUuid,
                  valueHandle := c.CharacteristicValueHandle,
                  properties := decodeProperties c, value := value, descriptorList := [] }
                ({ p.1 with endHandle := max p.1.endHandle ((c.AttributeHandle + 1) % 65536) },
                  p.2) with
            | none => simp [hd] at h
            | some res =>
              obtain ⟨dAborted, detailsData1, p2⟩ := res
              cases dAborted with
              | true => simp [hd] at h
              | false =>
                simp only [hd] at h
                have hlist := (descriptorLoop_facts env hService found.result _ _ _ _ _ hd).2.2.1
                have hdata := descriptorLoop_caches env hService found.result _ _ _ _ hd
                rw [ih _ _ h]
                simp only [cachedCharacteristics, List.foldl_cons, cachedCharacteristic,
                  fetchedValue, hv, hres, Option.getD_some,
                  foundDescriptorsOf_eq env c found hq, hlist, hdata]

end QLowEnergyControllerPrivate

theorem cachedCharacteristics_cons (env : GattEnv) (c : BTH_LE_GATT_CHARACTERISTIC)
    (rest : List BTH_LE_GATT_CHARACTERISTIC) (m : NatMap CharData) :
    cachedCharacteristics env (c :: rest) m
      = cachedCharacteristics env rest
          (NatMap.insert c.AttributeHandle (cachedCharacteristic env c) m) := rfl

theorem cachedCharacteristics_keeps (env : GattEnv) (cs : List BTH_LE_GATT_CHARACTERISTIC)
    (k : Nat) :
    ∀ m : NatMap CharData,
      (NatMap.contains m k = true →
        NatMap.contains (cachedCharacteristics env cs m) k = true) ∧
      ((∀ c, c ∈ cs → c.AttributeHandle ≠ k) →
        NatMap.value (cachedCharacteristics env cs m) k = NatMap.value m k) := by
  induction cs with
  | nil => intro m; exact ⟨fun h => h, fun _ => rfl⟩
  | cons c rest ih =>
    intro m
    rw [cachedCharacteristics_cons]
    refine ⟨fun h => (ih _).1 (NatMap.contains_insert_of_contains _ _ _ _ h), fun h => ?_⟩
    rw [(ih _).2 (fun c1 hc1 => h c1 (List.mem_cons_of_mem _ hc1))]
    exact NatMap.value_insert_of_ne _ _ _ _ (fun e => h c (List.mem_cons_self _ _) e.symm)

/-- Every characteristic a pass went over is a key of the characteristic map
it builds; one whose handle no other characteristic of the pass has is cached
with the data built for it. -/
theorem cachedCharacteristics_holds (env : GattEnv) (cs : List BTH_LE_GATT_CHARACTERISTIC)
    (c : BTH_LE_GATT_CHARACTERISTIC) :
    ∀ m : NatMap CharData, c ∈ cs →
      NatMap.contains (cachedCharacteristics env cs m) c.AttributeHandle = true ∧
      ((∀ c1, c1 ∈ cs → c1.AttributeHandle = c.AttributeHandle → c1 = c) →
        NatMap.value (cachedCharacteristics env cs m) c.AttributeHandle
          = some (cachedCharacteristic env c)) := by
  induction cs with
  | nil => intro m hc; exact absurd hc (List.not_mem_nil c)
  | cons x rest ih =>
    intro m hc
    rw [cachedCharacteristics_cons]
    by_cases hrest : c ∈ rest
    · obtain ⟨i1, i2⟩ := ih (NatMap.insert x.AttributeHandle (cachedCharacteristic env x) m) hrest
      exact ⟨i1, fun hu => i2 (fun c1 hc1 => hu c1 (List.mem_cons_of_mem _ hc1))⟩
    · have hx : c = x := by
        rcases List.mem_cons.mp hc with h | h
        · exact h
        · exact absurd h hrest
      subst hx
      refine ⟨(cachedCharacteristics_keeps env rest _ _).1 (NatMap.contains_insert_self _ _ _),
        fun hu => ?_⟩
      rw [(cachedCharacteristics_keeps env rest _ _).2
        (fun c1 hc1 e => hrest (hu c1 (List.mem_cons_of_mem _ hc1) e ▸ hc1))]
      exact NatMap.value_insert_self _ _ _

namespace QLowEnergyControllerPrivate

theorem serviceSetState_signals (newState : ServiceState) (p : ServicePass) :
    (QLowEnergyServicePrivate.setState newState p).2.signals
      = p.2.signals ++ (if p.1.state = newState then []
          else [Signal.serviceStateChanged p.1.uuid newState]) := by
  unfold QLowEnergyServicePrivate.setState
  split
  · simp
  · rfl

/-- A detail discovery that runs to its end: besides what
`discoverServiceDetails_succeeds` tells, the characteristic map is the one
the pass builds from the map of before, and the only signal emitted is the
change of the service status. -/
theorem discoverServiceDetails_completes (env : GattEnv) (service : QBluetoothUuid)
    (d : QLowEnergyControllerPrivate) (servicePrivate : QLowEnergyServicePrivate)
    (found : QueryRun BTH_LE_GATT_CHARACTERISTIC)
    (hservice : NatMap.value d.serviceList service = some servicePrivate)
    (hopen : (openSystemService env.setupDi env.CreateFile service QIODevice.ReadOnly).2
      = NO_ERROR)
    (hchars : enumerateGattCharacteristics env.gattFunctionsResolved env.characteristics
      env.fuel = some found)
    (hcode : found.systemErrorCode = NO_ERROR)
    (hpass : NoFatalFailure env found.result) :
    ∃ r updated, discoverServiceDetails env service d = some r ∧
      NatMap.value r.serviceList service = some updated ∧
      updated.state = ServiceState.ServiceDiscovered ∧
      updated.error = servicePrivate.error ∧
      updated.endHandle = endHandleAfter env found.result servicePrivate.startHandle ∧
      updated.characteristicList
        = cachedCharacteristics env found.result servicePrivate.characteristicList ∧
      r.signals = d.signals ++
        (if servicePrivate.state = ServiceState.ServiceDiscovered then []
         else [Signal.serviceStateChanged servicePrivate.uuid ServiceState.ServiceDiscovered]) := by
  obtain ⟨p1, hl⟩ := characteristicLoop_finishes env
    (openSystemService env.setupDi env.CreateFile service QIODevice.ReadOnly).1 found.result
    ({ servicePrivate with endHandle := servicePrivate.startHandle },
      noteOpen (openSystemService env.setupDi env.CreateFile service QIODevice.ReadOnly).1 d)
    hpass
  obtain ⟨_, f2, _, _, _, f6⟩ := characteristicLoop_facts env _ found.result _ _ _ hl
  obtain ⟨e1, e2, e3, e4⟩ := f6 rfl
  have hc := characteristicLoop_caches env _ found.result _ _ hl
  have hf := QLowEnergyServicePrivate.setState_frame ServiceState.ServiceDiscovered
    (p1.1, noteClose (openSystemService env.setupDi env.CreateFile service
      QIODevice.ReadOnly).1 p1.2)
  have hs := serviceSetState_signals ServiceState.ServiceDiscovered
    (p1.1, noteClose (openSystemService env.setupDi env.CreateFile service
      QIODevice.ReadOnly).1 p1.2)
  refine ⟨_, _, ?_, value_storeService service _, hf.2.2.2.2.1, ?_, ?_, ?_, ?_⟩
  · simp only [discoverServiceDetails, hservice, hopen, hchars, hcode, ne_eq,
      not_true_eq_false, if_false, hl]
  · rw [hf.2.2.2.2.2.1]
    exact e3
  · rw [hf.2.1]
    exact e1
  · rw [hf.2.2.2.1]
    exact hc
  · show (QLowEnergyServicePrivate.setState ServiceState.ServiceDiscovered
      (p1.1, noteClose (openSystemService env.setupDi env.CreateFile service
        QIODevice.ReadOnly).1 p1.2)).2.signals = _
    rw [hs]
    simp only [e2, f2, e4, (noteClose_frame _ _).2.2.1, noteOpen_signals]

/-- C21. During `discoverServiceDetails`, a failed value fetch for one
characteristic does not abort the pass. For a service of the map whose
handle opens and whose characteristic enumeration reports `NO_ERROR`, when
the value retrieval for the enumerated characteristic `c` fails (it reports
a code other than `NO_ERROR`, or its last native call fails hard) and
nothing else fails: the data cached for `c` has the empty value; the pass
returns; the characteristic map is the one of before with every enumerated
characteristic inserted under its handle, in order, so that every
enumerated characteristic is a key of the map and `c`, when no other
enumerated characteristic has its handle, is cached with the empty value;
the end handle takes every enumerated characteristic into account; the service status is `ServiceDiscovered`; the service error is the
one of before and no service error signal is emitted. -/
theorem failed_characteristic_value_is_tolerated (env : GattEnv) (service : QBluetoothUuid)
    (d : QLowEnergyControllerPrivate) (servicePrivate : QLowEnergyServicePrivate)
    (found : QueryRun BTH_LE_GATT_CHARACTERISTIC) (c : BTH_LE_GATT_CHARACTERISTIC)
    (run : ValueRun)
    (hservice : NatMap.value d.serviceList service = some servicePrivate)
    (hopen : (openSystemService env.setupDi env.CreateFile service QIODevice.ReadOnly).2
      = NO_ERROR)
    (hchars : enumerateGattCharacteristics env.gattFunctionsResolved env.characteristics
      env.fuel = some found)
    (hcode : found.systemErrorCode = NO_ERROR)
    (hc : c ∈ found.result)
    (hfetch : getGattCharacteristicValue env.gattFunctionsResolved (env.characteristicValue c)
      env.fuel = some run)
    (hfail : run.systemErrorCode ≠ NO_ERROR ∨
      ∃ e, (env.characteristicValue c).reply (run.capacities.length - 1)
        = NativeReply.failed e)
    (hpass : NoFatalFailure env found.result) :
    (cachedCharacteristic env c).value = [] ∧
    ∃ r updated, discoverServiceDetails env service d = some r ∧
      NatMap.value r.serviceList service = some updated ∧
      updated.characteristicList
        = cachedCharacteristics env found.result servicePrivate.characteristicList ∧
      (∀ c1, c1 ∈ found.result →
        NatMap.contains updated.characteristicList c1.AttributeHandle = true) ∧
      ((∀ c1, c1 ∈ found.result → c1.AttributeHandle = c.AttributeHandle → c1 = c) →
        NatMap.value updated.characteristicList c.AttributeHandle
          = some (cachedCharacteristic env c)) ∧
      updated.endHandle = endHandleAfter env found.result servicePrivate.startHandle ∧
      updated.state = ServiceState.ServiceDiscovered ∧
      updated.error = servicePrivate.error ∧
      (∀ u e, Signal.serviceError u e ∉ signalsSince d.signals r) := by
  have hempty := failed_fetch_gives_empty_value _ _ _ run hfetch hfail
  refine ⟨by simp only [cachedCharacteristic, fetchedValue, hfetch, hempty, Option.getD_some], ?_⟩
  obtain ⟨r, updated, hr, hval, hstate, herr, hend, hlist, hsig⟩ :=
    discoverServiceDetails_completes env service d servicePrivate found hservice hopen hchars
      hcode hpass
  refine ⟨r, updated, hr, hval, hlist, ?_, ?_, hend, hstate, herr, ?_⟩
  · intro c1 hc1
    rw [hlist]
    exact (cachedCharacteristics_holds env found.result c1 _ hc1).1
  · intro hu
    rw [hlist]
    exact (cachedCharacteristics_holds env found.result c _ hc).2 hu
  · intro u e hmem
    rw [signalsSince_append d r _ hsig] at hmem
    split at hmem
    · exact absurd hmem (List.not_mem_nil _)
    · simp at hmem

set_option maxRecDepth 8192 in
/-- C21, witness: the battery service (start handle 16) with characteristics at
the handles 17 and 20; the value retrieval for the first fails hard with
last-error `ERROR_GEN_FAILURE`. Both characteristics are cached, the first
with the empty value, the second with the value 7, 9. -/
theorem failed_characteristic_value_is_tolerated_witness :
    NatMap.value exampleDiscovered.serviceList exampleUuidA
      = some { newService with uuid := exampleUuidA, startHandle := 16 } ∧
    getGattCharacteristicValue true (valueFailureEnv.characteristicValue
        (exampleCharacteristicAt 17)) 2 = some ⟨ERROR_GEN_FAILURE, some [], [0]⟩ ∧
    ∃ r updated, discoverServiceDetails valueFailureEnv exampleUuidA exampleDiscovered = some r ∧
      NatMap.value r.serviceList exampleUuidA = some updated ∧
      updated.state = ServiceState.ServiceDiscovered ∧
      updated.error = ServiceError.NoError ∧
      NatMap.keys updated.characteristicList = [17, 20] ∧
      updated.characteristicList.map (fun entry => entry.2.value) = [[], [7, 9]] := by
  refine ⟨by decide, rfl, ?_⟩
  obtain ⟨_, r, updated, hr, hval, hlist, _, _, _, hstate, herr, _⟩ :=
    failed_characteristic_value_is_tolerated valueFailureEnv exampleUuidA exampleDiscovered
      { newService with uuid := exampleUuidA, startHandle := 16 }
      ⟨NO_ERROR, [exampleCharacteristicAt 17, exampleCharacteristicAt 20], [0, 2]⟩
      (exampleCharacteristicAt 17) ⟨ERROR_GEN_FAILURE, some [], [0]⟩
      (by decide) rfl rfl rfl (by simp) rfl (Or.inl (by decide))
      (by
        intro c _
        refine ⟨?_, ⟨_, rfl, Or.inr rfl⟩, ?_⟩
        · by_cases h17 : c.AttributeHandle = 17
          · exact ⟨⟨ERROR_GEN_FAILURE, some [], [0]⟩, [], by
              simp only [valueFailureEnv, h17, if_true]
              rfl, rfl⟩
          · exact ⟨⟨NO_ERROR, some [7, 9], [0, 6]⟩, [7, 9], by
              simp only [valueFailureEnv, h17, if_false]
              rfl, rfl⟩
        · intro g hg
          exact absurd hg (List.not_mem_nil g))
  refine ⟨r, updated, hr, hval, hstate, herr, ?_, ?_⟩
  · rw [hlist]
    decide
  · rw [hlist]
    decide

end QLowEnergyControllerPrivate

/-! ## Failures during the detail discovery -/

namespace QLowEnergyControllerPrivate

/-- The descriptor loop once a descriptor value retrieval has reported a
failure through a `systemErrorCode` other than `NO_ERROR`, after the
descriptors `pre` were fetched: the loop is aborted whatever descriptors
`post` follow, the service asks for a new discovery with the error
`DescriptorReadError`, and its characteristic map is the one from before. -/
theorem descriptorLoop_reported_failure (env : GattEnv) (hService : Nat)
    (g : BTH_LE_GATT_DESCRIPTOR) (run : ValueRun)
    (hq : getGattDescriptorValue env.gattFunctionsResolved (env.descriptorValue g) env.fuel
      = some run)
    (hcode : run.systemErrorCode ≠ NO_ERROR) (pre : List BTH_LE_GATT_DESCRIPTOR) :
    ∀ (detailsData : CharData) (p : ServicePass),
      (∀ g1, g1 ∈ pre → ∃ run1 value, getGattDescriptorValue env.gattFunctionsResolved
        (env.descriptorValue g1) env.fuel = some run1 ∧
        run1.systemErrorCode = NO_ERROR ∧ run1.result = some value) →
      ∃ detailsData1 p1,
        (∀ post, descriptorLoop env hService (pre ++ g :: post) detailsData p
          = some (true, detailsData1, p1)) ∧
        p1.1.state = ServiceState.DiscoveryRequired ∧
        p1.1.error = ServiceError.DescriptorReadError ∧
        p1.1.characteristicList = p.1.characteristicList := by
  induction pre with
  | nil =>
    intro detailsData p _
    have hf := QLowEnergyServicePrivate.abort_frame ServiceError.DescriptorReadError
      hService p.1 p.2
    refine ⟨detailsData, _, fun post => ?_, hf.2.2.2.2.1, hf.2.2.2.2.2.1, hf.2.2.2.1⟩
    simp only [List.nil_append, descriptorLoop, hq, ne_eq, hcode, not_false_eq_true, if_true]
  | cons g1 rest ih =>
    intro detailsData p hpre
    obtain ⟨run1, value, hq1, hc1, hr1⟩ := hpre g1 (List.mem_cons_self _ _)
    obtain ⟨detailsData1, p1, hall, hs, he, hl⟩ := ih
      { detailsData with descriptorList := (NatMap.insert g1.AttributeHandle
          (DescData.mk (qtBluetoothUuidFromNativeLeUuid g1.DescriptorUuid) value)
          detailsData.descriptorList) }
      ({ p.1 with endHandle := max p.1.endHandle g1.AttributeHandle }, p.2)
      (fun g2 hg2 => hpre g2 (List.mem_cons_of_mem _ hg2))
    refine ⟨detailsData1, p1, fun post => ?_, hs, he, hl⟩
    simp only [List.cons_append, descriptorLoop, hq1, hc1, hr1, ne_eq, not_true_eq_false,
      if_false]
    exact hall post

/-- One step of the characteristic loop in which a descriptor value retrieval
reports a failure: the pass is aborted whatever characteristics `rest`
follow, the service asks for a new discovery with the error
`DescriptorReadError`, and the characteristic that owns the descriptor is
not inserted (the characteristic map is the one from before the step). -/
theorem characteristicLoop_reported_descriptor_failure (env : GattEnv) (hService : Nat)
    (c : BTH_LE_GATT_CHARACTERISTIC) (valueRun : ValueRun) (value : List Nat)
    (found : QueryRun BTH_LE_GATT_DESCRIPTOR) (pre post : List BTH_LE_GATT_DESCRIPTOR)
    (g : BTH_LE_GATT_DESCRIPTOR) (run : ValueRun) (p : ServicePass)
    (hv : getGattCharacteristicValue env.gattFunctionsResolved (env.characteristicValue c)
      env.fuel = some valueRun)
    (hres : valueRun.result = some value)
    (hd : enumerateGattDescriptors env.gattFunctionsResolved (env.descriptors c) env.fuel
      = some found)
    (hfound : found.systemErrorCode = NO_ERROR ∨ found.systemErrorCode = ERROR_NOT_FOUND)
    (hlist : found.result = pre ++ g :: post)
    (hpre : ∀ g1, g1 ∈ pre → ∃ run1 value1, getGattDescriptorValue env.gattFunctionsResolved
        (env.descriptorValue g1) env.fuel = some run1 ∧
        run1.systemErrorCode = NO_ERROR ∧ run1.result = some value1)
    (hq : getGattDescriptorValue env.gattFunctionsResolved (env.descriptorValue g) env.fuel
      = some run)
    (hcode : run.systemErrorCode ≠ NO_ERROR) :
    ∃ p1, (∀ rest, characteristicLoop env hService (c :: rest) p = some (true, p1)) ∧
      p1.1.state = ServiceState.DiscoveryRequired ∧
      p1.1.error = ServiceError.DescriptorReadError ∧
      p1.1.characteristicList = p.1.characteristicList := by
  have hnot : ¬(found.systemErrorCode ≠ NO_ERROR ∧ found.systemErrorCode ≠ ERROR_NOT_FOUND) := by
    rintro ⟨h1, h2⟩
    rcases hfound with h | h
    · exact h1 h
    · exact h2 h
  obtain ⟨detailsData1, p1, hall, hs, he, hl⟩ :=
    descriptorLoop_reported_failure env hService g run hq hcode pre
      { uuid := qtBluetoothUuidFromNativeLeUuid c.CharacteristicUuid,
        valueHandle := c.CharacteristicValueHandle,
        properties := decodeProperties c, value := value, descriptorList := [] }
      ({ p.1 with endHandle := max p.1.endHandle ((c.AttributeHandle + 1) % 65536) }, p.2)
      hpre
  refine ⟨p1, fun rest => ?_, hs, he, hl⟩
  simp only [characteristicLoop, hv, hres, hd]
  rw [if_neg hnot, hlist, hall post]

set_option maxRecDepth 8192 in
/-- C22, the code at the failing input. The battery service of the example has
one characteristic at handle 17 with one descriptor at handle 19; the value
retrieval for the descriptor fails hard while `::GetLastError()` yields 0.
The retrieval hands back `NO_ERROR`, the pass is not aborted: the only signal
is the change of the service status to `ServiceDiscovered`, no error is set,
and the characteristic that owns the descriptor is inserted in the
characteristic map, the descriptor cached with the empty value. -/
theorem failed_descriptor_fetch_with_zero_last_error_is_not_fatal :
    getGattDescriptorValue true (silentDescriptorFailureEnv.descriptorValue exampleDescriptor) 2
      = some ⟨NO_ERROR, some [], [0]⟩ ∧
    exampleSignals silentDescriptorFailureEnv exampleDiscovered
      = some [Signal.serviceStateChanged exampleUuidA ServiceState.ServiceDiscovered] ∧
    exampleOutcome silentDescriptorFailureEnv exampleDiscovered
      = some (ServiceState.ServiceDiscovered, ServiceError.NoError,
          [(17, { valueHandle := 18, uuid := QBluetoothUuid.fromShort 0x2A19,
                  properties := 18, value := [7, 9],
                  descriptorList := [(19, { uuid := QBluetoothUuid.fromShort 0x2902,
                                            value := [] })] })]) :=
  ⟨rfl, by decide, by decide⟩

end QLowEnergyControllerPrivate

namespace QLowEnergyControllerPrivate

theorem descriptorLoop_finished (env : GattEnv) (hService : Nat)
    (ds : List BTH_LE_GATT_DESCRIPTOR) :
    ∀ (detailsData : CharData) (p : ServicePass) (detailsData1 : CharData) (p1 : ServicePass),
      descriptorLoop env hService ds detailsData p = some (false, detailsData1, p1) →
      ∀ g, g ∈ ds → ∃ run value, getGattDescriptorValue env.gattFunctionsResolved
        (env.descriptorValue g) env.fuel = some run ∧
        run.systemErrorCode = NO_ERROR ∧ run.result = some value := by
  induction ds with
  | nil =>
    intro _ _ _ _ _ g hg
    exact absurd hg (List.not_mem_nil g)
  | cons g0 rest ih =>
    intro detailsData p detailsData1 p1 h g hg
    cases hq : getGattDescriptorValue env.gattFunctionsResolved (env.descriptorValue g0)
        env.fuel with
    | none => simp [descriptorLoop, hq] at h
    | some run =>
      by_cases hcode : run.systemErrorCode = NO_ERROR
      · cases hres : run.result with
        | none => simp [descriptorLoop, hq, hcode, hres] at h
        | some value =>
          simp only [descriptorLoop, hq, hcode, hres, ne_eq, not_true_eq_false, if_false] at h
          rcases List.mem_cons.mp hg with he | hrest
          · subst he
            exact ⟨run, value, hq, hcode, hres⟩
          · exact ih _ _ _ _ h g hrest
      · simp [descriptorLoop, hq, hcode] at h

/-- A characteristic loop that was not aborted met no fatal failure. -/
theorem characteristicLoop_finished (env : GattEnv) (hService : Nat)
    (cs : List BTH_LE_GATT_CHARACTERISTIC) :
    ∀ (p p1 : ServicePass),
      characteristicLoop env hService cs p = some (false, p1) → NoFatalFailure env cs := by
  induction cs with
  | nil =>
    intro _ _ _ c hc
    exact absurd hc (List.not_mem_nil c)
  | cons c0 rest ih =>
    intro p p1 h
    cases hv : getGattCharacteristicValue env.gattFunctionsResolved
        (env.characteristicValue c0) env.fuel with
    | none => simp [characteristicLoop, hv] at h
    | some valueRun =>
      cases hres : valueRun.result with
      | none => simp [characteristicLoop, hv, hres] at h
      | some value =>
        cases hq : enumerateGattDescriptors env.gattFunctionsResolved (env.descriptors c0)
            env.fuel with
        | none => simp [characteristicLoop, hv, hres, hq] at h
        | some found =>
          by_cases hfatal : found.systemErrorCode ≠ NO_ERROR ∧
              found.systemErrorCode ≠ ERROR_NOT_FOUND
          · simp only [characteristicLoop, hv, hres, hq] at h
            rw [if_pos hfatal] at h
            simp at h
          · simp only [characteristicLoop, hv, hres, hq] at h
            rw [if_neg hfatal] at h
            cases hd : descriptorLoop env hService found.result
                { uuid := qtBluetoothUuidFromNativeLeUuid c0.CharacteristicUuid,
                  valueHandle := c0.CharacteristicValueHandle,
                  properties := decodeProperties c0, value := value, descriptorList := [] }
                ({ p.1 with endHandle := max p.1.endHandle ((c0.AttributeHandle + 1) % 65536) },
                  p.2) with
            | none => simp [hd] at h
            | some res =>
              obtain ⟨dAborted, detailsData1, p2⟩ := res
              cases dAborted with
              | true => simp [hd] at h
              | false =>
                simp only [hd] at h
                have hrest := ih _ _ h
                have hdesc := descriptorLoop_finished env hService found.result _ _ _ _ hd
                intro c hc
                rcases List.mem_cons.mp hc with he | hr
                · subst he
                  refine ⟨⟨valueRun, value, hv, hres⟩, ⟨found, hq, ?_⟩, ?_⟩
                  · by_cases h0 : found.systemErrorCode = NO_ERROR
                    · exact Or.inl h0
                    · by_cases h1 : found.systemErrorCode = ERROR_NOT_FOUND
                      · exact Or.inr h1
                      · exact absurd ⟨h0, h1⟩ hfatal
                  · intro g hg
                    rw [foundDescriptorsOf_eq env c found hq] at hg
                    exact hdesc g hg
                · exact hrest c hr

end QLowEnergyControllerPrivate

namespace QLowEnergyControllerPrivate

/-- Every return of `discoverServiceDetails` on a service of the map: either a
failure was reported through `systemErrorCode` and the service asks for a
new discovery with an error other than `NoError`, or no failure was reported
and the service status is `ServiceDiscovered`. -/
theorem discoverServiceDetails_outcome (env : GattEnv) (service : QBluetoothUuid)
    (d r : QLowEnergyControllerPrivate) (servicePrivate updated : QLowEnergyServicePrivate)
    (hservice : NatMap.value d.serviceList service = some servicePrivate)
    (hrun : discoverServiceDetails env service d = some r)
    (hval : NatMap.value r.serviceList service = some updated) :
    (ReportsFailure env service ∧ updated.state = ServiceState.DiscoveryRequired ∧
      updated.error ≠ ServiceError.NoError) ∨
    (¬ReportsFailure env service ∧ updated.state = ServiceState.ServiceDiscovered ∧
      updated.error = servicePrivate.error) := by
  by_cases hopen : (openSystemService env.setupDi env.CreateFile service
      QIODevice.ReadOnly).2 = NO_ERROR
  · cases hq : enumerateGattCharacteristics env.gattFunctionsResolved env.characteristics
        env.fuel with
    | none => simp [discoverServiceDetails, hservice, hopen, hq] at hrun
    | some found =>
      by_cases hcode : found.systemErrorCode = NO_ERROR
      · cases hl : characteristicLoop env
            (openSystemService env.setupDi env.CreateFile service QIODevice.ReadOnly).1
            found.result
            ({ servicePrivate with endHandle := servicePrivate.startHandle },
              noteOpen (openSystemService env.setupDi env.CreateFile service
                QIODevice.ReadOnly).1 d) with
        | none => simp [discoverServiceDetails, hservice, hopen, hq, hcode, hl] at hrun
        | some res =>
          obtain ⟨aborted, p1⟩ := res
          obtain ⟨_, _, _, _, f5, f6⟩ := characteristicLoop_facts env _ found.result _ _ _ hl
          cases aborted with
          | true =>
            simp only [discoverServiceDetails, hservice, hopen, hq, hcode, ne_eq,
              not_true_eq_false, if_false, hl, Option.some.injEq] at hrun
            subst hrun
            rw [value_storeService] at hval
            simp only [Option.some.injEq] at hval
            subst hval
            obtain ⟨a1, a2, _⟩ := f5 rfl
            refine Or.inl ⟨Or.inr ⟨found, hq, Or.inr ?_⟩, a1, ?_⟩
            · intro hpass
              obtain ⟨p2, hfin⟩ := characteristicLoop_finishes env
                (openSystemService env.setupDi env.CreateFile service QIODevice.ReadOnly).1
                found.result
                ({ servicePrivate with endHandle := servicePrivate.startHandle },
                  noteOpen (openSystemService env.setupDi env.CreateFile service
                    QIODevice.ReadOnly).1 d) hpass
              rw [hl] at hfin
              simp at hfin
            · rw [a2]
              decide
          | false =>
            simp only [discoverServiceDetails, hservice, hopen, hq, hcode, ne_eq,
              not_true_eq_false, if_false, hl, Option.some.injEq] at hrun
            subst hrun
            rw [value_storeService] at hval
            simp only [Option.some.injEq] at hval
            subst hval
            obtain ⟨_, _, e3, _⟩ := f6 rfl
            have hf := QLowEnergyServicePrivate.setState_frame ServiceState.ServiceDiscovered
              (p1.1, noteClose (openSystemService env.setupDi env.CreateFile service
                QIODevice.ReadOnly).1 p1.2)
            refine Or.inr ⟨?_, hf.2.2.2.2.1, ?_⟩
            · rintro (hne | ⟨found1, hf1, hbad⟩)
              · exact hne hopen
              · rw [hq] at hf1
                simp only [Option.some.injEq] at hf1
                subst hf1
                rcases hbad with hb | hb
                · exact hb hcode
                · exact hb (characteristicLoop_finished env _ found.result _ _ hl)
            · rw [hf.2.2.2.2.2.1]
              exact e3
      · simp only [discoverServiceDetails, hservice, hopen, hq, ne_eq, hcode,
          not_true_eq_false, not_false_eq_true, if_true, if_false, Option.some.injEq] at hrun
        subst hrun
        rw [value_storeService] at hval
        simp only [Option.some.injEq] at hval
        subst hval
        have hf := QLowEnergyServicePrivate.abort_frame ServiceError.CharacteristicReadError
          (openSystemService env.setupDi env.CreateFile service QIODevice.ReadOnly).1
          { servicePrivate with endHandle := servicePrivate.startHandle }
          (noteOpen (openSystemService env.setupDi env.CreateFile service
            QIODevice.ReadOnly).1 d)
        refine Or.inl ⟨Or.inr ⟨found, hq, Or.inl hcode⟩, hf.2.2.2.2.1, ?_⟩
        rw [hf.2.2.2.2.2.1]
        decide
  · simp only [discoverServiceDetails, hservice, ne_eq, hopen, not_false_eq_true, if_true,
      Option.some.injEq] at hrun
    subst hrun
    rw [value_storeService] at hval
    simp only [Option.some.injEq] at hval
    subst hval
    have h1 := QLowEnergyServicePrivate.setState_frame ServiceState.DiscoveryRequired
      (QLowEnergyServicePrivate.setError ServiceError.UnknownError (servicePrivate,
        noteOpen (openSystemService env.setupDi env.CreateFile service
          QIODevice.ReadOnly).1 d))
    have h2 := QLowEnergyServicePrivate.setError_frame ServiceError.UnknownError
      (servicePrivate, noteOpen (openSystemService env.setupDi env.CreateFile service
        QIODevice.ReadOnly).1 d)
    refine Or.inl ⟨Or.inl hopen, h1.2.2.2.2.1, ?_⟩
    rw [h1.2.2.2.2.2.1, h2.2.2.2.2.2.1]
    decide

set_option maxRecDepth 8192 in
/-- C23, the code at the failing input. (a) The service handle of the battery
service opens and the characteristic enumeration fails hard while
`::GetLastError()` yields 0: the enumeration hands back `NO_ERROR` with no
characteristic, and `discoverServiceDetails` ends with the status
`ServiceDiscovered` and no error. (b) The enumeration of the descriptors of
the characteristic at handle 17 fails hard while `::GetLastError()` yields 0,
a code other than `ERROR_NOT_FOUND`: the pass goes on and ends with the
status `ServiceDiscovered` and no error, the characteristic cached without
descriptors. -/
theorem failed_enumeration_with_zero_last_error_ends_discovered :
    enumerateGattCharacteristics true silentEnumerationFailureEnv.characteristics 2
      = some ⟨NO_ERROR, [], [0]⟩ ∧
    exampleSignals silentEnumerationFailureEnv exampleDiscovered
      = some [Signal.serviceStateChanged exampleUuidA ServiceState.ServiceDiscovered] ∧
    exampleOutcome silentEnumerationFailureEnv exampleDiscovered
      = some (ServiceState.ServiceDiscovered, ServiceError.NoError, []) ∧
    enumerateGattDescriptors true
        (silentDescriptorEnumerationFailureEnv.descriptors exampleCharacteristic) 2
      = some ⟨NO_ERROR, [], [0]⟩ ∧
    NO_ERROR ≠ ERROR_NOT_FOUND ∧
    exampleSignals silentDescriptorEnumerationFailureEnv exampleDiscovered
      = some [Signal.serviceStateChanged exampleUuidA ServiceState.ServiceDiscovered] ∧
    exampleOutcome silentDescriptorEnumerationFailureEnv exampleDiscovered
      = some (ServiceState.ServiceDiscovered, ServiceError.NoError,
          [(17, { valueHandle := 18, uuid := QBluetoothUuid.fromShort 0x2A19,
                  properties := 18, value := [7, 9], descriptorList := [] })]) :=
  ⟨rfl, by decide, by decide, rfl, by decide, by decide, by decide⟩

end QLowEnergyControllerPrivate

namespace QLowEnergyControllerPrivate

/-- C24. `discoverServiceDetails` called with a service UUID that is not a key
of the service map is a no-op: for every native layer, one that answers no
query included, it returns the controller unchanged: no error is set, the
status, the handles and the characteristic map of every service are the
ones from before, and so are the logs of signals and of handles opened and
closed; the result depends on no reply of the native layer. -/
theorem unknown_service_is_noop (env : GattEnv) (service : QBluetoothUuid)
    (d : QLowEnergyControllerPrivate)
    (hunknown : NatMap.contains d.serviceList service = false) :
    discoverServiceDetails env service d = some d := by
  have hnone := NatMap.value_eq_none_of_not_contains d.serviceList service hunknown
  simp only [discoverServiceDetails, hnone]

/-- C24, witness: the example controller after its service discovery knows the
battery and the device-information service; a detail discovery of the
generic-access service 0x1800 leaves it as it was. -/
theorem unknown_service_is_noop_witness :
    NatMap.contains exampleDiscovered.serviceList (QBluetoothUuid.fromShort 0x1800) = false ∧
    discoverServiceDetails exampleEnv (QBluetoothUuid.fromShort 0x1800) exampleDiscovered
      = some exampleDiscovered :=
  ⟨by decide,
   unknown_service_is_noop exampleEnv (QBluetoothUuid.fromShort 0x1800) exampleDiscovered
     (by decide)⟩

theorem setState_state (newState : ControllerState) (d : QLowEnergyControllerPrivate) :
    (setState newState d).state = newState := by
  unfold setState
  split
  · assumption
  · rfl

/-- C25. No operation leaves the controller in an in-progress state. From a
controller whose state is Unconnected, Connected or Discovered, for every
identity resolver and every native layer: after `connectToDevice` and after
`disconnectFromDevice` the state is again Unconnected, Connected or
Discovered, and so it is after every `discoverServices` that returns; it
is never Connecting, Discovering or Closing. -/
theorem no_operation_ends_in_progress (resolver : Nat → List Nat) (CreateFile : CreateFileFn)
    (gattFunctionsResolved : Bool) (native : NativeLayer BTH_LE_GATT_SERVICE) (fuel : Nat)
    (d : QLowEnergyControllerPrivate) (hsettled : Settled d.state) :
    Settled (connectToDevice resolver d).state ∧
    Settled (disconnectFromDevice d).state ∧
    (∀ r, discoverServices CreateFile gattFunctionsResolved native fuel d = some r →
      Settled r.state) := by
  refine ⟨?_, ?_, ?_⟩
  · unfold connectToDevice
    split
    · exact hsettled
    · split
      · exact hsettled
      · simp only []
        split
        · rw [setState_state]
          exact Or.inl rfl
        · show Settled (setState ControllerState.ConnectedState _).state
          rw [setState_state]
          exact Or.inr (Or.inl rfl)
  · unfold disconnectFromDevice
    split
    · exact hsettled
    · show Settled (setState ControllerState.UnconnectedState _).state
      rw [setState_state]
      exact Or.inl rfl
  · intro r hr
    unfold discoverServices at hr
    simp only [] at hr
    split at hr
    · simp only [Option.some.injEq] at hr
      rw [← hr, setState_state]
      exact Or.inr (Or.inl rfl)
    · split at hr
      · exact absurd hr (by simp)
      · split at hr
        · simp only [Option.some.injEq] at hr
          rw [← hr, setState_state]
          exact Or.inr (Or.inl rfl)
        · simp only [Option.some.injEq] at hr
          rw [← hr]
          show Settled (setState ControllerState.DiscoveredState _).state
          rw [setState_state]
          exact Or.inr (Or.inr rfl)

set_option maxRecDepth 8192 in
/-- C25, witness: from the connected example controller, a second connect, a
disconnect, a service discovery that succeeds and one whose enumeration
fails hard end in the states Connected, Unconnected, Discovered and
Connected. -/
theorem no_operation_ends_in_progress_witness :
    Settled exampleConnected.state ∧
    (connectToDevice exampleResolver exampleConnected).state = ControllerState.ConnectedState ∧
    (disconnectFromDevice exampleConnected).state = ControllerState.UnconnectedState ∧
    (discoverServices exampleCreateFile true retryOnceLayer 2 exampleConnected).map
        (fun r => r.state) = some ControllerState.DiscoveredState ∧
    (discoverServices exampleCreateFile true failingServiceLayer 2 exampleConnected).map
        (fun r => r.state) = some ControllerState.ConnectedState ∧
    Settled (connectToDevice exampleResolver exampleConnected).state ∧
    Settled (disconnectFromDevice exampleConnected).state ∧
    (∀ r, discoverServices exampleCreateFile true failingServiceLayer 2 exampleConnected
        = some r → Settled r.state) :=
  ⟨Or.inr (Or.inl (by decide)), by decide, by decide, by decide, by decide,
   (no_operation_ends_in_progress exampleResolver exampleCreateFile true failingServiceLayer 2
     exampleConnected (Or.inr (Or.inl (by decide)))).1,
   (no_operation_ends_in_progress exampleResolver exampleCreateFile true failingServiceLayer 2
     exampleConnected (Or.inr (Or.inl (by decide)))).2.1,
   (no_operation_ends_in_progress exampleResolver exampleCreateFile true failingServiceLayer 2
     exampleConnected (Or.inr (Or.inl (by decide)))).2.2⟩

end QLowEnergyControllerPrivate

/-! ## The end handle during a detail discovery -/

namespace QLowEnergyControllerPrivate

/-- The end handle after a return of `discoverServiceDetails` on a service of
the map: the one from before when the service handle did not open, and not
below the start handle otherwise. -/
theorem discoverServiceDetails_endHandle (env : GattEnv) (service : QBluetoothUuid)
    (d r : QLowEnergyControllerPrivate) (servicePrivate updated : QLowEnergyServicePrivate)
    (hservice : NatMap.value d.serviceList service = some servicePrivate)
    (hrun : discoverServiceDetails env service d = some r)
    (hval : NatMap.value r.serviceList service = some updated) :
    updated.endHandle = servicePrivate.endHandle ∨
      servicePrivate.startHandle ≤ updated.endHandle := by
  by_cases hopen : (openSystemService env.setupDi env.CreateFile service
      QIODevice.ReadOnly).2 = NO_ERROR
  · right
    cases hq : enumerateGattCharacteristics env.gattFunctionsResolved env.characteristics
        env.fuel with
    | none => simp [discoverServiceDetails, hservice, hopen, hq] at hrun
    | some found =>
      by_cases hcode : found.systemErrorCode = NO_ERROR
      · cases hl : characteristicLoop env
            (openSystemService env.setupDi env.CreateFile service QIODevice.ReadOnly).1
            found.result
            ({ servicePrivate with endHandle := servicePrivate.startHandle },
              noteOpen (openSystemService env.setupDi env.CreateFile service
                QIODevice.ReadOnly).1 d) with
        | none => simp [discoverServiceDetails, hservice, hopen, hq, hcode, hl] at hrun
        | some res =>
          obtain ⟨aborted, p1⟩ := res
          obtain ⟨_, _, f3, _⟩ := characteristicLoop_facts env _ found.result _ _ _ hl
          cases aborted with
          | true =>
            simp only [discoverServiceDetails, hservice, hopen, hq, hcode, ne_eq,
              not_true_eq_false, if_false, hl, Option.some.injEq] at hrun
            subst hrun
            rw [value_storeService] at hval
            simp only [Option.some.injEq] at hval
            subst hval
            exact f3
          | false =>
            simp only [discoverServiceDetails, hservice, hopen, hq, hcode, ne_eq,
              not_true_eq_false, if_false, hl, Option.some.injEq] at hrun
            subst hrun
            rw [value_storeService] at hval
            simp only [Option.some.injEq] at hval
            subst hval
            rw [(QLowEnergyServicePrivate.setState_frame ServiceState.ServiceDiscovered _).2.1]
            exact f3
      · simp only [discoverServiceDetails, hservice, hopen, hq, ne_eq, hcode,
          not_true_eq_false, not_false_eq_true, if_true, if_false, Option.some.injEq] at hrun
        subst hrun
        rw [value_storeService] at hval
        simp only [Option.some.injEq] at hval
        subst hval
        rw [(QLowEnergyServicePrivate.abort_frame ServiceError.CharacteristicReadError
          _ _ _).2.1]
  · left
    simp only [discoverServiceDetails, hservice, ne_eq, hopen, not_false_eq_true, if_true,
      Option.some.injEq] at hrun
    subst hrun
    rw [value_storeService] at hval
    simp only [Option.some.injEq] at hval
    subst hval
    rw [(QLowEnergyServicePrivate.setState_frame ServiceState.DiscoveryRequired _).2.1,
      (QLowEnergyServicePrivate.setError_frame ServiceError.UnknownError _).2.1]

set_option maxRecDepth 8192 in
/-- C26, counterexample. The detail discovery of the example leaves the battery
service (start handle 16) with the end handle 19. A re-discovery of that
service in which the native layer reports no characteristic ends with the
end handle 16: no characteristic step and no descriptor step took place, the
initial assignment `endHandle = startHandle` lowered the end handle from 19
to 16. A re-discovery that finds one characteristic at handle 16 ends with
the end handle 17, below 19 as well. -/
theorem rediscovery_lowers_end_handle :
    exampleEndHandle exampleEnv exampleDiscovered = some 19 ∧
    exampleDetailedService.endHandle = 19 ∧
    exampleEndHandle (noDescriptorEnv []) exampleDetailed = some 16 ∧
    exampleEndHandle (noDescriptorEnv [exampleCharacteristicAt 16]) exampleDetailed = some 17 := by
  decide

/-- C26, amended. Within a pass of `discoverServiceDetails`, no characteristic
step and no descriptor step lowers the service's `endHandle`: from every
state, after any run of descriptor steps, and after any run of
characteristic steps with their descriptor steps, aborted or not, `endHandle`
is not below the value it had before. The initial assignment sets
`endHandle` to `startHandle`: after a pass `endHandle` is the one from
before (the service handle did not open) or not below `startHandle`, so a
pass on a service whose `endHandle` is not above its `startHandle`, as on the
first discovery, does not lower `endHandle`. -/
theorem end_handle_steps_do_not_lower (env : GattEnv) (hService : Nat) :
    (∀ (ds : List BTH_LE_GATT_DESCRIPTOR) (detailsData : CharData) (p : ServicePass)
        (aborted : Bool) (detailsData1 : CharData) (p1 : ServicePass),
      descriptorLoop env hService ds detailsData p = some (aborted, detailsData1, p1) →
      p.1.endHandle ≤ p1.1.endHandle) ∧
    (∀ (cs : List BTH_LE_GATT_CHARACTERISTIC) (p : ServicePass) (aborted : Bool)
        (p1 : ServicePass),
      characteristicLoop env hService cs p = some (aborted, p1) →
      p.1.endHandle ≤ p1.1.endHandle) ∧
    (∀ (service : QBluetoothUuid) (d r : QLowEnergyControllerPrivate)
        (servicePrivate updated : QLowEnergyServicePrivate),
      NatMap.value d.serviceList service = some servicePrivate →
      discoverServiceDetails env service d = some r →
      NatMap.value r.serviceList service = some updated →
      (updated.endHandle = servicePrivate.endHandle ∨
        servicePrivate.startHandle ≤ updated.endHandle) ∧
      (servicePrivate.endHandle ≤ servicePrivate.startHandle →
        servicePrivate.endHandle ≤ updated.endHandle)) := by
  refine ⟨?_, ?_, ?_⟩
  · intro ds detailsData p aborted detailsData1 p1 h
    exact (descriptorLoop_facts env hService ds _ _ _ _ _ h).2.2.2.1
  · intro cs p aborted p1 h
    exact (characteristicLoop_facts env hService cs _ _ _ h).2.2.1
  · intro service d r servicePrivate updated hservice hrun hval
    have hend := discoverServiceDetails_endHandle env service d r servicePrivate updated
      hservice hrun hval
    refine ⟨hend, fun hle => ?_⟩
    rcases hend with h | h
    · exact le_of_eq h.symm
    · exact le_trans hle h

set_option maxRecDepth 8192 in
/-- C26, witness: the characteristic loop of the example (one characteristic at
handle 17 with one descriptor at handle 19) takes the end handle from 16 to
19; the first detail discovery of the battery service of the example takes
it from 0, not above the start handle 16, to 19. -/
theorem end_handle_steps_do_not_lower_witness :
    characteristicLoop exampleEnv 7 [exampleCharacteristic] exampleLoopStart
      = some (false, exampleLoopEnd) ∧
    exampleLoopStart.1.endHandle ≤ exampleLoopEnd.1.endHandle ∧
    (exampleLoopStart.1.endHandle, exampleLoopEnd.1.endHandle) = (16, 19) ∧
    NatMap.value exampleDiscovered.serviceList exampleUuidA
      = some { newService with uuid := exampleUuidA, startHandle := 16 } ∧
    discoverServiceDetails exampleEnv exampleUuidA exampleDiscovered = some exampleDetailed ∧
    NatMap.value exampleDetailed.serviceList exampleUuidA = some exampleDetailedService ∧
    (0 : Nat) ≤ 16 ∧
    (0 : Nat) ≤ exampleDetailedService.endHandle ∧
    exampleDetailedService.endHandle = 19 :=
  ⟨rfl,
   (end_handle_steps_do_not_lower exampleEnv 7).2.1 [exampleCharacteristic] exampleLoopStart
     false exampleLoopEnd rfl,
   by decide, by decide, by decide, by decide, by decide,
   ((end_handle_steps_do_not_lower exampleEnv 7).2.2 exampleUuidA exampleDiscovered
     exampleDetailed { newService with uuid := exampleUuidA, startHandle := 16 }
     exampleDetailedService (by decide) (by decide) (by decide)).2 (by decide),
   by decide⟩

end QLowEnergyControllerPrivate

/-! ## The property flags -/

set_option maxRecDepth 65536 in
theorem decodeProperties_flags :
    ∀ b1 b2 b3 b4 b5 b6 b7 b8 : Bool,
      decide (decodeProperties ⟨0, BTH_LE_UUID.LongUuid 0, 0, 0, b1, b2, b3, b4, b5, b6, b7, b8⟩
        &&& QLowEnergyCharacteristic.ExtendedProperty ≠ 0) = b8 ∧
      decide (decodeProperties ⟨0, BTH_LE_UUID.LongUuid 0, 0, 0, b1, b2, b3, b4, b5, b6, b7, b8⟩
        &&& QLowEnergyCharacteristic.Broadcasting ≠ 0) = b1 ∧
      decide (decodeProperties ⟨0, BTH_LE_UUID.LongUuid 0, 0, 0, b1, b2, b3, b4, b5, b6, b7, b8⟩
        &&& QLowEnergyCharacteristic.Indicate ≠ 0) = b7 ∧
      decide (decodeProperties ⟨0, BTH_LE_UUID.LongUuid 0, 0, 0, b1, b2, b3, b4, b5, b6, b7, b8⟩
        &&& QLowEnergyCharacteristic.Notify ≠ 0) = b6 ∧
      decide (decodeProperties ⟨0, BTH_LE_UUID.LongUuid 0, 0, 0, b1, b2, b3, b4, b5, b6, b7, b8⟩
        &&& QLowEnergyCharacteristic.Read ≠ 0) = b2 ∧
      decide (decodeProperties ⟨0, BTH_LE_UUID.LongUuid 0, 0, 0, b1, b2, b3, b4, b5, b6, b7, b8⟩
        &&& QLowEnergyCharacteristic.WriteSigned ≠ 0) = b5 ∧
      decide (decodeProperties ⟨0, BTH_LE_UUID.LongUuid 0, 0, 0, b1, b2, b3, b4, b5, b6, b7, b8⟩
        &&& QLowEnergyCharacteristic.Write ≠ 0) = b3 ∧
      decide (decodeProperties ⟨0, BTH_LE_UUID.LongUuid 0, 0, 0, b1, b2, b3, b4, b5, b6, b7, b8⟩
        &&& QLowEnergyCharacteristic.WriteNoResponse ≠ 0) = b4 := by
  decide

/-- The property set built from the eight native booleans of a characteristic:
each test `properties & flag` of `recoverNativeLeGattCharacteristic` gives
back the boolean the flag was set from. -/
theorem decodeProperties_tests (c : BTH_LE_GATT_CHARACTERISTIC) :
    decide (decodeProperties c &&& QLowEnergyCharacteristic.ExtendedProperty ≠ 0)
      = c.HasExtendedProperties ∧
    decide (decodeProperties c &&& QLowEnergyCharacteristic.Broadcasting ≠ 0)
      = c.IsBroadcastable ∧
    decide (decodeProperties c &&& QLowEnergyCharacteristic.Indicate ≠ 0) = c.IsIndicatable ∧
    decide (decodeProperties c &&& QLowEnergyCharacteristic.Notify ≠ 0) = c.IsNotifiable ∧
    decide (decodeProperties c &&& QLowEnergyCharacteristic.Read ≠ 0) = c.IsReadable ∧
    decide (decodeProperties c &&& QLowEnergyCharacteristic.WriteSigned ≠ 0)
      = c.IsSignedWritable ∧
    decide (decodeProperties c &&& QLowEnergyCharacteristic.Write ≠ 0) = c.IsWritable ∧
    decide (decodeProperties c &&& QLowEnergyCharacteristic.WriteNoResponse ≠ 0)
      = c.IsWritableWithoutResponse := by
  obtain ⟨sh, uuid, ah, vh, b1, b2, b3, b4, b5, b6, b7, b8⟩ := c
  have hsame : decodeProperties ⟨sh, uuid, ah, vh, b1, b2, b3, b4, b5, b6, b7, b8⟩
      = decodeProperties ⟨0, BTH_LE_UUID.LongUuid 0, 0, 0, b1, b2, b3, b4, b5, b6, b7, b8⟩ := rfl
  rw [hsame]
  exact decodeProperties_flags b1 b2 b3 b4 b5 b6 b7 b8

/-- C27. The capability-flag codec is a round trip. For every native
characteristic, whatever its eight booleans, and for every cached
characteristic data whose property set is the one `discoverServiceDetails`
decodes from them: the native characteristic rebuilt by
`recoverNativeLeGattCharacteristic` has the same eight booleans, and its
service handle, attribute handle and value handle are the service handle and
the characteristic handle handed in and the cached value handle. -/
theorem property_flags_round_trip (c : BTH_LE_GATT_CHARACTERISTIC)
    (serviceHandle characteristicHandle : QLowEnergyHandle) (characteristicData : CharData)
    (hdecoded : characteristicData.properties = decodeProperties c) :
    (recoverNativeLeGattCharacteristic serviceHandle characteristicHandle
      characteristicData).HasExtendedProperties = c.HasExtendedProperties ∧
    (recoverNativeLeGattCharacteristic serviceHandle characteristicHandle
      characteristicData).IsBroadcastable = c.IsBroadcastable ∧
    (recoverNativeLeGattCharacteristic serviceHandle characteristicHandle
      characteristicData).IsIndicatable = c.IsIndicatable ∧
    (recoverNativeLeGattCharacteristic serviceHandle characteristicHandle
      characteristicData).IsNotifiable = c.IsNotifiable ∧
    (recoverNativeLeGattCharacteristic serviceHandle characteristicHandle
      characteristicData).IsReadable = c.IsReadable ∧
    (recoverNativeLeGattCharacteristic serviceHandle characteristicHandle
      characteristicData).IsSignedWritable = c.IsSignedWritable ∧
    (recoverNativeLeGattCharacteristic serviceHandle characteristicHandle
      characteristicData).IsWritable = c.IsWritable ∧
    (recoverNativeLeGattCharacteristic serviceHandle characteristicHandle
      characteristicData).IsWritableWithoutResponse = c.IsWritableWithoutResponse ∧
    (recoverNativeLeGattCharacteristic serviceHandle characteristicHandle
      characteristicData).ServiceHandle = serviceHandle ∧
    (recoverNativeLeGattCharacteristic serviceHandle characteristicHandle
      characteristicData).AttributeHandle = characteristicHandle ∧
    (recoverNativeLeGattCharacteristic serviceHandle characteristicHandle
      characteristicData).CharacteristicValueHandle = characteristicData.valueHandle := by
  obtain ⟨t1, t2, t3, t4, t5, t6, t7, t8⟩ := decodeProperties_tests c
  refine ⟨?_, ?_, ?_, ?_, ?_, ?_, ?_, ?_, rfl, rfl, rfl⟩ <;>
    simp only [recoverNativeLeGattCharacteristic, hdecoded] <;> assumption

set_option maxRecDepth 8192 in
/-- C27, witness: the battery-level characteristic of the example (readable and
notifiable) and the data its detail discovery caches for it, rebuilt with the
service handle 16 and the characteristic handle 17. -/
theorem property_flags_round_trip_witness :
    exampleDetailedChar.properties = decodeProperties exampleCharacteristic ∧
    exampleDetailedChar.properties = 0x12 ∧
    (recoverNativeLeGattCharacteristic 16 17 exampleDetailedChar).IsReadable = true ∧
    (recoverNativeLeGattCharacteristic 16 17 exampleDetailedChar).IsWritable = false ∧
    (recoverNativeLeGattCharacteristic 16 17 exampleDetailedChar).CharacteristicValueHandle
      = 18 :=
  ⟨by decide, by decide,
   (property_flags_round_trip exampleCharacteristic 16 17 exampleDetailedChar
     (by decide)).2.2.2.2.1,
   (property_flags_round_trip exampleCharacteristic 16 17 exampleDetailedChar
     (by decide)).2.2.2.2.2.2.1,
   by decide⟩

/-! ## The buffer of a value retrieval -/

theorem takeWhile_before_terminator (l : List Nat) :
    ((l ++ [0]).takeWhile (fun b => b != 0)).length ≤ l.length := by
  induction l with
  | nil => simp
  | cons a rest ih =>
    simp only [List.cons_append, List.takeWhile_cons]
    split
    · simp only [List.length_cons]
      omega
    · simp

/-- The branches of `readValue`, by the place of the `DataSize` field and of
the bytes read behind it in the memory of the buffer. -/
theorem readValue_cases (dataSizeOffset : Nat) (valueBuffer : List Nat) :
    (valueBuffer.length + 1 < dataSizeOffset + 4 →
      readValue dataSizeOffset valueBuffer = none) ∧
    (dataSizeOffset + 4 ≤ valueBuffer.length + 1 →
      (readDataSize ((bufferMemory valueBuffer).drop dataSizeOffset) % 2 ^ 32 < 2 ^ 31 →
        (dataSizeOffset + 4
            + readDataSize ((bufferMemory valueBuffer).drop dataSizeOffset) % 2 ^ 32
            ≤ valueBuffer.length + 1 →
          readValue dataSizeOffset valueBuffer
            = some (((bufferMemory valueBuffer).drop (dataSizeOffset + 4)).take
                (readDataSize ((bufferMemory valueBuffer).drop dataSizeOffset) % 2 ^ 32))) ∧
        (valueBuffer.length + 1 < dataSizeOffset + 4
            + readDataSize ((bufferMemory valueBuffer).drop dataSizeOffset) % 2 ^ 32 →
          readValue dataSizeOffset valueBuffer = none)) ∧
      (2 ^ 31 ≤ readDataSize ((bufferMemory valueBuffer).drop dataSizeOffset) % 2 ^ 32 →
        (dataSizeOffset + 4 ≤ valueBuffer.length →
          readValue dataSizeOffset valueBuffer
            = some (((bufferMemory valueBuffer).drop (dataSizeOffset + 4)).takeWhile
                (fun b => b != 0)) ∧
          dataSizeOffset + 4
              + (((bufferMemory valueBuffer).drop (dataSizeOffset + 4)).takeWhile
                  (fun b => b != 0)).length
            ≤ valueBuffer.length) ∧
        (valueBuffer.length < dataSizeOffset + 4 →
          readValue dataSizeOffset valueBuffer = none))) := by
  have hlen := bufferMemory_length valueBuffer
  refine ⟨fun hshort => ?_, fun hheader =>
    ⟨fun hsize => ⟨fun hfit => ?_, fun hover => ?_⟩,
     fun hneg => ⟨fun hstart => ⟨?_, ?_⟩, fun hstart => ?_⟩⟩⟩
  · unfold readValue
    rw [if_neg (by omega)]
  · unfold readValue
    simp only []
    rw [if_pos (by omega), if_pos hsize, if_pos (by omega)]
  · unfold readValue
    simp only []
    rw [if_pos (by omega), if_pos hsize, if_neg (by omega)]
  · unfold readValue
    simp only []
    rw [if_pos (by omega), if_neg (by omega), if_pos (by omega)]
  · have hdrop : (bufferMemory valueBuffer).drop (dataSizeOffset + 4)
        = valueBuffer.drop (dataSizeOffset + 4) ++ [0] := by
      unfold bufferMemory
      rw [List.drop_append_of_le_length hstart]
    have hle := takeWhile_before_terminator (valueBuffer.drop (dataSizeOffset + 4))
    rw [← hdrop, List.length_drop] at hle
    omega
  · unfold readValue
    simp only []
    rw [if_pos (by omega), if_neg (by omega), if_neg (by omega)]

/-- C28, counterexample. (a) The native call succeeds on the first call, the
one with capacity 0: `getGattCharacteristicValue` and `getGattDescriptorValue`
reach their success branch with the empty buffer and read the `DataSize`
field outside its memory. (b) The native call asks for five bytes and then
succeeds with a header that announces three bytes of data: the success
branch of `getGattCharacteristicValue` copies three bytes from offset 4 of
a buffer of five bytes. (c) The native call asks for six bytes and stores a
4-byte length 2 and two bytes of data: `getGattDescriptorValue` reads the
`DataSize` field at byte offset 72 of that buffer of six bytes. (d) The
native call asks for five bytes and then succeeds with a header that
announces two bytes of data: the buffer does not hold the header and two
bytes, and the value `getGattCharacteristicValue` hands back is the byte 7
followed by the terminating zero byte behind the buffer. -/
theorem success_branch_reads_outside_buffer :
    getGattCharacteristicValue true immediateValueLayer 1 = some ⟨NO_ERROR, none, [0]⟩ ∧
    getGattDescriptorValue true immediateValueLayer 1 = some ⟨NO_ERROR, none, [0]⟩ ∧
    successBuffer immediateValueLayer [] [2, 0, 0, 0, 7, 9] = [] ∧
    getGattCharacteristicValue true shortValueLayer 2 = some ⟨NO_ERROR, none, [0, 5]⟩ ∧
    successBuffer shortValueLayer [5] [3, 0, 0, 0, 7, 9, 4] = [3, 0, 0, 0, 7] ∧
    readDataSize [3, 0, 0, 0, 7] = 3 ∧
    getGattDescriptorValue true valueOnceLayer 2 = some ⟨NO_ERROR, none, [0, 6]⟩ ∧
    successBuffer valueOnceLayer [6] [2, 0, 0, 0, 7, 9] = [2, 0, 0, 0, 7, 9] ∧
    descriptorValueDataSizeOffset = 72 ∧
    getGattCharacteristicValue true tightValueLayer 2
      = some ⟨NO_ERROR, some [7, 0], [0, 5]⟩ ∧
    successBuffer tightValueLayer [5] [2, 0, 0, 0, 7, 9] = [2, 0, 0, 0, 7] :=
  ⟨rfl, rfl, rfl, rfl, rfl, rfl, rfl, rfl, rfl, rfl, rfl⟩

/-- C28, amended. For every native response sequence on which
`getGattCharacteristicValue` or `getGattDescriptorValue` reaches its success
branch (insufficient-space replies announcing the sizes `sizes`, then
`S_OK`), the retrieval returns `NO_ERROR`, and the buffer it reads has the
size `n` announced last, 0 when nothing was announced; bytes the native call
did not store are the uninitialised ones the resizes left. The code checks
nothing against that size. The `DataSize` field is read at byte offset 0 for
a characteristic value and 72 for a descriptor value, the data right behind
it. The memory of the buffer is its `n` bytes and the terminating zero byte
behind them. The read stays inside that memory in two cases: the field and
the `DataSize` bytes behind it, `DataSize` below 2^31, end within the
`n + 1` bytes, and these bytes are the value handed back; or the field is
followed by at least one byte of that memory and `DataSize` is 2^31 or more,
and the bytes behind the field in front of the first zero byte are handed
back, all of them bytes of the buffer. In every other case (the field not
inside the memory, as after a first call that succeeds with capacity 0, or
fewer bytes behind the field than `DataSize`) the success branch reads
outside the memory of the buffer. -/
theorem value_read_within_announced_size (native : ValueLayer) (sizes : List Nat)
    (fuel : Nat) (w : List Nat)
    (hfuel : sizes.length < fuel)
    (hmore : AnswersMoreData native.reply sizes)
    (hok : native.reply sizes.length = NativeReply.ok w) :
    getGattCharacteristicValue true native fuel
      = some ⟨NO_ERROR, readValue 0 (successBuffer native sizes w), 0 :: sizes⟩ ∧
    getGattDescriptorValue true native fuel
      = some ⟨NO_ERROR, readValue 72 (successBuffer native sizes w), 0 :: sizes⟩ ∧
    (successBuffer native sizes w).length = lastAnnounced 0 sizes ∧
    (∀ dataSizeOffset : Nat,
      (lastAnnounced 0 sizes + 1 < dataSizeOffset + 4 →
        readValue dataSizeOffset (successBuffer native sizes w) = none) ∧
      (dataSizeOffset + 4 ≤ lastAnnounced 0 sizes + 1 →
        (readDataSize ((bufferMemory (successBuffer native sizes w)).drop dataSizeOffset)
            % 2 ^ 32 < 2 ^ 31 →
          (dataSizeOffset + 4
              + readDataSize ((bufferMemory (successBuffer native sizes w)).drop
                  dataSizeOffset) % 2 ^ 32 ≤ lastAnnounced 0 sizes + 1 →
            readValue dataSizeOffset (successBuffer native sizes w)
              = some (((bufferMemory (successBuffer native sizes w)).drop
                  (dataSizeOffset + 4)).take
                  (readDataSize ((bufferMemory (successBuffer native sizes w)).drop
                    dataSizeOffset) % 2 ^ 32))) ∧
          (lastAnnounced 0 sizes + 1 < dataSizeOffset + 4
              + readDataSize ((bufferMemory (successBuffer native sizes w)).drop
                  dataSizeOffset) % 2 ^ 32 →
            readValue dataSizeOffset (successBuffer native sizes w) = none)) ∧
        (2 ^ 31 ≤ readDataSize ((bufferMemory (successBuffer native sizes w)).drop
            dataSizeOffset) % 2 ^ 32 →
          (dataSizeOffset + 4 ≤ lastAnnounced 0 sizes →
            readValue dataSizeOffset (successBuffer native sizes w)
              = some (((bufferMemory (successBuffer native sizes w)).drop
                  (dataSizeOffset + 4)).takeWhile (fun b => b != 0)) ∧
            dataSizeOffset + 4
                + (((bufferMemory (successBuffer native sizes w)).drop
                    (dataSizeOffset + 4)).takeWhile (fun b => b != 0)).length
              ≤ lastAnnounced 0 sizes) ∧
          (lastAnnounced 0 sizes < dataSizeOffset + 4 →
            readValue dataSizeOffset (successBuffer native sizes w) = none)))) := by
  have hlen : (successBuffer native sizes w).length = lastAnnounced 0 sizes := by
    unfold successBuffer
    rw [fill_length, resizeAllBytes_length]
    rfl
  refine ⟨?_, ?_, hlen, fun dataSizeOffset => ?_⟩
  · have hloop := (valueLoop_settles native characteristicValueDataSizeOffset sizes fuel hfuel
      hmore).1 w hok
    simp only [getGattCharacteristicValue, Bool.not_true, Bool.false_eq_true, if_false, hloop]
    rfl
  · have hloop := (valueLoop_settles native descriptorValueDataSizeOffset sizes fuel hfuel
      hmore).1 w hok
    simp only [getGattDescriptorValue, Bool.not_true, Bool.false_eq_true, if_false, hloop]
    rfl
  · have hcases := readValue_cases dataSizeOffset (successBuffer native sizes w)
    rw [hlen] at hcases
    exact hcases

set_option maxRecDepth 8192 in
/-- C28, witness: the native layer asks for six bytes, then stores the length
2 and the data 7, 9; the characteristic value read from the buffer of six
bytes is 7, 9. Three more runs of the success branch that stay inside the
memory of the buffer: 78 bytes announced and a descriptor value stored
behind the 72 bytes in front of `DataSize`, the value is 7, 9; eight bytes
announced and only the length 2 and the byte 7 stored, the value is 7
followed by the uninitialised byte 190; eight bytes announced and a
`DataSize` of 2^31 stored before 7, 9, 0, 5, the value is 7, 9; the same
with 7, 9, 1, 5 stored, the value is these four bytes, the scan stops at the
terminating zero byte. -/
theorem value_read_within_announced_size_witness :
    AnswersMoreData valueOnceLayer.reply [6] ∧
    valueOnceLayer.reply 1 = NativeReply.ok [2, 0, 0, 0, 7, 9] ∧
    getGattCharacteristicValue true valueOnceLayer 2 = some ⟨NO_ERROR, some [7, 9], [0, 6]⟩ ∧
    getGattDescriptorValue true descriptorValueOnceLayer 2
      = some ⟨NO_ERROR, some [7, 9], [0, 78]⟩ ∧
    getGattCharacteristicValue true shortWriteValueLayer 2
      = some ⟨NO_ERROR, some [7, 190], [0, 8]⟩ ∧
    getGattCharacteristicValue true negativeSizeValueLayer 2
      = some ⟨NO_ERROR, some [7, 9], [0, 8]⟩ ∧
    getGattCharacteristicValue true unterminatedValueLayer 2
      = some ⟨NO_ERROR, some [7, 9, 1, 5], [0, 8]⟩ := by
  have hmore : AnswersMoreData valueOnceLayer.reply [6] := answersMoreData_single _ 6 rfl
  have h := value_read_within_announced_size valueOnceLayer [6] 2 [2, 0, 0, 0, 7, 9]
    (by decide) hmore rfl
  have hread := (((h.2.2.2 0).2 (by decide)).1 (by decide)).1 (by decide)
  refine ⟨hmore, rfl, ?_, QLowEnergyControllerPrivate.descriptorValueOnceLayer_run, rfl, rfl,
    rfl⟩
  rw [h.1, hread]
  rfl

/-! ## Properties of the service map after a discovery -/

namespace QLowEnergyControllerPrivate

end QLowEnergyControllerPrivate

namespace QLowEnergyControllerPrivate

end QLowEnergyControllerPrivate

end QLowEnergyWin
